import Mathlib

/-!
Verification of the helm-ttl TTL lifecycle orchestration engine against its
specification.  The Go sources under pkg/ttl are shallowly embedded: the
Kubernetes API client is modelled as a pure state (lists of typed objects
plus an error-injection table mirroring the fake clientset reactors used by
the repository's tests), and every public operation becomes a pure function
on that state.  Machine integers are modelled as Nat/Int; Go maps become
association lists; fallible calls return Except values.
-/

namespace HelmTTL

/-! ## Labels (Go map[string]string, modelled as an association list) -/

/-- Association-list model of a Go string map.  Lookup of a missing key
yields the empty string, exactly like Go map indexing. -/
abbrev Labels := List (String × String)

/-- Reads a key from a label map; missing keys give the empty string, as in
Go map indexing. -/
def getLabel (ls : Labels) (k : String) : String :=
  match ls.find? (fun p => p.1 = k) with
  | some p => p.2
  | none => ""

/-- Writes a key into a label map (m[k] = v in Go): overwrites an existing
entry, otherwise appends. -/
def setLabel (ls : Labels) (k v : String) : Labels :=
  if ls.any (fun p => p.1 = k) then
    ls.map (fun p => if p.1 = k then (k, v) else p)
  else ls ++ [(k, v)]

/-! ## Constants from cronjob.go -/

def LabelManagedBy : String := "app.kubernetes.io/managed-by"
def LabelManagedByValue : String := "helm-ttl"
def LabelRelease : String := "helm-ttl/release"
def LabelReleaseNamespace : String := "helm-ttl/release-namespace"
def LabelCronjobNamespace : String := "helm-ttl/cronjob-namespace"
def LabelDeleteNamespace : String := "helm-ttl/delete-namespace"
def LabelTriggeredBy : String := "helm-ttl/triggered-by"

/-- Maximum length for CronJob names (cronjob.go maxResourceNameLen). -/
def maxResourceNameLen : Nat := 52

/-- Default Helm image; in the source it is parsed from an embedded
Dockerfile FROM line, whose content the tests pin to an alpine/helm tag. -/
def DefaultHelmImage : String := "alpine/helm:latest"

/-- Default kubectl image, likewise parsed from an embedded Dockerfile. -/
def DefaultKubectlImage : String := "alpine/k8s:latest"

/-! ## ResourceName (cronjob.go) -/

/-- ResourceName returns the standard resource name for a release TTL, of
the form release-releaseNamespace-ttl, failing when the result exceeds 52
characters (cronjob.go ResourceName). -/
def resourceName (releaseName releaseNamespace : String) : Except String String :=
  let name := releaseName ++ "-" ++ releaseNamespace ++ "-ttl"
  if name.length > maxResourceNameLen then
    .error ("resource name " ++ name ++ " exceeds maximum length of 52 characters; use shorter release or namespace names")
  else .ok name

/-! ## Instants and the cron schedule codec

The Go file holding ParseTimeInput, TimeToCronSchedule and ParseCronSchedule
is not present in the sources (only its test file and its callers are), so
these three functions are modelled from the spec. -/

/-- Broken-down instant: the components of a Go time.Time that the schedule
codec reads (year, month, day-of-month, hour, minute, second). -/
structure DateTime where
  year : Nat
  month : Nat
  day : Nat
  hour : Nat
  minute : Nat
  second : Nat
deriving DecidableEq, Repr, Inhabited

/-- Decimal digit character for n below 10. -/
def digitChar (n : Nat) : Char := Char.ofNat (48 + n)

/-- Decimal digits of a number, fuelled so the definition is structural and
kernel-evaluable; natToChars supplies enough fuel for any input. -/
def natDigitsAux : Nat → Nat → List Char
  | 0, _ => []
  | fuel + 1, n =>
    if n < 10 then [digitChar n]
    else natDigitsAux fuel (n / 10) ++ [digitChar (n % 10)]

/-- Decimal representation of a Nat as characters. -/
def natToChars (n : Nat) : List Char := natDigitsAux (n + 1) n

/-- Left fold of decimal digits into a number; none on a non-digit. -/
def natOfCharsAux (acc : Nat) : List Char → Option Nat
  | [] => some acc
  | c :: cs =>
    if c.isDigit then natOfCharsAux (10 * acc + (c.toNat - 48)) cs else none

/-- Parses a non-empty all-digit character list as a Nat. -/
def natOfChars (cs : List Char) : Option Nat :=
  match cs with
  | [] => none
  | _ => natOfCharsAux 0 cs

/-- Splits a character list on single spaces (the shape of a 5-field cron
expression); adjacent spaces produce empty fields. -/
def splitSp : List Char → List (List Char)
  | [] => [[]]
  | c :: cs =>
    match splitSp cs with
    | [] => [[c]]
    | h :: t => if c = ' ' then [] :: h :: t else (c :: h) :: t

/-- Modelled from the spec: TimeToCronSchedule encodes the minute, hour,
day-of-month and month fields of an instant into a 5-field cron expression
with the weekday field wildcarded (the source file holding it is absent;
the embedding follows the spec sentence and the pinned test vectors such as
2025-06-15T14:30 mapping to "30 14 15 6 *"). -/
def timeToCronSchedule (t : DateTime) : String :=
  String.mk (natToChars t.minute ++ ' ' :: natToChars t.hour ++ ' ' ::
    natToChars t.day ++ ' ' :: natToChars t.month ++ ' ' :: ['*'])

/-- Modelled from the spec: ParseCronSchedule is the inverse codec, reading
back the minute, hour, day-of-month and month fields of a stored 5-field
cron expression independent of year (the year component of the result is 0;
it is used only for display).  Malformed input yields an error mentioning
"invalid cron schedule", as pinned by the tests. -/
def parseCronSchedule (s : String) : Except String DateTime :=
  match splitSp s.data with
  | [mi, h, d, mo, star] =>
    if star = ['*'] then
      match natOfChars mi, natOfChars h, natOfChars d, natOfChars mo with
      | some mi, some h, some d, some mo =>
        .ok { year := 0, month := mo, day := d, hour := h, minute := mi, second := 0 }
      | _, _, _, _ => .error ("invalid cron schedule: " ++ s)
    else .error ("invalid cron schedule: " ++ s)
  | _ => .error ("invalid cron schedule: " ++ s)

/-! ## Time input parsing and calendar arithmetic (modelled from the spec) -/

/-- Maximum TTL in minutes, about 11 months (the ceiling imposed by the
yearless cron encoding); 334 days. -/
def maxTTLMinutes : Int := 334 * 24 * 60

/-- Leap-year test for the Gregorian calendar. -/
def isLeap (y : Nat) : Bool := (y % 4 = 0 && y % 100 ≠ 0) || y % 400 = 0

/-- Days in a given month of a given year. -/
def daysInMonth (y m : Nat) : Nat :=
  if m = 2 then (if isLeap y then 29 else 28)
  else if m = 4 || m = 6 || m = 9 || m = 11 then 30
  else 31

/-- Advances an instant by one calendar day. -/
def nextDay (t : DateTime) : DateTime :=
  if t.day < daysInMonth t.year t.month then { t with day := t.day + 1 }
  else if t.month < 12 then { t with day := 1, month := t.month + 1 }
  else { t with day := 1, month := 1, year := t.year + 1 }

/-- Advances an instant by the given number of calendar days. -/
def advanceDays : Nat → DateTime → DateTime
  | 0, t => t
  | n + 1, t => advanceDays n (nextDay t)

/-- Adds a number of minutes to an instant, carrying through hours and
calendar days. -/
def addMinutes (t : DateTime) (m : Nat) : DateTime :=
  let total := t.minute + m
  let htot := t.hour + total / 60
  advanceDays (htot / 24) { t with minute := total % 60, hour := htot % 24 }

/-- Span of leading decimal digits and the rest of the list. -/
def takeDigits (cs : List Char) : List Char × List Char :=
  (cs.takeWhile Char.isDigit, cs.dropWhile Char.isDigit)

/-- Go-duration segments (number followed by an h or m unit), fuelled so the
recursion is structural; returns total minutes. -/
def parseSegsAux : Nat → List Char → Option Nat
  | _, [] => some 0
  | 0, _ => none
  | fuel + 1, cs =>
    let (ds, rest) := takeDigits cs
    if ds = [] then none
    else
      match natOfChars ds, rest with
      | some n, 'h' :: r => (parseSegsAux fuel r).map (fun acc => n * 60 + acc)
      | some n, 'm' :: r => (parseSegsAux fuel r).map (fun acc => n + acc)
      | _, _ => none

/-- Modelled from the spec: a Go-style duration with minute and hour units
(for example 30m, 2h, 2h30m, -1h), returned as signed minutes. -/
def parseGoDuration (s : String) : Option Int :=
  match s.data with
  | [] => none
  | '-' :: cs =>
    match cs with
    | [] => none
    | _ => (parseSegsAux (cs.length + 1) cs).map (fun n => -(n : Int))
  | cs => (parseSegsAux (cs.length + 1) cs).map (fun n => (n : Int))

/-- Modelled from the spec: the days shorthand (a bare integer with a d
unit, such as 7d), returned as days. -/
def parseDays (s : String) : Option Nat :=
  match s.data with
  | [] => none
  | cs =>
    let (ds, rest) := takeDigits cs
    if ds = [] then none
    else match natOfChars ds, rest with
      | some n, ['d'] => some n
      | _, _ => none

/-- Modelled from the spec: ParseTimeInput tries, in order, a signed Go
duration with minute/hour units, then a days shorthand, rejecting
non-positive offsets (error mentioning "positive") and offsets beyond the
~11-month ceiling (error mentioning "maximum"); the free-form and
natural-language parsers of the absent source file are not modelled and
fall through to a parse error.  All successful parses return now plus the
offset. -/
def parseTimeInput (s : String) (now : DateTime) : Except String DateTime :=
  match parseGoDuration s with
  | some d =>
    if d ≤ 0 then .error "duration must be positive"
    else if d > maxTTLMinutes then .error "duration exceeds maximum TTL of about 11 months"
    else .ok (addMinutes now d.toNat)
  | none =>
    match parseDays s with
    | some n =>
      if n = 0 then .error "duration must be positive"
      else if (n : Int) * 1440 > maxTTLMinutes then .error "duration exceeds maximum TTL of about 11 months"
      else .ok (addMinutes now (n * 1440))
    | none => .error ("unable to parse time input " ++ s)

end HelmTTL

namespace HelmTTL

/-! ## Lemmas about the digit codec and space splitting -/

lemma natOfChars_natToChars_lt60 : ∀ n < 60, natOfChars (natToChars n) = some n := by decide

lemma space_not_mem_natToChars_lt60 : ∀ n < 60, ' ' ∉ natToChars n := by decide

lemma splitSp_ne_nil (l : List Char) : splitSp l ≠ [] := by
  cases l with
  | nil => simp [splitSp]
  | cons c cs =>
    simp only [splitSp]
    cases h : splitSp cs with
    | nil => simp
    | cons a t => by_cases hc : c = ' ' <;> simp [hc]

lemma splitSp_no_space (a : List Char) (h : ' ' ∉ a) : splitSp a = [a] := by
  induction a with
  | nil => rfl
  | cons c cs ih =>
    have hc : c ≠ ' ' := fun hcc => h (hcc ▸ List.mem_cons_self c cs)
    have hcs : ' ' ∉ cs := fun hm => h (List.mem_cons_of_mem c hm)
    simp only [splitSp, ih hcs]
    simp [fun hcc => hc hcc]

lemma splitSp_append (a b : List Char) (h : ' ' ∉ a) :
    splitSp (a ++ ' ' :: b) = a :: splitSp b := by
  induction a with
  | nil =>
    simp only [List.nil_append, splitSp]
    cases hsb : splitSp b with
    | nil => exact absurd hsb (splitSp_ne_nil b)
    | cons x t => simp
  | cons c cs ih =>
    have hc : c ≠ ' ' := fun hcc => h (hcc ▸ List.mem_cons_self c cs)
    have hcs : ' ' ∉ cs := fun hm => h (List.mem_cons_of_mem c hm)
    simp only [List.cons_append, splitSp]
    rw [show cs.append (' ' :: b) = cs ++ ' ' :: b from rfl, ih hcs]
    simp [fun hcc => hc hcc]

end HelmTTL

namespace HelmTTL

lemma string_ext {s t : String} (h : s.data = t.data) : s = t := by
  cases s; cases t; cases h; rfl

lemma resourceName_ok (r n s : String) (h : resourceName r n = .ok s) :
    s = r ++ "-" ++ n ++ "-ttl" := by
  simp only [resourceName] at h
  split at h
  · cases h
  · cases h; rfl

lemma append_hyphen_inj (a : List Char) :
    ∀ b x y : List Char, '-' ∉ a → '-' ∉ b →
      a ++ '-' :: x = b ++ '-' :: y → a = b ∧ x = y := by
  induction a with
  | nil =>
    intro b x y _ hb heq
    cases b with
    | nil => simpa using heq
    | cons c bs =>
      simp only [List.nil_append, List.cons_append, List.cons.injEq] at heq
      exact absurd (heq.1 ▸ List.mem_cons_self c bs) hb
  | cons c as ih =>
    intro b x y ha hb heq
    cases b with
    | nil =>
      simp only [List.cons_append, List.nil_append, List.cons.injEq] at heq
      exact absurd (heq.1 ▸ List.mem_cons_self c as) ha
    | cons d bs =>
      simp only [List.cons_append, List.cons.injEq] at heq
      have has : '-' ∉ as := fun hm => ha (List.mem_cons_of_mem c hm)
      have hbs : '-' ∉ bs := fun hm => hb (List.mem_cons_of_mem d hm)
      have := ih bs x y has hbs heq.2
      exact ⟨by rw [heq.1, this.1], this.2⟩

lemma combined_data (r n : String) :
    (r ++ "-" ++ n ++ "-ttl").data = r.data ++ '-' :: (n.data ++ '-' :: ['t', 't', 'l']) := by
  simp [String.data_append]

/-- The claim that resourceName is injective over all distinct (release,
namespace) pairs is false: hyphens in the release name re-bracket, so the
distinct pairs (a-b, c) and (a, b-c) both map to a-b-c-ttl. -/
theorem resourceName_not_injective :
    resourceName "a-b" "c" = resourceName "a" "b-c" ∧
    (("a-b", "c") : String × String) ≠ ("a", "b-c") ∧
    resourceName "a-b" "c" = .ok "a-b-c-ttl" := by
  refine ⟨rfl, by decide, rfl⟩

/-- Amended C3: for combined length at most 52 resourceName succeeds with
the deterministic value release-namespace-ttl, longer inputs yield a length
error, and the map is injective over distinct pairs whose release names are
hyphen-free (full injectivity fails, see resourceName_not_injective). -/
theorem resourceName_spec (r1 n1 r2 n2 s : String) :
    ((r1 ++ "-" ++ n1 ++ "-ttl").length ≤ 52 →
      resourceName r1 n1 = .ok (r1 ++ "-" ++ n1 ++ "-ttl")) ∧
    ((r1 ++ "-" ++ n1 ++ "-ttl").length > 52 → ∃ m, resourceName r1 n1 = .error m) ∧
    ('-' ∉ r1.data → '-' ∉ r2.data → (r1, n1) ≠ (r2, n2) →
      resourceName r1 n1 = .ok s → resourceName r2 n2 ≠ .ok s) := by
  refine ⟨?_, ?_, ?_⟩
  · intro hlen
    unfold resourceName maxResourceNameLen
    simp only [gt_iff_lt]
    rw [if_neg (by omega)]
  · intro hlen
    unfold resourceName maxResourceNameLen
    simp only [gt_iff_lt]
    rw [if_pos (by omega)]
    exact ⟨_, rfl⟩
  · intro hr1 hr2 hne h1 h2
    have e1 := resourceName_ok r1 n1 s h1
    have e2 := resourceName_ok r2 n2 s h2
    have hdata : (r1 ++ "-" ++ n1 ++ "-ttl").data = (r2 ++ "-" ++ n2 ++ "-ttl").data := by
      rw [← e1, ← e2]
    rw [combined_data, combined_data] at hdata
    have hsplit := append_hyphen_inj r1.data r2.data _ _ hr1 hr2 hdata
    have hrn : r1 = r2 := string_ext hsplit.1
    have hnn : n1 = n2 := by
      have := List.append_cancel_right (by simpa using hsplit.2 :
        n1.data ++ ['-', 't', 't', 'l'] = n2.data ++ ['-', 't', 't', 'l'])
      exact string_ext this
    exact hne (by rw [hrn, hnn])

lemma splitSp_five (a b c d : List Char)
    (ha : ' ' ∉ a) (hb : ' ' ∉ b) (hc : ' ' ∉ c) (hd : ' ' ∉ d) :
    splitSp (a ++ ' ' :: b ++ ' ' :: c ++ ' ' :: d ++ ' ' :: ['*']) = [a, b, c, d, ['*']] := by
  have hshape : a ++ ' ' :: b ++ ' ' :: c ++ ' ' :: d ++ ' ' :: ['*'] =
      a ++ ' ' :: (b ++ ' ' :: (c ++ ' ' :: (d ++ ' ' :: ['*']))) := by
    simp [List.append_assoc]
  rw [hshape, splitSp_append _ _ ha, splitSp_append _ _ hb, splitSp_append _ _ hc,
    splitSp_append _ _ hd, splitSp_no_space ['*'] (by decide)]

/-- C8 confirmed (codec modelled from the spec): for every instant with
valid component ranges and zero seconds, decoding the encoded 5-field cron
expression reproduces the minute, hour, day-of-month and month. -/
theorem cron_schedule_roundtrip (t : DateTime) (hs : t.second = 0)
    (hmi : t.minute < 60) (hh : t.hour < 24) (hd : t.day ≤ 31) (hmo : t.month ≤ 12) :
    ∃ u, parseCronSchedule (timeToCronSchedule t) = .ok u ∧
      u.minute = t.minute ∧ u.hour = t.hour ∧ u.day = t.day ∧ u.month = t.month := by
  have nm := space_not_mem_natToChars_lt60
  unfold parseCronSchedule timeToCronSchedule
  dsimp only
  rw [splitSp_five _ _ _ _ (nm t.minute hmi) (nm t.hour (by omega)) (nm t.day (by omega))
    (nm t.month (by omega))]
  simp only [if_pos rfl]
  rw [natOfChars_natToChars_lt60 t.minute hmi,
    natOfChars_natToChars_lt60 t.hour (by omega),
    natOfChars_natToChars_lt60 t.day (by omega),
    natOfChars_natToChars_lt60 t.month (by omega)]
  exact ⟨_, rfl, rfl, rfl, rfl, rfl⟩

/-- Witness for cron_schedule_roundtrip at the spec's example instant
2025-06-15T14:30:00Z. -/
theorem cron_schedule_roundtrip_witness :
    ∃ u, parseCronSchedule (timeToCronSchedule ⟨2025, 6, 15, 14, 30, 0⟩) = .ok u ∧
      u.minute = 30 ∧ u.hour = 14 ∧ u.day = 15 ∧ u.month = 6 :=
  cron_schedule_roundtrip ⟨2025, 6, 15, 14, 30, 0⟩ rfl (by decide) (by decide)
    (by decide) (by decide)

/-- Witness for resourceName_spec: the success, error and hyphen-free
injectivity branches at concrete inputs. -/
theorem resourceName_spec_witness :
    resourceName "myapp" "default" = .ok "myapp-default-ttl" ∧
    (∃ m, resourceName "a-very-long-release-name-that-will-exceed" "a-long-namespace" = .error m) ∧
    resourceName "other" "ns" ≠ .ok "myapp-default-ttl" := by
  refine ⟨?_, ?_, ?_⟩
  · exact (resourceName_spec "myapp" "default" "x" "y" "s").1 (by decide)
  · exact (resourceName_spec "a-very-long-release-name-that-will-exceed" "a-long-namespace" "x" "y" "s").2.1 (by decide)
  · exact (resourceName_spec "myapp" "default" "other" "ns" "myapp-default-ttl").2.2
      (by decide) (by decide) (by decide) rfl

end HelmTTL

namespace HelmTTL

/-! ## Kubernetes object model

The object kinds the engine manipulates, with the ObjectMeta fields the code
reads or writes plus representative platform-managed fields (uid,
annotations) used to observe frame conditions. -/

structure ObjectMeta where
  name : String
  nspace : String
  labels : Labels
  annotations : Labels
  uid : String
deriving DecidableEq, Repr, Inhabited

/-- Key identifying an object within its kind: (name, namespace);
cluster-scoped objects carry the empty namespace. -/
def mkey (m : ObjectMeta) : String × String := (m.name, m.nspace)

structure Container where
  name : String
  image : String
  command : List String
deriving DecidableEq, Repr, Inhabited

structure PodSpec where
  serviceAccountName : String
  restartPolicy : String
  initContainers : List Container
  containers : List Container
deriving DecidableEq, Repr, Inhabited

structure PodTemplateSpec where
  metadata : ObjectMeta
  spec : PodSpec
deriving DecidableEq, Repr, Inhabited

structure JobSpec where
  backoffLimit : Int
  template : PodTemplateSpec
deriving DecidableEq, Repr, Inhabited

structure JobTemplateSpec where
  metadata : ObjectMeta
  spec : JobSpec
deriving DecidableEq, Repr, Inhabited

structure CronJobSpec where
  schedule : String
  concurrencyPolicy : String
  failedJobsHistoryLimit : Int
  successfulJobsHistoryLimit : Int
  jobTemplate : JobTemplateSpec
deriving DecidableEq, Repr, Inhabited

structure CronJob where
  metadata : ObjectMeta
  spec : CronJobSpec
deriving DecidableEq, Repr, Inhabited

structure Job where
  metadata : ObjectMeta
  spec : JobSpec
deriving DecidableEq, Repr, Inhabited

/-- Terminated container status: name plus exit code when terminated. -/
structure ContainerStatus where
  name : String
  terminated : Option Int
deriving DecidableEq, Repr, Inhabited

structure Pod where
  metadata : ObjectMeta
  spec : PodSpec
  initContainerStatuses : List ContainerStatus
  containerStatuses : List ContainerStatus
deriving DecidableEq, Repr, Inhabited

structure PolicyRule where
  apiGroups : List String
  resources : List String
  verbs : List String
deriving DecidableEq, Repr, Inhabited

structure Subject where
  kind : String
  name : String
  nspace : String
deriving DecidableEq, Repr, Inhabited

structure RoleRef where
  apiGroup : String
  kind : String
  name : String
deriving DecidableEq, Repr, Inhabited

structure ServiceAccount where
  metadata : ObjectMeta
deriving DecidableEq, Repr, Inhabited

structure Role where
  metadata : ObjectMeta
  rules : List PolicyRule
deriving DecidableEq, Repr, Inhabited

structure RoleBinding where
  metadata : ObjectMeta
  subjects : List Subject
  roleRef : RoleRef
deriving DecidableEq, Repr, Inhabited

structure ClusterRole where
  metadata : ObjectMeta
  rules : List PolicyRule
deriving DecidableEq, Repr, Inhabited

structure ClusterRoleBinding where
  metadata : ObjectMeta
  subjects : List Subject
  roleRef : RoleRef
deriving DecidableEq, Repr, Inhabited

/-! ## Cluster-state model of the Kubernetes API

An error-injection table mirrors the reactors the repository's tests install
on the fake clientset: a matching (verb, resource) pair makes that API call
fail with the recorded message. -/

/-- Injected API failure, as installed by PrependReactor in the tests. -/
structure Reactor where
  verb : String
  resource : String
  msg : String
deriving DecidableEq, Repr, Inhabited

/-- Error signal of an API call, with the not-found and already-exists
conditions the code distinguishes (apimachinery errors.IsNotFound and
errors.IsAlreadyExists). -/
inductive KubeErr where
  | notFound
  | alreadyExists
  | other (msg : String)
deriving DecidableEq, Repr, Inhabited

def isNotFound : KubeErr → Bool
  | .notFound => true
  | _ => false

def renderErr : KubeErr → String
  | .notFound => "not found"
  | .alreadyExists => "already exists"
  | .other m => m

structure ClusterState where
  cronjobs : List CronJob
  jobs : List Job
  pods : List Pod
  serviceAccounts : List ServiceAccount
  roles : List Role
  roleBindings : List RoleBinding
  clusterRoles : List ClusterRole
  clusterRoleBindings : List ClusterRoleBinding
  namespaces : List String
  reactors : List Reactor
deriving DecidableEq, Repr, Inhabited

/-- Empty cluster with no injected failures. -/
def emptyCluster : ClusterState :=
  ⟨[], [], [], [], [], [], [], [], [], []⟩

/-- Checks the error-injection table for a (verb, resource) API call. -/
def react (st : ClusterState) (verb resource : String) : Option KubeErr :=
  match st.reactors.find? (fun r => r.verb = verb ∧ r.resource = resource) with
  | some r => some (.other r.msg)
  | none => none

/-! ## Generic keyed-list operations shared by the per-kind API calls -/

def kfind (key : α → String × String) (k : String × String) (l : List α) : Option α :=
  l.find? (fun o => key o = k)

def kreplace (key : α → String × String) (k : String × String) (v : α) (l : List α) : List α :=
  l.map (fun o => if key o = k then v else o)

def kremove (key : α → String × String) (k : String × String) (l : List α) : List α :=
  l.filter (fun o => decide (¬ key o = k))

def cjKey (o : CronJob) : String × String := mkey o.metadata
def jobKey (o : Job) : String × String := mkey o.metadata
def saKey (o : ServiceAccount) : String × String := mkey o.metadata
def roleKey (o : Role) : String × String := mkey o.metadata
def rbKey (o : RoleBinding) : String × String := mkey o.metadata
def crKey (o : ClusterRole) : String × String := mkey o.metadata
def crbKey (o : ClusterRoleBinding) : String × String := mkey o.metadata

/-! ## API calls (client-go verbs against the fake-clientset state) -/

def getCronJob (st : ClusterState) (ns name : String) : Except KubeErr CronJob :=
  match react st "get" "cronjobs" with
  | some e => .error e
  | none =>
    match kfind cjKey (name, ns) st.cronjobs with
    | some o => .ok o
    | none => .error .notFound

def createCronJob (st : ClusterState) (o : CronJob) : Except KubeErr ClusterState :=
  match react st "create" "cronjobs" with
  | some e => .error e
  | none =>
    match kfind cjKey (cjKey o) st.cronjobs with
    | some _ => .error .alreadyExists
    | none => .ok { st with cronjobs := st.cronjobs ++ [o] }

def updateCronJob (st : ClusterState) (o : CronJob) : Except KubeErr ClusterState :=
  match react st "update" "cronjobs" with
  | some e => .error e
  | none =>
    match kfind cjKey (cjKey o) st.cronjobs with
    | some _ => .ok { st with cronjobs := kreplace cjKey (cjKey o) o st.cronjobs }
    | none => .error .notFound

def deleteCronJob (st : ClusterState) (ns name : String) : Except KubeErr ClusterState :=
  match react st "delete" "cronjobs" with
  | some e => .error e
  | none =>
    match kfind cjKey (name, ns) st.cronjobs with
    | some _ => .ok { st with cronjobs := kremove cjKey (name, ns) st.cronjobs }
    | none => .error .notFound

def createJob (st : ClusterState) (o : Job) : Except KubeErr ClusterState :=
  match react st "create" "jobs" with
  | some e => .error e
  | none =>
    match kfind jobKey (jobKey o) st.jobs with
    | some _ => .error .alreadyExists
    | none => .ok { st with jobs := st.jobs ++ [o] }

def deleteJob (st : ClusterState) (ns name : String) : Except KubeErr ClusterState :=
  match react st "delete" "jobs" with
  | some e => .error e
  | none =>
    match kfind jobKey (name, ns) st.jobs with
    | some _ => .ok { st with jobs := kremove jobKey (name, ns) st.jobs }
    | none => .error .notFound

/-- Lists pods of a namespace carrying a given label, as the job-name
selector list in waitForPod does. -/
def listPodsByLabel (st : ClusterState) (ns labelKey labelVal : String) :
    Except KubeErr (List Pod) :=
  match react st "list" "pods" with
  | some e => .error e
  | none =>
    .ok (st.pods.filter (fun p =>
      decide (p.metadata.nspace = ns) && decide (getLabel p.metadata.labels labelKey = labelVal)))

def getPod (st : ClusterState) (ns name : String) : Except KubeErr Pod :=
  match react st "get" "pods" with
  | some e => .error e
  | none =>
    match st.pods.find? (fun p => decide (p.metadata.name = name) && decide (p.metadata.nspace = ns)) with
    | some p => .ok p
    | none => .error .notFound

def createServiceAccount (st : ClusterState) (o : ServiceAccount) : Except KubeErr ClusterState :=
  match react st "create" "serviceaccounts" with
  | some e => .error e
  | none =>
    match kfind saKey (saKey o) st.serviceAccounts with
    | some _ => .error .alreadyExists
    | none => .ok { st with serviceAccounts := st.serviceAccounts ++ [o] }

def getServiceAccount (st : ClusterState) (ns name : String) : Except KubeErr ServiceAccount :=
  match react st "get" "serviceaccounts" with
  | some e => .error e
  | none =>
    match kfind saKey (name, ns) st.serviceAccounts with
    | some o => .ok o
    | none => .error .notFound

def updateServiceAccount (st : ClusterState) (o : ServiceAccount) : Except KubeErr ClusterState :=
  match react st "update" "serviceaccounts" with
  | some e => .error e
  | none =>
    match kfind saKey (saKey o) st.serviceAccounts with
    | some _ => .ok { st with serviceAccounts := kreplace saKey (saKey o) o st.serviceAccounts }
    | none => .error .notFound

def deleteServiceAccount (st : ClusterState) (ns name : String) : Except KubeErr ClusterState :=
  match react st "delete" "serviceaccounts" with
  | some e => .error e
  | none =>
    match kfind saKey (name, ns) st.serviceAccounts with
    | some _ => .ok { st with serviceAccounts := kremove saKey (name, ns) st.serviceAccounts }
    | none => .error .notFound

def createRole (st : ClusterState) (o : Role) : Except KubeErr ClusterState :=
  match react st "create" "roles" with
  | some e => .error e
  | none =>
    match kfind roleKey (roleKey o) st.roles with
    | some _ => .error .alreadyExists
    | none => .ok { st with roles := st.roles ++ [o] }

def getRole (st : ClusterState) (ns name : String) : Except KubeErr Role :=
  match react st "get" "roles" with
  | some e => .error e
  | none =>
    match kfind roleKey (name, ns) st.roles with
    | some o => .ok o
    | none => .error .notFound

def updateRole (st : ClusterState) (o : Role) : Except KubeErr ClusterState :=
  match react st "update" "roles" with
  | some e => .error e
  | none =>
    match kfind roleKey (roleKey o) st.roles with
    | some _ => .ok { st with roles := kreplace roleKey (roleKey o) o st.roles }
    | none => .error .notFound

def deleteRole (st : ClusterState) (ns name : String) : Except KubeErr ClusterState :=
  match react st "delete" "roles" with
  | some e => .error e
  | none =>
    match kfind roleKey (name, ns) st.roles with
    | some _ => .ok { st with roles := kremove roleKey (name, ns) st.roles }
    | none => .error .notFound

def createRoleBinding (st : ClusterState) (o : RoleBinding) : Except KubeErr ClusterState :=
  match react st "create" "rolebindings" with
  | some e => .error e
  | none =>
    match kfind rbKey (rbKey o) st.roleBindings with
    | some _ => .error .alreadyExists
    | none => .ok { st with roleBindings := st.roleBindings ++ [o] }

def getRoleBinding (st : ClusterState) (ns name : String) : Except KubeErr RoleBinding :=
  match react st "get" "rolebindings" with
  | some e => .error e
  | none =>
    match kfind rbKey (name, ns) st.roleBindings with
    | some o => .ok o
    | none => .error .notFound

def updateRoleBinding (st : ClusterState) (o : RoleBinding) : Except KubeErr ClusterState :=
  match react st "update" "rolebindings" with
  | some e => .error e
  | none =>
    match kfind rbKey (rbKey o) st.roleBindings with
    | some _ => .ok { st with roleBindings := kreplace rbKey (rbKey o) o st.roleBindings }
    | none => .error .notFound

def deleteRoleBinding (st : ClusterState) (ns name : String) : Except KubeErr ClusterState :=
  match react st "delete" "rolebindings" with
  | some e => .error e
  | none =>
    match kfind rbKey (name, ns) st.roleBindings with
    | some _ => .ok { st with roleBindings := kremove rbKey (name, ns) st.roleBindings }
    | none => .error .notFound

def createClusterRole (st : ClusterState) (o : ClusterRole) : Except KubeErr ClusterState :=
  match react st "create" "clusterroles" with
  | some e => .error e
  | none =>
    match kfind crKey (crKey o) st.clusterRoles with
    | some _ => .error .alreadyExists
    | none => .ok { st with clusterRoles := st.clusterRoles ++ [o] }

def getClusterRole (st : ClusterState) (name : String) : Except KubeErr ClusterRole :=
  match react st "get" "clusterroles" with
  | some e => .error e
  | none =>
    match kfind crKey (name, "") st.clusterRoles with
    | some o => .ok o
    | none => .error .notFound

def updateClusterRole (st : ClusterState) (o : ClusterRole) : Except KubeErr ClusterState :=
  match react st "update" "clusterroles" with
  | some e => .error e
  | none =>
    match kfind crKey (crKey o) st.clusterRoles with
    | some _ => .ok { st with clusterRoles := kreplace crKey (crKey o) o st.clusterRoles }
    | none => .error .notFound

def deleteClusterRole (st : ClusterState) (name : String) : Except KubeErr ClusterState :=
  match react st "delete" "clusterroles" with
  | some e => .error e
  | none =>
    match kfind crKey (name, "") st.clusterRoles with
    | some _ => .ok { st with clusterRoles := kremove crKey (name, "") st.clusterRoles }
    | none => .error .notFound

def createClusterRoleBinding (st : ClusterState) (o : ClusterRoleBinding) : Except KubeErr ClusterState :=
  match react st "create" "clusterrolebindings" with
  | some e => .error e
  | none =>
    match kfind crbKey (crbKey o) st.clusterRoleBindings with
    | some _ => .error .alreadyExists
    | none => .ok { st with clusterRoleBindings := st.clusterRoleBindings ++ [o] }

def getClusterRoleBinding (st : ClusterState) (name : String) : Except KubeErr ClusterRoleBinding :=
  match react st "get" "clusterrolebindings" with
  | some e => .error e
  | none =>
    match kfind crbKey (name, "") st.clusterRoleBindings with
    | some o => .ok o
    | none => .error .notFound

def updateClusterRoleBinding (st : ClusterState) (o : ClusterRoleBinding) : Except KubeErr ClusterState :=
  match react st "update" "clusterrolebindings" with
  | some e => .error e
  | none =>
    match kfind crbKey (crbKey o) st.clusterRoleBindings with
    | some _ => .ok { st with clusterRoleBindings := kreplace crbKey (crbKey o) o st.clusterRoleBindings }
    | none => .error .notFound

def deleteClusterRoleBinding (st : ClusterState) (name : String) : Except KubeErr ClusterState :=
  match react st "delete" "clusterrolebindings" with
  | some e => .error e
  | none =>
    match kfind crbKey (name, "") st.clusterRoleBindings with
    | some _ => .ok { st with clusterRoleBindings := kremove crbKey (name, "") st.clusterRoleBindings }
    | none => .error .notFound

def listNamespaces (st : ClusterState) : Except KubeErr (List String) :=
  match react st "list" "namespaces" with
  | some e => .error e
  | none => .ok st.namespaces

def deleteNamespaceObj (st : ClusterState) (name : String) : Except KubeErr ClusterState :=
  match react st "delete" "namespaces" with
  | some e => .error e
  | none =>
    if st.namespaces.contains name then
      .ok { st with namespaces := st.namespaces.filter (fun x => decide (¬ x = name)) }
    else .error .notFound

/-- True when the object carries the managed-by bookkeeping label, the
selector every list call of the orphan sweep uses. -/
def managedLabel (m : ObjectMeta) : Bool :=
  decide (getLabel m.labels LabelManagedBy = LabelManagedByValue)

def listServiceAccountsManaged (st : ClusterState) (ns : String) :
    Except KubeErr (List ServiceAccount) :=
  match react st "list" "serviceaccounts" with
  | some e => .error e
  | none =>
    .ok (st.serviceAccounts.filter (fun o =>
      decide (o.metadata.nspace = ns) && managedLabel o.metadata))

def listRolesManaged (st : ClusterState) (ns : String) : Except KubeErr (List Role) :=
  match react st "list" "roles" with
  | some e => .error e
  | none =>
    .ok (st.roles.filter (fun o =>
      decide (o.metadata.nspace = ns) && managedLabel o.metadata))

def listRoleBindingsManaged (st : ClusterState) (ns : String) :
    Except KubeErr (List RoleBinding) :=
  match react st "list" "rolebindings" with
  | some e => .error e
  | none =>
    .ok (st.roleBindings.filter (fun o =>
      decide (o.metadata.nspace = ns) && managedLabel o.metadata))

def listClusterRolesManaged (st : ClusterState) : Except KubeErr (List ClusterRole) :=
  match react st "list" "clusterroles" with
  | some e => .error e
  | none => .ok (st.clusterRoles.filter (fun o => managedLabel o.metadata))

def listClusterRoleBindingsManaged (st : ClusterState) :
    Except KubeErr (List ClusterRoleBinding) :=
  match react st "list" "clusterrolebindings" with
  | some e => .error e
  | none => .ok (st.clusterRoleBindings.filter (fun o => managedLabel o.metadata))

end HelmTTL

namespace HelmTTL

/-! ## Task template builder (cronjob.go) -/

/-- CronJobOptions of cronjob.go. -/
structure CronJobOptions where
  releaseName : String
  releaseNamespace : String
  cronjobNamespace : String
  schedule : String
  serviceAccount : String
  helmImage : String
  kubectlImage : String
  deleteNamespace : Bool
deriving DecidableEq, Repr, Inhabited

/-- BuildCronJob (cronjob.go): rejects delete-namespace with equal
namespaces, derives the resource name, defaults the images, and assembles
the CronJob with the helm-uninstall init container, the conditional
delete-namespace init container, the self-cleanup main container, history
limits 0 failed / 1 succeeded, backoff limit 0, Forbid concurrency, and the
bookkeeping labels on the object, job template and pod template. -/
def buildCronJob (opts : CronJobOptions) : Except String CronJob :=
  if opts.deleteNamespace && decide (opts.releaseNamespace = opts.cronjobNamespace) then
    .error ("cannot use --delete-namespace when CronJob namespace (" ++ opts.cronjobNamespace ++
      ") equals release namespace (" ++ opts.releaseNamespace ++ "); the CronJob would delete its own namespace")
  else
    match resourceName opts.releaseName opts.releaseNamespace with
    | .error e => .error e
    | .ok name =>
      let helmImage := if opts.helmImage = "" then DefaultHelmImage else opts.helmImage
      let kubectlImage := if opts.kubectlImage = "" then DefaultKubectlImage else opts.kubectlImage
      let deleteNsStr := if opts.deleteNamespace then "true" else "false"
      let labels : Labels :=
        [(LabelManagedBy, LabelManagedByValue),
         (LabelRelease, opts.releaseName),
         (LabelReleaseNamespace, opts.releaseNamespace),
         (LabelCronjobNamespace, opts.cronjobNamespace),
         (LabelDeleteNamespace, deleteNsStr)]
      let helmUninstall : Container :=
        ⟨"helm-uninstall", helmImage,
          ["helm", "uninstall", opts.releaseName, "--namespace", opts.releaseNamespace]⟩
      let initContainers :=
        if opts.deleteNamespace then
          [helmUninstall,
            ⟨"delete-namespace", kubectlImage,
              ["kubectl", "delete", "namespace", opts.releaseNamespace]⟩]
        else [helmUninstall]
      let selfCleanup : Container :=
        ⟨"self-cleanup", kubectlImage,
          ["kubectl", "delete", "cronjob", name, "--namespace", opts.cronjobNamespace]⟩
      .ok
        { metadata := ⟨name, opts.cronjobNamespace, labels, [], ""⟩
          spec :=
            { schedule := opts.schedule
              concurrencyPolicy := "Forbid"
              failedJobsHistoryLimit := 0
              successfulJobsHistoryLimit := 1
              jobTemplate :=
                { metadata := ⟨"", "", labels, [], ""⟩
                  spec :=
                    { backoffLimit := 0
                      template :=
                        { metadata := ⟨"", "", labels, [], ""⟩
                          spec :=
                            { serviceAccountName := opts.serviceAccount
                              restartPolicy := "Never"
                              initContainers := initContainers
                              containers := [selfCleanup] } } } } } }

/-- BuildJobFromCronJob (cronjob.go): copies the CronJob's job template
spec, copies its labels and adds the triggered-by=run label, and names the
Job; the copied container commands are carried over unchanged. -/
def buildJobFromCronJob (cj : CronJob) (jobName : String) : Job :=
  let jobSpec := cj.spec.jobTemplate.spec
  let labels := setLabel cj.metadata.labels LabelTriggeredBy "run"
  { metadata := ⟨jobName, cj.metadata.nspace, labels, [], ""⟩
    spec := jobSpec }

/-! ## Access provisioner (rbac source, present in the repository as the
second document of pkg/ttl/output_test.go) -/

/-- OrphanedResource (rbac source). -/
structure OrphanedResource where
  kind : String
  name : String
  nspace : String
deriving DecidableEq, Repr, Inhabited

/-- Bookkeeping labels shared by every member of an access bundle. -/
def resourceLabels (releaseName releaseNamespace : String) : Labels :=
  [(LabelManagedBy, LabelManagedByValue),
   (LabelRelease, releaseName),
   (LabelReleaseNamespace, releaseNamespace)]

/-- Create-or-update for service accounts: attempt create; on already
exists, fetch the existing object and overwrite only its labels. -/
def createOrUpdateServiceAccount (st : ClusterState) (sa : ServiceAccount) :
    Except KubeErr ClusterState :=
  match createServiceAccount st sa with
  | .ok st1 => .ok st1
  | .error .alreadyExists =>
    match getServiceAccount st sa.metadata.nspace sa.metadata.name with
    | .error ge => .error ge
    | .ok existing =>
      updateServiceAccount st
        { existing with metadata := { existing.metadata with labels := sa.metadata.labels } }
  | .error e => .error e

/-- Create-or-update for roles: overwrite only labels and rules. -/
def createOrUpdateRole (st : ClusterState) (role : Role) : Except KubeErr ClusterState :=
  match createRole st role with
  | .ok st1 => .ok st1
  | .error .alreadyExists =>
    match getRole st role.metadata.nspace role.metadata.name with
    | .error ge => .error ge
    | .ok existing =>
      updateRole st
        { existing with
          metadata := { existing.metadata with labels := role.metadata.labels }
          rules := role.rules }
  | .error e => .error e

/-- Create-or-update for role bindings: overwrite only labels, subjects and
role reference. -/
def createOrUpdateRoleBinding (st : ClusterState) (binding : RoleBinding) :
    Except KubeErr ClusterState :=
  match createRoleBinding st binding with
  | .ok st1 => .ok st1
  | .error .alreadyExists =>
    match getRoleBinding st binding.metadata.nspace binding.metadata.name with
    | .error ge => .error ge
    | .ok existing =>
      updateRoleBinding st
        { existing with
          metadata := { existing.metadata with labels := binding.metadata.labels }
          subjects := binding.subjects
          roleRef := binding.roleRef }
  | .error e => .error e

/-- Create-or-update for cluster roles: overwrite only labels and rules. -/
def createOrUpdateClusterRole (st : ClusterState) (role : ClusterRole) :
    Except KubeErr ClusterState :=
  match createClusterRole st role with
  | .ok st1 => .ok st1
  | .error .alreadyExists =>
    match getClusterRole st role.metadata.name with
    | .error ge => .error ge
    | .ok existing =>
      updateClusterRole st
        { existing with
          metadata := { existing.metadata with labels := role.metadata.labels }
          rules := role.rules }
  | .error e => .error e

/-- Create-or-update for cluster role bindings: overwrite only labels,
subjects and role reference. -/
def createOrUpdateClusterRoleBinding (st : ClusterState) (binding : ClusterRoleBinding) :
    Except KubeErr ClusterState :=
  match createClusterRoleBinding st binding with
  | .ok st1 => .ok st1
  | .error .alreadyExists =>
    match getClusterRoleBinding st binding.metadata.name with
    | .error ge => .error ge
    | .ok existing =>
      updateClusterRoleBinding st
        { existing with
          metadata := { existing.metadata with labels := binding.metadata.labels }
          subjects := binding.subjects
          roleRef := binding.roleRef }
  | .error e => .error e

/-- Service identity of a bundle (the sa local of
CreateServiceAccountAndRBAC). -/
def bundleSA (saName cn : String) (labels : Labels) : ServiceAccount :=
  { metadata := ⟨saName, cn, labels, [], ""⟩ }

/-- Same-namespace role (the role local of createSameNamespaceRBAC):
secrets get/list/delete plus cronjobs get/delete. -/
def sameNsRole (nm ns : String) (labels : Labels) : Role :=
  { metadata := ⟨nm, ns, labels, [], ""⟩
    rules :=
      [⟨[""], ["secrets"], ["get", "list", "delete"]⟩,
       ⟨["batch"], ["cronjobs"], ["get", "delete"]⟩] }

/-- Same-namespace role binding (the binding local of
createSameNamespaceRBAC). -/
def sameNsBinding (nm saName ns : String) (labels : Labels) : RoleBinding :=
  { metadata := ⟨nm, ns, labels, [], ""⟩
    subjects := [⟨"ServiceAccount", saName, ns⟩]
    roleRef := ⟨"rbac.authorization.k8s.io", "Role", nm⟩ }

/-- Cross-namespace secrets role in the release namespace (the releaseRole
local of createCrossNamespaceRBAC). -/
def crossReleaseRole (nm rn : String) (labels : Labels) : Role :=
  { metadata := ⟨nm, rn, labels, [], ""⟩
    rules := [⟨[""], ["secrets"], ["get", "list", "delete"]⟩] }

/-- Cross-namespace binding in the release namespace (the releaseBinding
local), pointing at the identity in the CronJob namespace. -/
def crossReleaseBinding (nm saName rn cn : String) (labels : Labels) : RoleBinding :=
  { metadata := ⟨nm, rn, labels, [], ""⟩
    subjects := [⟨"ServiceAccount", saName, cn⟩]
    roleRef := ⟨"rbac.authorization.k8s.io", "Role", nm⟩ }

/-- Cross-namespace cronjobs role in the CronJob namespace (the cronjobRole
local). -/
def crossCronjobRole (nm cn : String) (labels : Labels) : Role :=
  { metadata := ⟨nm, cn, labels, [], ""⟩
    rules := [⟨["batch"], ["cronjobs"], ["get", "delete"]⟩] }

/-- Cross-namespace binding in the CronJob namespace (the cronjobBinding
local). -/
def crossCronjobBinding (nm saName cn : String) (labels : Labels) : RoleBinding :=
  { metadata := ⟨nm, cn, labels, [], ""⟩
    subjects := [⟨"ServiceAccount", saName, cn⟩]
    roleRef := ⟨"rbac.authorization.k8s.io", "Role", nm⟩ }

/-- Delete-namespace cluster role (the clusterRole local): namespaces
get/delete. -/
def nsClusterRole (nm : String) (labels : Labels) : ClusterRole :=
  { metadata := ⟨nm, "", labels, [], ""⟩
    rules := [⟨[""], ["namespaces"], ["get", "delete"]⟩] }

/-- Delete-namespace cluster role binding (the clusterBinding local). -/
def nsClusterBinding (nm saName cn : String) (labels : Labels) : ClusterRoleBinding :=
  { metadata := ⟨nm, "", labels, [], ""⟩
    subjects := [⟨"ServiceAccount", saName, cn⟩]
    roleRef := ⟨"rbac.authorization.k8s.io", "ClusterRole", nm⟩ }

/-- Same-namespace topology: one role (secrets get/list/delete, cronjobs
get/delete) and one binding, in that namespace. -/
def createSameNamespaceRBAC (st : ClusterState)
    (name serviceAccountName ns : String) (labels : Labels) :
    ClusterState × Option String :=
  match createOrUpdateRole st (sameNsRole name ns labels) with
  | .error e => (st, some ("failed to create role: " ++ renderErr e))
  | .ok st1 =>
    match createOrUpdateRoleBinding st1 (sameNsBinding name serviceAccountName ns labels) with
    | .error e => (st1, some ("failed to create role binding: " ++ renderErr e))
    | .ok st2 => (st2, none)

/-- Cross-namespace topology: secrets role and binding in the release
namespace, cronjobs role and binding in the CronJob namespace. -/
def createCrossNamespaceRBAC (st : ClusterState)
    (name serviceAccountName releaseNamespace cronjobNamespace : String) (labels : Labels) :
    ClusterState × Option String :=
  match createOrUpdateRole st (crossReleaseRole name releaseNamespace labels) with
  | .error e => (st, some ("failed to create role in release namespace: " ++ renderErr e))
  | .ok st1 =>
    match createOrUpdateRoleBinding st1
        (crossReleaseBinding name serviceAccountName releaseNamespace cronjobNamespace labels) with
    | .error e => (st1, some ("failed to create role binding in release namespace: " ++ renderErr e))
    | .ok st2 =>
      match createOrUpdateRole st2 (crossCronjobRole name cronjobNamespace labels) with
      | .error e => (st2, some ("failed to create role in CronJob namespace: " ++ renderErr e))
      | .ok st3 =>
        match createOrUpdateRoleBinding st3
            (crossCronjobBinding name serviceAccountName cronjobNamespace labels) with
        | .error e => (st3, some ("failed to create role binding in CronJob namespace: " ++ renderErr e))
        | .ok st4 => (st4, none)

/-- Delete-namespace extension: cluster role (namespaces get/delete) and
cluster role binding. -/
def createDeleteNamespaceRBAC (st : ClusterState)
    (name serviceAccountName cronjobNamespace : String) (labels : Labels) :
    ClusterState × Option String :=
  match createOrUpdateClusterRole st (nsClusterRole name labels) with
  | .error e => (st, some ("failed to create cluster role: " ++ renderErr e))
  | .ok st1 =>
    match createOrUpdateClusterRoleBinding st1
        (nsClusterBinding name serviceAccountName cronjobNamespace labels) with
    | .error e => (st1, some ("failed to create cluster role binding: " ++ renderErr e))
    | .ok st2 => (st2, none)

/-- CreateServiceAccountAndRBAC (rbac source): rejects the
same-namespace-with-delete-namespace combination, derives the resource
name, creates the service account, then the topology-appropriate roles and
bindings, every creation being create-or-update. -/
def createServiceAccountAndRBAC (st : ClusterState)
    (releaseName releaseNamespace cronjobNamespace serviceAccountName : String)
    (deleteNamespace : Bool) : ClusterState × Option String :=
  if deleteNamespace && decide (releaseNamespace = cronjobNamespace) then
    (st, some "cannot use --delete-namespace when CronJob namespace equals release namespace")
  else
    match resourceName releaseName releaseNamespace with
    | .error e => (st, some e)
    | .ok name =>
      let labels := resourceLabels releaseName releaseNamespace
      match createOrUpdateServiceAccount st (bundleSA serviceAccountName cronjobNamespace labels) with
      | .error e => (st, some ("failed to create service account: " ++ renderErr e))
      | .ok st1 =>
        if decide (releaseNamespace = cronjobNamespace) then
          createSameNamespaceRBAC st1 name serviceAccountName releaseNamespace labels
        else
          match createCrossNamespaceRBAC st1 name serviceAccountName releaseNamespace cronjobNamespace labels with
          | (st2, some e) => (st2, some e)
          | (st2, none) =>
            if deleteNamespace then
              createDeleteNamespaceRBAC st2 name serviceAccountName cronjobNamespace labels
            else (st2, none)

/-- Namespaced teardown step of CleanupRBAC: delete the role binding and
role of one namespace, tolerating not-found. -/
def deleteNamespacedRBAC (st : ClusterState) (name ns : String) :
    ClusterState × Option String :=
  match deleteRoleBinding st ns name with
  | .ok st1 =>
    match deleteRole st1 ns name with
    | .ok st2 => (st2, none)
    | .error e =>
      if isNotFound e then (st1, none)
      else (st1, some ("failed to delete role in namespace " ++ ns ++ ": " ++ renderErr e))
  | .error e =>
    if isNotFound e then
      match deleteRole st ns name with
      | .ok st2 => (st2, none)
      | .error e2 =>
        if isNotFound e2 then (st, none)
        else (st, some ("failed to delete role in namespace " ++ ns ++ ": " ++ renderErr e2))
    else (st, some ("failed to delete role binding in namespace " ++ ns ++ ": " ++ renderErr e))

/-- CleanupRBAC (rbac source): deletes the cluster role binding, cluster
role, namespaced bindings and roles in both namespaces (skipping the second
pass when they coincide) and the service account, each deletion tolerating
not-found. -/
def cleanupRBAC (st : ClusterState)
    (releaseName releaseNamespace cronjobNamespace : String) :
    ClusterState × Option String :=
  match resourceName releaseName releaseNamespace with
  | .error e => (st, some e)
  | .ok name =>
    let step1 : ClusterState × Option String :=
      match deleteClusterRoleBinding st name with
      | .ok st1 => (st1, none)
      | .error e =>
        if isNotFound e then (st, none)
        else (st, some ("failed to delete cluster role binding: " ++ renderErr e))
    match step1 with
    | (st1, some e) => (st1, some e)
    | (st1, none) =>
      let step2 : ClusterState × Option String :=
        match deleteClusterRole st1 name with
        | .ok st2 => (st2, none)
        | .error e =>
          if isNotFound e then (st1, none)
          else (st1, some ("failed to delete cluster role: " ++ renderErr e))
      match step2 with
      | (st2, some e) => (st2, some e)
      | (st2, none) =>
        match deleteNamespacedRBAC st2 name releaseNamespace with
        | (st3, some e) => (st3, some e)
        | (st3, none) =>
          let step4 : ClusterState × Option String :=
            if decide (¬ cronjobNamespace = releaseNamespace) then
              deleteNamespacedRBAC st3 name cronjobNamespace
            else (st3, none)
          match step4 with
          | (st4, some e) => (st4, some e)
          | (st4, none) =>
            match deleteServiceAccount st4 cronjobNamespace name with
            | .ok st5 => (st5, none)
            | .error e =>
              if isNotFound e then (st4, none)
              else (st4, some ("failed to delete service account: " ++ renderErr e))

/-- isOrphaned (rbac source): reads the bookkeeping labels, falls back to
the release namespace when no cronjob-namespace label is present, and
reports orphaned exactly when the CronJob lookup fails with not-found; a
name over the length bound or any other lookup failure reports false. -/
def isOrphaned (st : ClusterState) (labels : Labels) : Bool :=
  let releaseName := getLabel labels LabelRelease
  let releaseNs := getLabel labels LabelReleaseNamespace
  let cronjobNs0 := getLabel labels LabelCronjobNamespace
  let cronjobNs := if cronjobNs0 = "" then releaseNs else cronjobNs0
  match resourceName releaseName releaseNs with
  | .error _ => false
  | .ok name =>
    match getCronJob st cronjobNs name with
    | .error .notFound => true
    | _ => false

end HelmTTL

namespace HelmTTL

/-! ## Orphan sweep (CleanupOrphaned of the rbac source) -/

/-- Failure of the sweep, separating list failures (which make the whole
operation return an empty orphan list, as the source does) from delete
failures (which return the orphans accumulated so far). -/
inductive SweepFail where
  | listFail (msg : String)
  | deleteFail (msg : String)
deriving DecidableEq, Repr, Inhabited

/-- Per-item loop over listed cluster role bindings: record each orphan and,
unless dry-run, delete it immediately, tolerating not-found. -/
def sweepClusterRoleBindings (dryRun : Bool) :
    List ClusterRoleBinding → ClusterState → List OrphanedResource × ClusterState × Option String
  | [], st => ([], st, none)
  | crb :: rest, st =>
    if isOrphaned st crb.metadata.labels then
      let orp : OrphanedResource := ⟨"ClusterRoleBinding", crb.metadata.name, ""⟩
      if dryRun then
        let r := sweepClusterRoleBindings dryRun rest st
        (orp :: r.1, r.2)
      else
        match deleteClusterRoleBinding st crb.metadata.name with
        | .ok st1 =>
          let r := sweepClusterRoleBindings dryRun rest st1
          (orp :: r.1, r.2)
        | .error e =>
          if isNotFound e then
            let r := sweepClusterRoleBindings dryRun rest st
            (orp :: r.1, r.2)
          else ([orp], st, some ("failed to delete cluster role binding " ++ crb.metadata.name ++ ": " ++ renderErr e))
    else sweepClusterRoleBindings dryRun rest st

/-- Per-item loop over listed cluster roles. -/
def sweepClusterRoles (dryRun : Bool) :
    List ClusterRole → ClusterState → List OrphanedResource × ClusterState × Option String
  | [], st => ([], st, none)
  | cr :: rest, st =>
    if isOrphaned st cr.metadata.labels then
      let orp : OrphanedResource := ⟨"ClusterRole", cr.metadata.name, ""⟩
      if dryRun then
        let r := sweepClusterRoles dryRun rest st
        (orp :: r.1, r.2)
      else
        match deleteClusterRole st cr.metadata.name with
        | .ok st1 =>
          let r := sweepClusterRoles dryRun rest st1
          (orp :: r.1, r.2)
        | .error e =>
          if isNotFound e then
            let r := sweepClusterRoles dryRun rest st
            (orp :: r.1, r.2)
          else ([orp], st, some ("failed to delete cluster role " ++ cr.metadata.name ++ ": " ++ renderErr e))
    else sweepClusterRoles dryRun rest st

/-- Per-item loop over the role bindings listed in one namespace. -/
def sweepRoleBindings (dryRun : Bool) (ns : String) :
    List RoleBinding → ClusterState → List OrphanedResource × ClusterState × Option String
  | [], st => ([], st, none)
  | rb :: rest, st =>
    if isOrphaned st rb.metadata.labels then
      let orp : OrphanedResource := ⟨"RoleBinding", rb.metadata.name, ns⟩
      if dryRun then
        let r := sweepRoleBindings dryRun ns rest st
        (orp :: r.1, r.2)
      else
        match deleteRoleBinding st ns rb.metadata.name with
        | .ok st1 =>
          let r := sweepRoleBindings dryRun ns rest st1
          (orp :: r.1, r.2)
        | .error e =>
          if isNotFound e then
            let r := sweepRoleBindings dryRun ns rest st
            (orp :: r.1, r.2)
          else ([orp], st, some ("failed to delete role binding " ++ rb.metadata.name ++ " in " ++ ns ++ ": " ++ renderErr e))
    else sweepRoleBindings dryRun ns rest st

/-- Per-item loop over the roles listed in one namespace. -/
def sweepRoles (dryRun : Bool) (ns : String) :
    List Role → ClusterState → List OrphanedResource × ClusterState × Option String
  | [], st => ([], st, none)
  | role :: rest, st =>
    if isOrphaned st role.metadata.labels then
      let orp : OrphanedResource := ⟨"Role", role.metadata.name, ns⟩
      if dryRun then
        let r := sweepRoles dryRun ns rest st
        (orp :: r.1, r.2)
      else
        match deleteRole st ns role.metadata.name with
        | .ok st1 =>
          let r := sweepRoles dryRun ns rest st1
          (orp :: r.1, r.2)
        | .error e =>
          if isNotFound e then
            let r := sweepRoles dryRun ns rest st
            (orp :: r.1, r.2)
          else ([orp], st, some ("failed to delete role " ++ role.metadata.name ++ " in " ++ ns ++ ": " ++ renderErr e))
    else sweepRoles dryRun ns rest st

/-- Per-item loop over the service accounts listed in one namespace. -/
def sweepServiceAccounts (dryRun : Bool) (ns : String) :
    List ServiceAccount → ClusterState → List OrphanedResource × ClusterState × Option String
  | [], st => ([], st, none)
  | sa :: rest, st =>
    if isOrphaned st sa.metadata.labels then
      let orp : OrphanedResource := ⟨"ServiceAccount", sa.metadata.name, ns⟩
      if dryRun then
        let r := sweepServiceAccounts dryRun ns rest st
        (orp :: r.1, r.2)
      else
        match deleteServiceAccount st ns sa.metadata.name with
        | .ok st1 =>
          let r := sweepServiceAccounts dryRun ns rest st1
          (orp :: r.1, r.2)
        | .error e =>
          if isNotFound e then
            let r := sweepServiceAccounts dryRun ns rest st
            (orp :: r.1, r.2)
          else ([orp], st, some ("failed to delete service account " ++ sa.metadata.name ++ " in " ++ ns ++ ": " ++ renderErr e))
    else sweepServiceAccounts dryRun ns rest st

/-- One namespace of the sweep: list and process role bindings, then roles,
then service accounts, with the source's error behaviour (a list failure
aborts with an empty orphan list, a delete failure with the accumulated
one). -/
def sweepNamespace (dryRun : Bool) (ns : String) (st : ClusterState) :
    List OrphanedResource × ClusterState × Option SweepFail :=
  match listRoleBindingsManaged st ns with
  | .error e => ([], st, some (.listFail ("failed to list role bindings in " ++ ns ++ ": " ++ renderErr e)))
  | .ok bindings =>
    match sweepRoleBindings dryRun ns bindings st with
    | (o1, st1, some m) => (o1, st1, some (.deleteFail m))
    | (o1, st1, none) =>
      match listRolesManaged st1 ns with
      | .error e => ([], st1, some (.listFail ("failed to list roles in " ++ ns ++ ": " ++ renderErr e)))
      | .ok roles =>
        match sweepRoles dryRun ns roles st1 with
        | (o2, st2, some m) => (o1 ++ o2, st2, some (.deleteFail m))
        | (o2, st2, none) =>
          match listServiceAccountsManaged st2 ns with
          | .error e => ([], st2, some (.listFail ("failed to list service accounts in " ++ ns ++ ": " ++ renderErr e)))
          | .ok sas =>
            match sweepServiceAccounts dryRun ns sas st2 with
            | (o3, st3, some m) => (o1 ++ o2 ++ o3, st3, some (.deleteFail m))
            | (o3, st3, none) => (o1 ++ o2 ++ o3, st3, none)

/-- Loop of the sweep over the requested namespaces. -/
def sweepNamespaces (dryRun : Bool) :
    List String → ClusterState → List OrphanedResource × ClusterState × Option SweepFail
  | [], st => ([], st, none)
  | ns :: rest, st =>
    match sweepNamespace dryRun ns st with
    | (os, st1, some f) => (os, st1, some f)
    | (os, st1, none) =>
      match sweepNamespaces dryRun rest st1 with
      | (os2, st2, f) => (os ++ os2, st2, f)

/-- Body of CleanupOrphaned once the namespace list is resolved:
cluster-scoped bindings and roles first, then the per-namespace loop. -/
def cleanupOrphanedCore (st : ClusterState) (nss : List String) (dryRun : Bool) :
    List OrphanedResource × ClusterState × Option String :=
  match listClusterRoleBindingsManaged st with
  | .error e => ([], st, some ("failed to list cluster role bindings: " ++ renderErr e))
  | .ok crbs =>
    match sweepClusterRoleBindings dryRun crbs st with
    | (o1, st1, some m) => (o1, st1, some m)
    | (o1, st1, none) =>
      match listClusterRolesManaged st1 with
      | .error e => ([], st1, some ("failed to list cluster roles: " ++ renderErr e))
      | .ok crs =>
        match sweepClusterRoles dryRun crs st1 with
        | (o2, st2, some m) => (o1 ++ o2, st2, some m)
        | (o2, st2, none) =>
          match sweepNamespaces dryRun nss st2 with
          | (o3, st3, some (.listFail m)) => ([], st3, some m)
          | (o3, st3, some (.deleteFail m)) => (o1 ++ o2 ++ o3, st3, some m)
          | (o3, st3, none) => (o1 ++ o2 ++ o3, st3, none)

/-- CleanupOrphaned (rbac source): resolves the namespace list (all cluster
namespaces when allNamespaces), then scans every managed-labelled object,
classifying it with isOrphaned and, unless dry-run, deleting each orphan as
it is found; returns the observed orphans. -/
def cleanupOrphaned (st : ClusterState) (namespaces : List String)
    (allNamespaces dryRun : Bool) : List OrphanedResource × ClusterState × Option String :=
  if allNamespaces then
    match listNamespaces st with
    | .error e => ([], st, some ("failed to list namespaces: " ++ renderErr e))
    | .ok nss => cleanupOrphanedCore st nss dryRun
  else cleanupOrphanedCore st namespaces dryRun

end HelmTTL

namespace HelmTTL

/-! ## Lifecycle manager (ttl.go) -/

/-- Application-level errors of ttl.go, with the typed not-found errors the
callers distinguish and plain wrapped messages for the rest. -/
inductive AppError where
  | releaseNotFound (name : String)
  | ttlNotFound (name : String)
  | serviceAccountNotFound (name ns : String)
  | message (msg : String)
deriving DecidableEq, Repr, Inhabited

/-- Release store backing cfg.Releases: the deployed release names plus an
optional injected backend failure, so that lookups can fail for a reason
other than a missing record. -/
structure HelmStore where
  releases : List String
  backendErr : Option String
deriving DecidableEq, Repr, Inhabited

/-- cfg.Releases.Last: any backend failure surfaces as an error, otherwise a
missing record does. -/
def releasesLast (store : HelmStore) (name : String) : Except String Unit :=
  match store.backendErr with
  | some m => .error m
  | none => if store.releases.contains name then .ok () else .error "release: not found"

/-- SetTTLOptions of ttl.go. -/
structure SetTTLOptions where
  releaseName : String
  releaseNamespace : String
  cronjobNamespace : String
  duration : String
  serviceAccount : String
  createServiceAccount : Bool
  helmImage : String
  kubectlImage : String
  deleteNamespace : Bool
deriving DecidableEq, Repr, Inhabited

/-- SetTTL (ttl.go): validates release existence (any store failure becomes
ReleaseNotFoundError), rejects delete-namespace on equal namespaces, parses
the duration against now, derives the resource name, resolves the service
account (creating the access bundle or checking existence), builds the
CronJob and create-or-updates it, the update replacing only the stored
object's spec and labels. -/
def setTTL (store : HelmStore) (st : ClusterState) (opts : SetTTLOptions)
    (now : DateTime) : ClusterState × Option AppError :=
  match releasesLast store opts.releaseName with
  | .error _ => (st, some (.releaseNotFound opts.releaseName))
  | .ok _ =>
    if opts.deleteNamespace && decide (opts.releaseNamespace = opts.cronjobNamespace) then
      (st, some (.message ("cannot use --delete-namespace when CronJob namespace (" ++
        opts.cronjobNamespace ++ ") equals release namespace (" ++ opts.releaseNamespace ++ ")")))
    else
      match parseTimeInput opts.duration now with
      | .error e => (st, some (.message ("invalid duration: " ++ e)))
      | .ok targetTime =>
        let schedule := timeToCronSchedule targetTime
        match resourceName opts.releaseName opts.releaseNamespace with
        | .error e => (st, some (.message e))
        | .ok rname =>
          let saName :=
            if opts.createServiceAccount && decide (opts.serviceAccount = "default") then rname
            else opts.serviceAccount
          let saStep : ClusterState × Option AppError :=
            if opts.createServiceAccount then
              match createServiceAccountAndRBAC st opts.releaseName opts.releaseNamespace
                  opts.cronjobNamespace saName opts.deleteNamespace with
              | (st1, some e) => (st1, some (.message ("failed to create service account and RBAC: " ++ e)))
              | (st1, none) => (st1, none)
            else
              match getServiceAccount st opts.cronjobNamespace saName with
              | .error .notFound => (st, some (.serviceAccountNotFound saName opts.cronjobNamespace))
              | .error e => (st, some (.message ("failed to check service account: " ++ renderErr e)))
              | .ok _ => (st, none)
          match saStep with
          | (st1, some e) => (st1, some e)
          | (st1, none) =>
            match buildCronJob
                { releaseName := opts.releaseName
                  releaseNamespace := opts.releaseNamespace
                  cronjobNamespace := opts.cronjobNamespace
                  schedule := schedule
                  serviceAccount := saName
                  helmImage := opts.helmImage
                  kubectlImage := opts.kubectlImage
                  deleteNamespace := opts.deleteNamespace } with
            | .error e => (st1, some (.message ("failed to build CronJob: " ++ e)))
            | .ok cj =>
              match getCronJob st1 opts.cronjobNamespace rname with
              | .error .notFound =>
                match createCronJob st1 cj with
                | .error e => (st1, some (.message ("failed to create CronJob: " ++ renderErr e)))
                | .ok st2 => (st2, none)
              | .error e => (st1, some (.message ("failed to check existing CronJob: " ++ renderErr e)))
              | .ok existing =>
                let updated : CronJob :=
                  { existing with
                    spec := cj.spec
                    metadata := { existing.metadata with labels := cj.metadata.labels } }
                match updateCronJob st1 updated with
                | .error e => (st1, some (.message ("failed to update CronJob: " ++ renderErr e)))
                | .ok st2 => (st2, none)

/-! ## Execution engine (the RunTTL source document and its helpers) -/

/-- Log fetcher injected into the engine: namespace, pod and container to
log text, or a fetch failure. -/
abbrev LogFetcher := String → String → String → Except String String

/-- ContainerResult of the RunTTL source. -/
structure ContainerResult where
  name : String
  exitCode : Int
deriving DecidableEq, Repr, Inhabited

/-- RunTTLResult of the RunTTL source. -/
structure RunTTLResult where
  releaseName : String
  releaseNamespace : String
  deletedNamespace : Bool
  jobFailed : Bool
  containerResults : List ContainerResult
deriving DecidableEq, Repr, Inhabited

/-- Everything RunTTL leaves behind: the Go multiple return values plus the
mutated cluster and the log lines written to the writer. -/
structure RunOutcome where
  result : Option RunTTLResult
  error : Option AppError
  state : ClusterState
  logs : List String
deriving DecidableEq, Repr, Inhabited

/-- waitForPod: polls the job-name label selector until a pod owned by the
job appears.  On a static cluster state the poll either finds the pod now
or runs until the caller's context expires, so absence models the timeout
branch; a list failure is fatal immediately. -/
def waitForPod (st : ClusterState) (ns jobName : String) : Except AppError Pod :=
  match listPodsByLabel st ns "job-name" jobName with
  | .error e => .error (.message ("failed to list pods: " ++ renderErr e))
  | .ok pods =>
    match pods with
    | [] => .error (.message ("timed out waiting for pod (job " ++ jobName ++ "): context deadline exceeded"))
    | p :: _ => .ok p

/-- waitForContainerTermination: polls the pod until the named container
reports a terminated state, returning its exit code; absence of the
terminated state on the static cluster models the timeout branch, and a get
failure is fatal immediately. -/
def waitForContainerTermination (st : ClusterState) (ns podName containerName : String) :
    Except AppError Int :=
  match getPod st ns podName with
  | .error e => .error (.message ("failed to get pod " ++ podName ++ ": " ++ renderErr e))
  | .ok pod =>
    match (pod.initContainerStatuses ++ pod.containerStatuses).find?
        (fun cs => decide (cs.name = containerName) && cs.terminated.isSome) with
    | some cs => .ok (cs.terminated.getD 0)
    | none =>
      .error (.message ("timed out waiting for container " ++ containerName ++ " in pod " ++
        podName ++ ": context deadline exceeded"))

/-- streamContainerLogs: writes the per-container header, then the fetched
log text; a fetch failure is reported to the caller (which ignores it)
after the header was already written. -/
def streamContainerLogs (fetcher : LogFetcher) (ns podName containerName : String) :
    List String × Option String :=
  let header := "==> Container: " ++ containerName ++ " <=="
  match fetcher ns podName containerName with
  | .ok text => ([header, text], none)
  | .error e =>
    ([header], some ("failed to get logs for container " ++ containerName ++ ": " ++ e))

/-- Container loop of RunTTL: wait for each container in order, stream its
logs (ignoring stream failures), record its exit code, and mark the job
failed on any non-zero exit; a wait failure aborts the loop keeping the
results collected so far. -/
def processContainers (st : ClusterState) (fetcher : LogFetcher) (ns podName : String) :
    List String → List ContainerResult × Bool × List String × Option AppError
  | [] => ([], false, [], none)
  | c :: rest =>
    match waitForContainerTermination st ns podName c with
    | .error e => ([], false, [], some e)
    | .ok exitCode =>
      let logs := (streamContainerLogs fetcher ns podName c).1
      match processContainers st fetcher ns podName rest with
      | (results, failed, moreLogs, err) =>
        (⟨c, exitCode⟩ :: results, (decide (¬ exitCode = 0) || failed), logs ++ moreLogs, err)

/-- Best-effort Job deletion of RunTTL's cleanup: the state after deleting
the one-shot Job, keeping the previous state on any deletion error. -/
def jobCleanupState (st1 : ClusterState) (ns jobName : String) : ClusterState :=
  match deleteJob st1 ns jobName with
  | .ok s => s
  | .error _ => st1

/-- Cleanup phase and return of RunTTL, from the moment the one-shot Job
exists: best-effort Job deletion, best-effort access-bundle teardown, and,
when the delete-namespace label is set, namespace deletion tolerating
not-found; finally the accumulated result together with the first run
error, else a job-failed error, else none. -/
def runTTLCleanup (st1 : ClusterState)
    (releaseName releaseNamespace cronjobNamespace jobName : String)
    (deleteNs : Bool)
    (run : List ContainerResult × Bool × List String × Option AppError) : RunOutcome :=
  match run with
  | (results, failed, logs, runErr) =>
    let st2 := jobCleanupState st1 cronjobNamespace jobName
    let st3 := (cleanupRBAC st2 releaseName releaseNamespace cronjobNamespace).1
    let nsStep : ClusterState × Bool × Option AppError :=
      if deleteNs then
        match deleteNamespaceObj st3 releaseNamespace with
        | .ok st4 => (st4, true, none)
        | .error e =>
          if isNotFound e then (st3, true, none)
          else (st3, false, some (.message ("failed to delete namespace: " ++ renderErr e)))
      else (st3, false, none)
    match nsStep with
    | (st4, deletedNs, some e) => ⟨none, some e, st4, logs⟩
    | (st4, deletedNs, none) =>
      let result : RunTTLResult :=
        ⟨releaseName, releaseNamespace, deletedNs, failed, results⟩
      match runErr with
      | some e => ⟨some result, some e, st4, logs⟩
      | none =>
        if failed then
          ⟨some result, some (.message "job failed: one or more containers exited with non-zero status"), st4, logs⟩
        else ⟨some result, none, st4, logs⟩

/-- RunTTL (the RunTTL source document): resolves the name, fetches the
stored CronJob, builds and creates the one-shot Job, waits for its pod and
every container (collecting exit codes and logs), then always runs the
cleanup phase: best-effort Job deletion, best-effort access-bundle
teardown, and, when the delete-namespace label is set, namespace deletion
tolerating not-found; finally returns the accumulated result together with
the first run error, else a job-failed error, else none. -/
def runTTL (st : ClusterState) (fetcher : LogFetcher)
    (releaseName releaseNamespace cronjobNamespace : String) : RunOutcome :=
  match resourceName releaseName releaseNamespace with
  | .error e => ⟨none, some (.message e), st, []⟩
  | .ok rname =>
    match getCronJob st cronjobNamespace rname with
    | .error .notFound => ⟨none, some (.ttlNotFound releaseName), st, []⟩
    | .error e => ⟨none, some (.message ("failed to get CronJob: " ++ renderErr e)), st, []⟩
    | .ok cj =>
      let deleteNs := decide (getLabel cj.metadata.labels LabelDeleteNamespace = "true")
      let jobName := rname ++ "-run"
      let job := buildJobFromCronJob cj jobName
      match createJob st job with
      | .error e => ⟨none, some (.message ("failed to create Job: " ++ renderErr e)), st, []⟩
      | .ok st1 =>
        let run : List ContainerResult × Bool × List String × Option AppError :=
          match waitForPod st1 cronjobNamespace jobName with
          | .error e => ([], false, [], some e)
          | .ok pod =>
            let names := pod.spec.initContainers.map (fun c => c.name) ++
              pod.spec.containers.map (fun c => c.name)
            processContainers st1 fetcher cronjobNamespace pod.metadata.name names
        runTTLCleanup st1 releaseName releaseNamespace cronjobNamespace jobName deleteNs run

end HelmTTL

namespace HelmTTL

/-! ## Generic lemmas about the keyed-list operations -/

section KeyedLists

variable {α : Type} {key : α → String × String}

lemma kfind_cons {k : String × String} {a : α} {l : List α} :
    kfind key k (a :: l) = if key a = k then some a else kfind key k l := by
  by_cases h : key a = k
  · simp [kfind, List.find?_cons_of_pos, h]
  · simp [kfind, List.find?_cons_of_neg, h]

lemma kfind_eq_none {k : String × String} {l : List α} :
    kfind key k l = none ↔ ∀ o ∈ l, ¬ key o = k := by
  constructor
  · intro h o ho
    have := List.find?_eq_none.mp h o ho
    simpa using this
  · intro h
    exact List.find?_eq_none.mpr (fun o ho => by simpa using h o ho)

lemma kfind_some_key {k : String × String} {l : List α} {o : α}
    (h : kfind key k l = some o) : key o = k := by
  have := List.find?_some h
  simpa using this

lemma kfind_some_mem {k : String × String} {l : List α} {o : α}
    (h : kfind key k l = some o) : o ∈ l :=
  List.mem_of_find?_eq_some h

lemma kfind_append_self {x : α} {l : List α}
    (h : kfind key (key x) l = none) : kfind key (key x) (l ++ [x]) = some x := by
  induction l with
  | nil => simp [kfind_cons]
  | cons a t ih =>
    rw [List.cons_append, kfind_cons]
    rw [kfind_cons] at h
    split at h
    · cases h
    · rename_i hne
      rw [if_neg hne]
      exact ih h

lemma kfind_append_ne {k : String × String} {x : α} {l : List α}
    (h : ¬ key x = k) : kfind key k (l ++ [x]) = kfind key k l := by
  induction l with
  | nil => simp [kfind_cons, h, kfind]
  | cons a t ih =>
    rw [List.cons_append, kfind_cons, kfind_cons]
    by_cases ha : key a = k
    · simp [ha]
    · rw [if_neg ha, if_neg ha, ih]

lemma kreplace_eq_self {k : String × String} {v : α} {l : List α}
    (h : ∀ o ∈ l, key o = k → o = v) : kreplace key k v l = l := by
  induction l with
  | nil => rfl
  | cons a t ih =>
    have hh : ∀ o ∈ t, key o = k → o = v :=
      fun o ho hk => h o (List.mem_cons_of_mem a ho) hk
    simp only [kreplace, List.map_cons]
    by_cases ha : key a = k
    · have hd : (if key a = k then v else a) = a := by
        rw [if_pos ha]
        exact (h a (List.mem_cons_self a t) ha).symm
      rw [hd]
      exact congrArg (a :: ·) (ih hh)
    · rw [if_neg ha]
      exact congrArg (a :: ·) (ih hh)

lemma kfind_kreplace_self {k : String × String} {v : α} {l : List α}
    (hv : key v = k) (h : (kfind key k l).isSome) :
    kfind key k (kreplace key k v l) = some v := by
  induction l with
  | nil => simp [kfind] at h
  | cons a t ih =>
    simp only [kreplace, List.map_cons]
    by_cases ha : key a = k
    · rw [if_pos ha, kfind_cons, if_pos hv]
    · rw [if_neg ha, kfind_cons, if_neg ha]
      rw [kfind_cons, if_neg ha] at h
      exact ih h

lemma kfind_kreplace_ne {k1 k2 : String × String} {v : α} {l : List α}
    (hv : key v = k1) (hne : ¬ k2 = k1) :
    kfind key k2 (kreplace key k1 v l) = kfind key k2 l := by
  induction l with
  | nil => rfl
  | cons a t ih =>
    simp only [kreplace, List.map_cons]
    by_cases ha : key a = k1
    · have hvne : ¬ key v = k2 := by
        rw [hv]
        intro h
        exact hne h.symm
      have hane : ¬ key a = k2 := by
        rw [ha]
        intro h
        exact hne h.symm
      rw [if_pos ha, kfind_cons, if_neg hvne, kfind_cons, if_neg hane]
      exact ih
    · rw [if_neg ha, kfind_cons, kfind_cons]
      by_cases h2 : key a = k2
      · simp [h2]
      · rw [if_neg h2, if_neg h2]
        exact ih

lemma kreplace_mem_eq {k : String × String} {v o : α} {l : List α}
    (ho : o ∈ kreplace key k v l) (hk : key o = k) (hv : key v = k) : o = v := by
  induction l with
  | nil => cases ho
  | cons a t ih =>
    simp only [kreplace, List.map_cons] at ho
    rcases List.mem_cons.mp ho with h | h
    · by_cases ha : key a = k
      · rw [if_pos ha] at h
        exact h
      · rw [if_neg ha] at h
        exact absurd (h ▸ hk) ha
    · exact ih h

lemma kreplace_mem_of_ne {k : String × String} {v o : α} {l : List α}
    (ho : o ∈ kreplace key k v l) (hox : ¬ key o = k) (hvk : key v = k) : o ∈ l := by
  induction l with
  | nil => cases ho
  | cons a t ih =>
    simp only [kreplace, List.map_cons] at ho
    rcases List.mem_cons.mp ho with h | h
    · by_cases ha : key a = k
      · rw [if_pos ha] at h
        exact absurd (h ▸ hvk) hox
      · rw [if_neg ha] at h
        exact h ▸ List.mem_cons_self a t
    · exact List.mem_cons_of_mem a (ih h)

end KeyedLists

/-! ## Upsert characterization of the create-or-update helpers -/

/-- List-level effect of one create-or-update call: append when the key is
absent, otherwise replace every object at that key with the merge of the
existing object and the desired one. -/
def upsert (key : α → String × String) (withF : α → α → α) (l : List α) (x : α) : List α :=
  match kfind key (key x) l with
  | none => l ++ [x]
  | some e => kreplace key (key x) (withF e x) l

/-- Settled key: the list holds v at that key and nothing else there. -/
def settled (key : α → String × String) (v : α) (l : List α) : Prop :=
  kfind key (key v) l = some v ∧ ∀ o ∈ l, key o = key v → o = v

section UpsertLemmas

variable {α : Type} {key : α → String × String} {withF : α → α → α}

lemma upsert_settled (l : List α) (x : α)
    (hkey : ∀ e y, key (withF e y) = key e) :
    ∃ v, settled key v (upsert key withF l x) ∧ key v = key x ∧
      (v = x ∨ ∃ e, kfind key (key x) l = some e ∧ v = withF e x) := by
  unfold upsert
  cases hf : kfind key (key x) l with
  | none =>
    refine ⟨x, ⟨kfind_append_self hf, ?_⟩, rfl, Or.inl rfl⟩
    intro o ho _
    rcases List.mem_append.mp ho with h | h
    · exact absurd ‹key o = key x› (kfind_eq_none.mp hf o h)
    · simpa using h
  | some e =>
    have hek : key e = key x := kfind_some_key hf
    have hvk : key (withF e x) = key x := by rw [hkey, hek]
    refine ⟨withF e x, ⟨?_, ?_⟩, hvk, Or.inr ⟨e, rfl, rfl⟩⟩
    · rw [hvk]
      exact kfind_kreplace_self hvk (by rw [hf]; rfl)
    · intro o ho hk
      exact kreplace_mem_eq ho (by rw [hk, hvk]) hvk

lemma upsert_of_settled {l : List α} {v x : α}
    (hs : settled key v l) (hk : key x = key v) (hw : withF v x = v) :
    upsert key withF l x = l := by
  unfold upsert
  rw [hk, hs.1]
  show kreplace key (key v) (withF v x) l = l
  rw [hw]
  exact kreplace_eq_self hs.2

lemma settled_upsert_ne {l : List α} {v x : α}
    (hs : settled key v l) (hne : ¬ key x = key v)
    (hkey : ∀ e y, key (withF e y) = key e) :
    settled key v (upsert key withF l x) := by
  unfold upsert
  cases hf : kfind key (key x) l with
  | none =>
    constructor
    · rw [kfind_append_ne hne]
      exact hs.1
    · intro o ho hk
      rcases List.mem_append.mp ho with h | h
      · exact hs.2 o h hk
      · have hox : o = x := by simpa using h
        exact absurd (hox ▸ hk) hne
  | some e =>
    have hek : key e = key x := kfind_some_key hf
    have hvk : key (withF e x) = key x := by rw [hkey, hek]
    constructor
    · rw [kfind_kreplace_ne hvk (fun h => hne h.symm)]
      exact hs.1
    · intro o ho hk
      by_cases hox : key o = key x
      · exact absurd (hox ▸ hk :) hne
      · exact hs.2 o (kreplace_mem_of_ne ho hox hvk) hk

end UpsertLemmas

end HelmTTL

namespace HelmTTL

/-! ## Per-kind merge functions of the create-or-update helpers -/

/-- Field overwrite of createOrUpdateServiceAccount: labels only. -/
def saWith (e x : ServiceAccount) : ServiceAccount :=
  { e with metadata := { e.metadata with labels := x.metadata.labels } }

/-- Field overwrite of createOrUpdateRole: labels and rules. -/
def roleWith (e x : Role) : Role :=
  { e with metadata := { e.metadata with labels := x.metadata.labels }, rules := x.rules }

/-- Field overwrite of createOrUpdateRoleBinding: labels, subjects, role
reference. -/
def rbWith (e x : RoleBinding) : RoleBinding :=
  { e with
    metadata := { e.metadata with labels := x.metadata.labels }
    subjects := x.subjects
    roleRef := x.roleRef }

/-- Field overwrite of createOrUpdateClusterRole: labels and rules. -/
def crWith (e x : ClusterRole) : ClusterRole :=
  { e with metadata := { e.metadata with labels := x.metadata.labels }, rules := x.rules }

/-- Field overwrite of createOrUpdateClusterRoleBinding: labels, subjects,
role reference. -/
def crbWith (e x : ClusterRoleBinding) : ClusterRoleBinding :=
  { e with
    metadata := { e.metadata with labels := x.metadata.labels }
    subjects := x.subjects
    roleRef := x.roleRef }

lemma saWith_key (e x : ServiceAccount) : saKey (saWith e x) = saKey e := rfl
lemma saWith_self (x : ServiceAccount) : saWith x x = x := rfl
lemma saWith_with (e x : ServiceAccount) : saWith (saWith e x) x = saWith e x := rfl
lemma roleWith_key (e x : Role) : roleKey (roleWith e x) = roleKey e := rfl
lemma roleWith_self (x : Role) : roleWith x x = x := rfl
lemma roleWith_with (e x : Role) : roleWith (roleWith e x) x = roleWith e x := rfl
lemma rbWith_key (e x : RoleBinding) : rbKey (rbWith e x) = rbKey e := rfl
lemma rbWith_self (x : RoleBinding) : rbWith x x = x := rfl
lemma rbWith_with (e x : RoleBinding) : rbWith (rbWith e x) x = rbWith e x := rfl
lemma crWith_key (e x : ClusterRole) : crKey (crWith e x) = crKey e := rfl
lemma crWith_self (x : ClusterRole) : crWith x x = x := rfl
lemma crWith_with (e x : ClusterRole) : crWith (crWith e x) x = crWith e x := rfl
lemma crbWith_key (e x : ClusterRoleBinding) : crbKey (crbWith e x) = crbKey e := rfl
lemma crbWith_self (x : ClusterRoleBinding) : crbWith x x = x := rfl
lemma crbWith_with (e x : ClusterRoleBinding) : crbWith (crbWith e x) x = crbWith e x := rfl

lemma react_none (st : ClusterState) (hr : st.reactors = []) (v r : String) :
    react st v r = none := by
  simp [react, hr]

/-- Create without injected failures, reduced to the list operation. -/
lemma createServiceAccount_noreact (st : ClusterState) (sa : ServiceAccount)
    (hr : st.reactors = []) :
    createServiceAccount st sa =
      match kfind saKey (saKey sa) st.serviceAccounts with
      | some _ => .error .alreadyExists
      | none => .ok { st with serviceAccounts := st.serviceAccounts ++ [sa] } := by
  unfold createServiceAccount
  rw [react_none st hr]

lemma getServiceAccount_noreact (st : ClusterState) (ns name : String)
    (hr : st.reactors = []) :
    getServiceAccount st ns name =
      match kfind saKey (name, ns) st.serviceAccounts with
      | some o => .ok o
      | none => .error .notFound := by
  unfold getServiceAccount
  rw [react_none st hr]

lemma updateServiceAccount_noreact (st : ClusterState) (o : ServiceAccount)
    (hr : st.reactors = []) :
    updateServiceAccount st o =
      match kfind saKey (saKey o) st.serviceAccounts with
      | some _ => .ok { st with serviceAccounts := kreplace saKey (saKey o) o st.serviceAccounts }
      | none => .error .notFound := by
  unfold updateServiceAccount
  rw [react_none st hr]

/-- Without injected failures, one create-or-update of a service account is
exactly an upsert on the service-account list. -/
lemma createOrUpdateServiceAccount_noreact (st : ClusterState) (sa : ServiceAccount)
    (hr : st.reactors = []) :
    createOrUpdateServiceAccount st sa =
      .ok { st with serviceAccounts := upsert saKey saWith st.serviceAccounts sa } := by
  unfold createOrUpdateServiceAccount upsert
  rw [createServiceAccount_noreact st sa hr]
  cases hf : kfind saKey (saKey sa) st.serviceAccounts with
  | none => rfl
  | some e =>
    have hek : saKey e = saKey sa := kfind_some_key hf
    dsimp only
    rw [getServiceAccount_noreact st sa.metadata.nspace sa.metadata.name hr,
      show ((sa.metadata.name, sa.metadata.nspace) : String × String) = saKey sa from rfl, hf]
    dsimp only
    rw [show ({ e with metadata := { e.metadata with labels := sa.metadata.labels } } :
        ServiceAccount) = saWith e sa from rfl]
    rw [updateServiceAccount_noreact st (saWith e sa) hr, saWith_key, hek, hf]

end HelmTTL

namespace HelmTTL

lemma createRole_noreact (st : ClusterState) (role : Role)
    (hr : st.reactors = []) :
    createRole st role =
      match kfind roleKey (roleKey role) st.roles with
      | some _ => .error .alreadyExists
      | none => .ok { st with roles := st.roles ++ [role] } := by
  unfold createRole
  rw [react_none st hr]

lemma getRole_noreact (st : ClusterState) (ns name : String)
    (hr : st.reactors = []) :
    getRole st ns name =
      match kfind roleKey (name, ns) st.roles with
      | some o => .ok o
      | none => .error .notFound := by
  unfold getRole
  rw [react_none st hr]

lemma updateRole_noreact (st : ClusterState) (o : Role)
    (hr : st.reactors = []) :
    updateRole st o =
      match kfind roleKey (roleKey o) st.roles with
      | some _ => .ok { st with roles := kreplace roleKey (roleKey o) o st.roles }
      | none => .error .notFound := by
  unfold updateRole
  rw [react_none st hr]

/-- Without injected failures, one create-or-update of this kind is exactly
an upsert on its list. -/
lemma createOrUpdateRole_noreact (st : ClusterState) (role : Role)
    (hr : st.reactors = []) :
    createOrUpdateRole st role =
      .ok { st with roles := upsert roleKey roleWith st.roles role } := by
  unfold createOrUpdateRole upsert
  rw [createRole_noreact st role hr]
  cases hf : kfind roleKey (roleKey role) st.roles with
  | none => rfl
  | some e =>
    have hek : roleKey e = roleKey role := kfind_some_key hf
    dsimp only
    rw [getRole_noreact st role.metadata.nspace role.metadata.name hr,
      show ((role.metadata.name, role.metadata.nspace) : String × String) = roleKey role from rfl, hf]
    dsimp only
    rw [show ({ e with metadata := { e.metadata with labels := role.metadata.labels }, rules := role.rules } :
        Role) = roleWith e role from rfl]
    rw [updateRole_noreact st (roleWith e role) hr, roleWith_key, hek, hf]


lemma createRoleBinding_noreact (st : ClusterState) (binding : RoleBinding)
    (hr : st.reactors = []) :
    createRoleBinding st binding =
      match kfind rbKey (rbKey binding) st.roleBindings with
      | some _ => .error .alreadyExists
      | none => .ok { st with roleBindings := st.roleBindings ++ [binding] } := by
  unfold createRoleBinding
  rw [react_none st hr]

lemma getRoleBinding_noreact (st : ClusterState) (ns name : String)
    (hr : st.reactors = []) :
    getRoleBinding st ns name =
      match kfind rbKey (name, ns) st.roleBindings with
      | some o => .ok o
      | none => .error .notFound := by
  unfold getRoleBinding
  rw [react_none st hr]

lemma updateRoleBinding_noreact (st : ClusterState) (o : RoleBinding)
    (hr : st.reactors = []) :
    updateRoleBinding st o =
      match kfind rbKey (rbKey o) st.roleBindings with
      | some _ => .ok { st with roleBindings := kreplace rbKey (rbKey o) o st.roleBindings }
      | none => .error .notFound := by
  unfold updateRoleBinding
  rw [react_none st hr]

/-- Without injected failures, one create-or-update of this kind is exactly
an upsert on its list. -/
lemma createOrUpdateRoleBinding_noreact (st : ClusterState) (binding : RoleBinding)
    (hr : st.reactors = []) :
    createOrUpdateRoleBinding st binding =
      .ok { st with roleBindings := upsert rbKey rbWith st.roleBindings binding } := by
  unfold createOrUpdateRoleBinding upsert
  rw [createRoleBinding_noreact st binding hr]
  cases hf : kfind rbKey (rbKey binding) st.roleBindings with
  | none => rfl
  | some e =>
    have hek : rbKey e = rbKey binding := kfind_some_key hf
    dsimp only
    rw [getRoleBinding_noreact st binding.metadata.nspace binding.metadata.name hr,
      show ((binding.metadata.name, binding.metadata.nspace) : String × String) = rbKey binding from rfl, hf]
    dsimp only
    rw [show ({ e with
        metadata := { e.metadata with labels := binding.metadata.labels }
        subjects := binding.subjects
        roleRef := binding.roleRef } :
        RoleBinding) = rbWith e binding from rfl]
    rw [updateRoleBinding_noreact st (rbWith e binding) hr, rbWith_key, hek, hf]


lemma createClusterRole_noreact (st : ClusterState) (role : ClusterRole)
    (hr : st.reactors = []) :
    createClusterRole st role =
      match kfind crKey (crKey role) st.clusterRoles with
      | some _ => .error .alreadyExists
      | none => .ok { st with clusterRoles := st.clusterRoles ++ [role] } := by
  unfold createClusterRole
  rw [react_none st hr]

lemma getClusterRole_noreact (st : ClusterState) (name : String)
    (hr : st.reactors = []) :
    getClusterRole st name =
      match kfind crKey (name, "") st.clusterRoles with
      | some o => .ok o
      | none => .error .notFound := by
  unfold getClusterRole
  rw [react_none st hr]

lemma updateClusterRole_noreact (st : ClusterState) (o : ClusterRole)
    (hr : st.reactors = []) :
    updateClusterRole st o =
      match kfind crKey (crKey o) st.clusterRoles with
      | some _ => .ok { st with clusterRoles := kreplace crKey (crKey o) o st.clusterRoles }
      | none => .error .notFound := by
  unfold updateClusterRole
  rw [react_none st hr]

/-- Without injected failures, one create-or-update of this kind is exactly
an upsert on its list. -/
lemma createOrUpdateClusterRole_noreact (st : ClusterState) (role : ClusterRole)
    (hr : st.reactors = []) (hns : role.metadata.nspace = "") :
    createOrUpdateClusterRole st role =
      .ok { st with clusterRoles := upsert crKey crWith st.clusterRoles role } := by
  unfold createOrUpdateClusterRole upsert
  rw [createClusterRole_noreact st role hr]
  cases hf : kfind crKey (crKey role) st.clusterRoles with
  | none => rfl
  | some e =>
    have hek : crKey e = crKey role := kfind_some_key hf
    dsimp only
    rw [getClusterRole_noreact st role.metadata.name hr,
      show ((role.metadata.name, "") : String × String) = crKey role from hns ▸ rfl, hf]
    dsimp only
    rw [show ({ e with metadata := { e.metadata with labels := role.metadata.labels }, rules := role.rules } :
        ClusterRole) = crWith e role from rfl]
    rw [updateClusterRole_noreact st (crWith e role) hr, crWith_key, hek, hf]


lemma createClusterRoleBinding_noreact (st : ClusterState) (binding : ClusterRoleBinding)
    (hr : st.reactors = []) :
    createClusterRoleBinding st binding =
      match kfind crbKey (crbKey binding) st.clusterRoleBindings with
      | some _ => .error .alreadyExists
      | none => .ok { st with clusterRoleBindings := st.clusterRoleBindings ++ [binding] } := by
  unfold createClusterRoleBinding
  rw [react_none st hr]

lemma getClusterRoleBinding_noreact (st : ClusterState) (name : String)
    (hr : st.reactors = []) :
    getClusterRoleBinding st name =
      match kfind crbKey (name, "") st.clusterRoleBindings with
      | some o => .ok o
      | none => .error .notFound := by
  unfold getClusterRoleBinding
  rw [react_none st hr]

lemma updateClusterRoleBinding_noreact (st : ClusterState) (o : ClusterRoleBinding)
    (hr : st.reactors = []) :
    updateClusterRoleBinding st o =
      match kfind crbKey (crbKey o) st.clusterRoleBindings with
      | some _ => .ok { st with clusterRoleBindings := kreplace crbKey (crbKey o) o st.clusterRoleBindings }
      | none => .error .notFound := by
  unfold updateClusterRoleBinding
  rw [react_none st hr]

/-- Without injected failures, one create-or-update of this kind is exactly
an upsert on its list. -/
lemma createOrUpdateClusterRoleBinding_noreact (st : ClusterState) (binding : ClusterRoleBinding)
    (hr : st.reactors = []) (hns : binding.metadata.nspace = "") :
    createOrUpdateClusterRoleBinding st binding =
      .ok { st with clusterRoleBindings := upsert crbKey crbWith st.clusterRoleBindings binding } := by
  unfold createOrUpdateClusterRoleBinding upsert
  rw [createClusterRoleBinding_noreact st binding hr]
  cases hf : kfind crbKey (crbKey binding) st.clusterRoleBindings with
  | none => rfl
  | some e =>
    have hek : crbKey e = crbKey binding := kfind_some_key hf
    dsimp only
    rw [getClusterRoleBinding_noreact st binding.metadata.name hr,
      show ((binding.metadata.name, "") : String × String) = crbKey binding from hns ▸ rfl, hf]
    dsimp only
    rw [show ({ e with
        metadata := { e.metadata with labels := binding.metadata.labels }
        subjects := binding.subjects
        roleRef := binding.roleRef } :
        ClusterRoleBinding) = crbWith e binding from rfl]
    rw [updateClusterRoleBinding_noreact st (crbWith e binding) hr, crbWith_key, hek, hf]


end HelmTTL

namespace HelmTTL

/-- State-level effect of a successful same-namespace provisioning run. -/
lemma csar_run_sameNs (st : ClusterState) (rel rn saName nm : String)
    (hr : st.reactors = []) (hn : resourceName rel rn = .ok nm) :
    createServiceAccountAndRBAC st rel rn rn saName false =
      ({ st with
          serviceAccounts :=
            upsert saKey saWith st.serviceAccounts (bundleSA saName rn (resourceLabels rel rn))
          roles :=
            upsert roleKey roleWith st.roles (sameNsRole nm rn (resourceLabels rel rn))
          roleBindings :=
            upsert rbKey rbWith st.roleBindings
              (sameNsBinding nm saName rn (resourceLabels rel rn)) },
        none) := by
  unfold createServiceAccountAndRBAC
  simp only [Bool.false_and, Bool.false_eq_true, if_false]
  rw [hn]
  dsimp only
  rw [createOrUpdateServiceAccount_noreact st _ hr]
  dsimp only
  simp only [decide_eq_true_eq, if_pos rfl]
  unfold createSameNamespaceRBAC
  rw [createOrUpdateRole_noreact _ _ (by exact hr)]
  dsimp only
  rw [createOrUpdateRoleBinding_noreact _ _ (by exact hr)]
  rfl

/-- State-level effect of a successful cross-namespace provisioning run
without namespace deletion. -/
lemma csar_run_cross (st : ClusterState) (rel rn cn saName nm : String)
    (hr : st.reactors = []) (hn : resourceName rel rn = .ok nm) (hne : ¬ rn = cn) :
    createServiceAccountAndRBAC st rel rn cn saName false =
      ({ st with
          serviceAccounts :=
            upsert saKey saWith st.serviceAccounts (bundleSA saName cn (resourceLabels rel rn))
          roles :=
            upsert roleKey roleWith
              (upsert roleKey roleWith st.roles (crossReleaseRole nm rn (resourceLabels rel rn)))
              (crossCronjobRole nm cn (resourceLabels rel rn))
          roleBindings :=
            upsert rbKey rbWith
              (upsert rbKey rbWith st.roleBindings
                (crossReleaseBinding nm saName rn cn (resourceLabels rel rn)))
              (crossCronjobBinding nm saName cn (resourceLabels rel rn)) },
        none) := by
  unfold createServiceAccountAndRBAC
  simp only [Bool.false_and, Bool.false_eq_true, if_false]
  rw [hn]
  dsimp only
  rw [createOrUpdateServiceAccount_noreact st _ hr]
  dsimp only
  simp only [decide_eq_true_eq, if_neg hne, Bool.false_eq_true, if_false]
  unfold createCrossNamespaceRBAC
  rw [createOrUpdateRole_noreact _ _ (by exact hr)]
  dsimp only
  rw [createOrUpdateRoleBinding_noreact _ _ (by exact hr)]
  dsimp only
  rw [createOrUpdateRole_noreact _ _ (by exact hr)]
  dsimp only
  rw [createOrUpdateRoleBinding_noreact _ _ (by exact hr)]

/-- State-level effect of a successful cross-namespace provisioning run with
namespace deletion. -/
lemma csar_run_crossDel (st : ClusterState) (rel rn cn saName nm : String)
    (hr : st.reactors = []) (hn : resourceName rel rn = .ok nm) (hne : ¬ rn = cn) :
    createServiceAccountAndRBAC st rel rn cn saName true =
      ({ st with
          serviceAccounts :=
            upsert saKey saWith st.serviceAccounts (bundleSA saName cn (resourceLabels rel rn))
          roles :=
            upsert roleKey roleWith
              (upsert roleKey roleWith st.roles (crossReleaseRole nm rn (resourceLabels rel rn)))
              (crossCronjobRole nm cn (resourceLabels rel rn))
          roleBindings :=
            upsert rbKey rbWith
              (upsert rbKey rbWith st.roleBindings
                (crossReleaseBinding nm saName rn cn (resourceLabels rel rn)))
              (crossCronjobBinding nm saName cn (resourceLabels rel rn))
          clusterRoles :=
            upsert crKey crWith st.clusterRoles (nsClusterRole nm (resourceLabels rel rn))
          clusterRoleBindings :=
            upsert crbKey crbWith st.clusterRoleBindings
              (nsClusterBinding nm saName cn (resourceLabels rel rn)) },
        none) := by
  unfold createServiceAccountAndRBAC
  simp only [Bool.true_and, decide_eq_true_eq, if_neg hne, Bool.false_eq_true, if_false]
  rw [hn]
  dsimp only
  rw [createOrUpdateServiceAccount_noreact st _ hr]
  dsimp only
  unfold createCrossNamespaceRBAC
  rw [createOrUpdateRole_noreact _ _ (by exact hr)]
  dsimp only
  rw [createOrUpdateRoleBinding_noreact _ _ (by exact hr)]
  dsimp only
  rw [createOrUpdateRole_noreact _ _ (by exact hr)]
  dsimp only
  rw [createOrUpdateRoleBinding_noreact _ _ (by exact hr)]
  dsimp only
  unfold createDeleteNamespaceRBAC
  rw [createOrUpdateClusterRole_noreact _ _ (by exact hr) rfl]
  dsimp only
  rw [createOrUpdateClusterRoleBinding_noreact _ _ (by exact hr) rfl]
  rfl

end HelmTTL

namespace HelmTTL

/-! ## Idempotence and uniqueness lemmas for upserts -/

section UpsertIdem

variable {α : Type} {key : α → String × String} {withF : α → α → α}

lemma withF_settled_self (hself : ∀ y : α, withF y y = y)
    (hwith : ∀ e y, withF (withF e y) y = withF e y)
    {l : List α} {x v : α}
    (hv : v = x ∨ ∃ e, kfind key (key x) l = some e ∧ v = withF e x) :
    withF v x = v := by
  rcases hv with h | ⟨e, _, h⟩
  · rw [h]; exact hself x
  · rw [h]; exact hwith e x

lemma upsert_idem (l : List α) (x : α)
    (hkey : ∀ e y, key (withF e y) = key e)
    (hself : ∀ y : α, withF y y = y)
    (hwith : ∀ e y, withF (withF e y) y = withF e y) :
    upsert key withF (upsert key withF l x) x = upsert key withF l x := by
  obtain ⟨v, hs, hkv, hv⟩ := upsert_settled l x hkey
  exact upsert_of_settled hs hkv.symm (withF_settled_self hself hwith hv)

lemma upsert_pair_idem (l : List α) (x y : α)
    (hne : ¬ key y = key x)
    (hkey : ∀ e z, key (withF e z) = key e)
    (hself : ∀ z : α, withF z z = z)
    (hwith : ∀ e z, withF (withF e z) z = withF e z) :
    upsert key withF (upsert key withF (upsert key withF (upsert key withF l x) y) x) y =
      upsert key withF (upsert key withF l x) y := by
  obtain ⟨vx, hsx, hkvx, hvx⟩ := upsert_settled l x hkey
  have hsx2 : settled key vx (upsert key withF (upsert key withF l x) y) :=
    settled_upsert_ne hsx (by rw [hkvx]; exact hne) hkey
  rw [upsert_of_settled hsx2 hkvx.symm (withF_settled_self hself hwith hvx)]
  obtain ⟨vy, hsy, hkvy, hvy⟩ := upsert_settled (upsert key withF l x) y hkey
  exact upsert_of_settled hsy hkvy.symm (withF_settled_self hself hwith hvy)

/-- Distinct keys across a list. -/
def kdistinct (key : α → String × String) (l : List α) : Prop :=
  l.Pairwise (fun a b => ¬ key a = key b)

lemma kdistinct_upsert {l : List α} {x : α}
    (hd : kdistinct key l) (hkey : ∀ e y, key (withF e y) = key e) :
    kdistinct key (upsert key withF l x) := by
  unfold upsert
  cases hf : kfind key (key x) l with
  | none =>
    refine List.pairwise_append.mpr ⟨hd, List.pairwise_singleton _ _, ?_⟩
    intro a ha b hb
    have hbx : b = x := by simpa using hb
    rw [hbx]
    exact kfind_eq_none.mp hf a ha
  | some e =>
    have hek : key e = key x := kfind_some_key hf
    have hpt : ∀ o : α, key (if key o = key x then withF e x else o) = key o := by
      intro o
      by_cases h : key o = key x
      · rw [if_pos h, hkey, hek, h]
      · rw [if_neg h]
    unfold kdistinct kreplace
    rw [List.pairwise_map]
    exact hd.imp (by intro a b hab; rw [hpt a, hpt b]; exact hab)

lemma filter_eq_single {l : List α} {v : α} {k : String × String}
    (hd : kdistinct key l) (hf : kfind key k l = some v) :
    l.filter (fun o => decide (key o = k)) = [v] := by
  induction l with
  | nil => cases hf
  | cons a t ih =>
    rw [kfind_cons] at hf
    have hda : ∀ o ∈ t, ¬ key a = key o := (List.pairwise_cons.mp hd).1
    by_cases ha : key a = k
    · rw [if_pos ha] at hf
      cases hf
      rw [List.filter_cons_of_pos (by simpa using ha)]
      have : t.filter (fun o => decide (key o = k)) = [] := by
        rw [List.filter_eq_nil_iff]
        intro o ho
        simp only [decide_eq_true_eq]
        intro hok
        exact hda o ho (ha ▸ hok ▸ rfl)
      rw [this]
    · rw [if_neg ha] at hf
      rw [List.filter_cons_of_neg (by simpa using ha)]
      exact ih (List.pairwise_cons.mp hd).2 hf

lemma settled_filter {l : List α} {v : α}
    (hd : kdistinct key l) (hs : settled key v l) :
    l.filter (fun o => decide (key o = key v)) = [v] :=
  filter_eq_single hd hs.1

end UpsertIdem

end HelmTTL

namespace HelmTTL

section UpsertFilter

variable {α : Type} {key : α → String × String} {withF : α → α → α}

lemma upsert_filter_single {l : List α} {x : α}
    (hd : kdistinct key l) (hkey : ∀ e y, key (withF e y) = key e) :
    ∃ v, (upsert key withF l x).filter (fun o => decide (key o = key x)) = [v] ∧
      (v = x ∨ ∃ e, kfind key (key x) l = some e ∧ v = withF e x) := by
  obtain ⟨v, hs, hkv, hval⟩ := upsert_settled l x hkey
  refine ⟨v, ?_, hval⟩
  have hfl := settled_filter (kdistinct_upsert hd hkey) hs
  simpa only [hkv] using hfl

lemma upsert2_filter_first {l : List α} {x y : α}
    (hne : ¬ key y = key x)
    (hd : kdistinct key l) (hkey : ∀ e z, key (withF e z) = key e) :
    ∃ v, (upsert key withF (upsert key withF l x) y).filter
        (fun o => decide (key o = key x)) = [v] ∧
      (v = x ∨ ∃ e, kfind key (key x) l = some e ∧ v = withF e x) := by
  obtain ⟨v, hs, hkv, hval⟩ := upsert_settled l x hkey
  refine ⟨v, ?_, hval⟩
  have hs2 : settled key v (upsert key withF (upsert key withF l x) y) :=
    settled_upsert_ne hs (by rw [hkv]; exact hne) hkey
  have hfl := settled_filter (kdistinct_upsert (kdistinct_upsert hd hkey) hkey) hs2
  simpa only [hkv] using hfl

lemma upsert2_filter_second {l : List α} {x y : α}
    (hd : kdistinct key l) (hkey : ∀ e z, key (withF e z) = key e) :
    ∃ v, (upsert key withF (upsert key withF l x) y).filter
        (fun o => decide (key o = key y)) = [v] ∧
      (v = y ∨ ∃ e, kfind key (key y) (upsert key withF l x) = some e ∧ v = withF e y) :=
  upsert_filter_single (kdistinct_upsert hd hkey) hkey

end UpsertFilter

lemma upsert_filter_single_p {α : Type} (key : α → String × String) (withF : α → α → α)
    {l : List α} {x : α}
    (hd : kdistinct key l) (hkey : ∀ e y, key (withF e y) = key e) :
    ∃ v, (upsert key withF l x).filter (fun o => decide (key o = key x)) = [v] ∧
      (v = x ∨ ∃ e, kfind key (key x) l = some e ∧ v = withF e x) :=
  upsert_filter_single hd hkey

lemma upsert2_filter_first_p {α : Type} (key : α → String × String) (withF : α → α → α)
    {l : List α} {x y : α}
    (hne : ¬ key y = key x) (hd : kdistinct key l)
    (hkey : ∀ e z, key (withF e z) = key e) :
    ∃ v, (upsert key withF (upsert key withF l x) y).filter
        (fun o => decide (key o = key x)) = [v] ∧
      (v = x ∨ ∃ e, kfind key (key x) l = some e ∧ v = withF e x) :=
  upsert2_filter_first hne hd hkey

lemma upsert2_filter_second_p {α : Type} (key : α → String × String) (withF : α → α → α)
    {l : List α} {x y : α}
    (hd : kdistinct key l) (hkey : ∀ e z, key (withF e z) = key e) :
    ∃ v, (upsert key withF (upsert key withF l x) y).filter
        (fun o => decide (key o = key y)) = [v] ∧
      (v = y ∨ ∃ e, kfind key (key y) (upsert key withF l x) = some e ∧ v = withF e y) :=
  upsert2_filter_second hd hkey


/-- Weakening of the upsert value characterization to the merge shape. -/
lemma upsert_val_shape {α : Type} {v x : α} {withF : α → α → α} {P : α → Prop}
    (h : v = x ∨ ∃ e, P e ∧ v = withF e x) : v = x ∨ ∃ e, v = withF e x :=
  h.imp id (fun ⟨e, _, he⟩ => ⟨e, he⟩)

/-- A service-account upsert leaves the requested labels. -/
lemma saWith_fields {v x : ServiceAccount} (h : v = x ∨ ∃ e, v = saWith e x) :
    v.metadata.labels = x.metadata.labels := by
  rcases h with h | ⟨e, h⟩ <;> rw [h] <;> rfl

/-- A role upsert leaves the requested labels and rules. -/
lemma roleWith_fields {v x : Role} (h : v = x ∨ ∃ e, v = roleWith e x) :
    v.metadata.labels = x.metadata.labels ∧ v.rules = x.rules := by
  rcases h with h | ⟨e, h⟩ <;> rw [h] <;> exact ⟨rfl, rfl⟩

/-- A role-binding upsert leaves the requested labels, subjects and role
reference. -/
lemma rbWith_fields {v x : RoleBinding} (h : v = x ∨ ∃ e, v = rbWith e x) :
    v.metadata.labels = x.metadata.labels ∧ v.subjects = x.subjects ∧ v.roleRef = x.roleRef := by
  rcases h with h | ⟨e, h⟩ <;> rw [h] <;> exact ⟨rfl, rfl, rfl⟩

/-- A cluster-role upsert leaves the requested labels and rules. -/
lemma crWith_fields {v x : ClusterRole} (h : v = x ∨ ∃ e, v = crWith e x) :
    v.metadata.labels = x.metadata.labels ∧ v.rules = x.rules := by
  rcases h with h | ⟨e, h⟩ <;> rw [h] <;> exact ⟨rfl, rfl⟩

/-- A cluster-role-binding upsert leaves the requested labels, subjects and
role reference. -/
lemma crbWith_fields {v x : ClusterRoleBinding} (h : v = x ∨ ∃ e, v = crbWith e x) :
    v.metadata.labels = x.metadata.labels ∧ v.subjects = x.subjects ∧ v.roleRef = x.roleRef := by
  rcases h with h | ⟨e, h⟩ <;> rw [h] <;> exact ⟨rfl, rfl, rfl⟩

/-- Well-formed cluster: at most one object per key in each RBAC list,
the uniqueness a real cluster guarantees by name. -/
def wellFormedRBAC (st : ClusterState) : Prop :=
  kdistinct saKey st.serviceAccounts ∧ kdistinct roleKey st.roles ∧
  kdistinct rbKey st.roleBindings ∧ kdistinct crKey st.clusterRoles ∧
  kdistinct crbKey st.clusterRoleBindings

end HelmTTL

namespace HelmTTL

/-- C4 confirmed: CreateServiceAccountAndRBAC is idempotent.  For every
valid argument tuple on a well-formed cluster without injected failures,
the call succeeds, calling it again with identical arguments leaves the
cluster unchanged, and the resulting cluster holds exactly one service
account and one role/binding set per topology, each carrying the requested
labels, rules, subjects and role reference; every object creation is
create-or-update (attempt create, and on already-exists fetch the existing
object and overwrite only its labels/rules/subjects/role-reference), as the
upsert characterization lemmas used here establish. -/
theorem createServiceAccountAndRBAC_idempotent
    (st : ClusterState) (rel rn cn saName : String) (delNs : Bool) (nm : String)
    (hr : st.reactors = [])
    (hv : ¬(delNs = true ∧ rn = cn))
    (hn : resourceName rel rn = .ok nm)
    (hwf : wellFormedRBAC st) :
    ∃ st1,
      createServiceAccountAndRBAC st rel rn cn saName delNs = (st1, none) ∧
      createServiceAccountAndRBAC st1 rel rn cn saName delNs = (st1, none) ∧
      (∃ sa, st1.serviceAccounts.filter (fun o => decide (saKey o = (saName, cn))) = [sa] ∧
        sa.metadata.labels = resourceLabels rel rn) ∧
      (rn = cn →
        (∃ r, st1.roles.filter (fun o => decide (roleKey o = (nm, rn))) = [r] ∧
          r.metadata.labels = resourceLabels rel rn ∧
          r.rules = [⟨[""], ["secrets"], ["get", "list", "delete"]⟩,
            ⟨["batch"], ["cronjobs"], ["get", "delete"]⟩]) ∧
        (∃ b, st1.roleBindings.filter (fun o => decide (rbKey o = (nm, rn))) = [b] ∧
          b.metadata.labels = resourceLabels rel rn ∧
          b.subjects = [⟨"ServiceAccount", saName, rn⟩] ∧
          b.roleRef = ⟨"rbac.authorization.k8s.io", "Role", nm⟩)) ∧
      (¬ rn = cn →
        (∃ r, st1.roles.filter (fun o => decide (roleKey o = (nm, rn))) = [r] ∧
          r.metadata.labels = resourceLabels rel rn ∧
          r.rules = [⟨[""], ["secrets"], ["get", "list", "delete"]⟩]) ∧
        (∃ r, st1.roles.filter (fun o => decide (roleKey o = (nm, cn))) = [r] ∧
          r.metadata.labels = resourceLabels rel rn ∧
          r.rules = [⟨["batch"], ["cronjobs"], ["get", "delete"]⟩]) ∧
        (∃ b, st1.roleBindings.filter (fun o => decide (rbKey o = (nm, rn))) = [b] ∧
          b.metadata.labels = resourceLabels rel rn ∧
          b.subjects = [⟨"ServiceAccount", saName, cn⟩] ∧
          b.roleRef = ⟨"rbac.authorization.k8s.io", "Role", nm⟩) ∧
        (∃ b, st1.roleBindings.filter (fun o => decide (rbKey o = (nm, cn))) = [b] ∧
          b.metadata.labels = resourceLabels rel rn ∧
          b.subjects = [⟨"ServiceAccount", saName, cn⟩] ∧
          b.roleRef = ⟨"rbac.authorization.k8s.io", "Role", nm⟩) ∧
        (delNs = true →
          (∃ c, st1.clusterRoles.filter (fun o => decide (crKey o = (nm, ""))) = [c] ∧
            c.metadata.labels = resourceLabels rel rn ∧
            c.rules = [⟨[""], ["namespaces"], ["get", "delete"]⟩]) ∧
          (∃ cb, st1.clusterRoleBindings.filter (fun o => decide (crbKey o = (nm, ""))) = [cb] ∧
            cb.metadata.labels = resourceLabels rel rn ∧
            cb.subjects = [⟨"ServiceAccount", saName, cn⟩] ∧
            cb.roleRef = ⟨"rbac.authorization.k8s.io", "ClusterRole", nm⟩))) := by
  by_cases hrc : rn = cn
  · subst hrc
    have hdel : delNs = false := by
      cases delNs
      · rfl
      · exact absurd ⟨rfl, rfl⟩ hv
    subst hdel
    refine ⟨_, csar_run_sameNs st rel rn saName nm hr hn, ?_, ?_, ?_, ?_⟩
    · rw [csar_run_sameNs _ rel rn saName nm (by exact hr) hn]
      dsimp only
      rw [upsert_idem _ _ saWith_key saWith_self saWith_with,
        upsert_idem _ _ roleWith_key roleWith_self roleWith_with,
        upsert_idem _ _ rbWith_key rbWith_self rbWith_with]
    · obtain ⟨v, hfl, hval⟩ := upsert_filter_single_p saKey saWith
        (x := bundleSA saName rn (resourceLabels rel rn)) hwf.1 saWith_key
      exact ⟨v, by exact hfl, by exact saWith_fields (upsert_val_shape hval)⟩
    · intro _
      constructor
      · obtain ⟨v, hfl, hval⟩ := upsert_filter_single_p roleKey roleWith
          (x := sameNsRole nm rn (resourceLabels rel rn)) hwf.2.1 roleWith_key
        have hf := roleWith_fields (upsert_val_shape hval)
        exact ⟨v, by exact hfl, by exact hf.1, by exact hf.2⟩
      · obtain ⟨v, hfl, hval⟩ := upsert_filter_single_p rbKey rbWith
          (x := sameNsBinding nm saName rn (resourceLabels rel rn)) hwf.2.2.1 rbWith_key
        have hf := rbWith_fields (upsert_val_shape hval)
        exact ⟨v, by exact hfl, by exact hf.1, by exact hf.2.1, by exact hf.2.2⟩
    · intro h
      exact absurd rfl h
  · have hneR : ¬ roleKey (crossCronjobRole nm cn (resourceLabels rel rn)) =
        roleKey (crossReleaseRole nm rn (resourceLabels rel rn)) := by
      intro h
      exact hrc (congrArg Prod.snd h).symm
    have hneB : ¬ rbKey (crossCronjobBinding nm saName cn (resourceLabels rel rn)) =
        rbKey (crossReleaseBinding nm saName rn cn (resourceLabels rel rn)) := by
      intro h
      exact hrc (congrArg Prod.snd h).symm
    cases delNs with
    | false =>
      refine ⟨_, csar_run_cross st rel rn cn saName nm hr hn hrc, ?_, ?_, ?_, ?_⟩
      · rw [csar_run_cross _ rel rn cn saName nm (by exact hr) hn hrc]
        dsimp only
        rw [upsert_idem _ _ saWith_key saWith_self saWith_with,
          upsert_pair_idem _ _ _ hneR roleWith_key roleWith_self roleWith_with,
          upsert_pair_idem _ _ _ hneB rbWith_key rbWith_self rbWith_with]
      · obtain ⟨v, hfl, hval⟩ := upsert_filter_single_p saKey saWith
          (x := bundleSA saName cn (resourceLabels rel rn)) hwf.1 saWith_key
        exact ⟨v, by exact hfl, by exact saWith_fields (upsert_val_shape hval)⟩
      · intro h
        exact absurd h hrc
      · intro _
        refine ⟨?_, ?_, ?_, ?_, ?_⟩
        · obtain ⟨v, hfl, hval⟩ := upsert2_filter_first_p roleKey roleWith
            (x := crossReleaseRole nm rn (resourceLabels rel rn)) hneR hwf.2.1 roleWith_key
          have hf := roleWith_fields (upsert_val_shape hval)
          exact ⟨v, by exact hfl, by exact hf.1, by exact hf.2⟩
        · obtain ⟨v, hfl, hval⟩ := upsert2_filter_second_p roleKey roleWith
            (x := crossReleaseRole nm rn (resourceLabels rel rn))
            (y := crossCronjobRole nm cn (resourceLabels rel rn)) hwf.2.1 roleWith_key
          have hf := roleWith_fields (upsert_val_shape hval)
          exact ⟨v, by exact hfl, by exact hf.1, by exact hf.2⟩
        · obtain ⟨v, hfl, hval⟩ := upsert2_filter_first_p rbKey rbWith
            (x := crossReleaseBinding nm saName rn cn (resourceLabels rel rn)) hneB
            hwf.2.2.1 rbWith_key
          have hf := rbWith_fields (upsert_val_shape hval)
          exact ⟨v, by exact hfl, by exact hf.1, by exact hf.2.1, by exact hf.2.2⟩
        · obtain ⟨v, hfl, hval⟩ := upsert2_filter_second_p rbKey rbWith
            (x := crossReleaseBinding nm saName rn cn (resourceLabels rel rn))
            (y := crossCronjobBinding nm saName cn (resourceLabels rel rn)) hwf.2.2.1 rbWith_key
          have hf := rbWith_fields (upsert_val_shape hval)
          exact ⟨v, by exact hfl, by exact hf.1, by exact hf.2.1, by exact hf.2.2⟩
        · intro h
          cases h
    | true =>
      refine ⟨_, csar_run_crossDel st rel rn cn saName nm hr hn hrc, ?_, ?_, ?_, ?_⟩
      · rw [csar_run_crossDel _ rel rn cn saName nm (by exact hr) hn hrc]
        dsimp only
        rw [upsert_idem _ _ saWith_key saWith_self saWith_with,
          upsert_pair_idem _ _ _ hneR roleWith_key roleWith_self roleWith_with,
          upsert_pair_idem _ _ _ hneB rbWith_key rbWith_self rbWith_with,
          upsert_idem _ _ crWith_key crWith_self crWith_with,
          upsert_idem _ _ crbWith_key crbWith_self crbWith_with]
      · obtain ⟨v, hfl, hval⟩ := upsert_filter_single_p saKey saWith
          (x := bundleSA saName cn (resourceLabels rel rn)) hwf.1 saWith_key
        exact ⟨v, by exact hfl, by exact saWith_fields (upsert_val_shape hval)⟩
      · intro h
        exact absurd h hrc
      · intro _
        refine ⟨?_, ?_, ?_, ?_, ?_⟩
        · obtain ⟨v, hfl, hval⟩ := upsert2_filter_first_p roleKey roleWith
            (x := crossReleaseRole nm rn (resourceLabels rel rn)) hneR hwf.2.1 roleWith_key
          have hf := roleWith_fields (upsert_val_shape hval)
          exact ⟨v, by exact hfl, by exact hf.1, by exact hf.2⟩
        · obtain ⟨v, hfl, hval⟩ := upsert2_filter_second_p roleKey roleWith
            (x := crossReleaseRole nm rn (resourceLabels rel rn))
            (y := crossCronjobRole nm cn (resourceLabels rel rn)) hwf.2.1 roleWith_key
          have hf := roleWith_fields (upsert_val_shape hval)
          exact ⟨v, by exact hfl, by exact hf.1, by exact hf.2⟩
        · obtain ⟨v, hfl, hval⟩ := upsert2_filter_first_p rbKey rbWith
            (x := crossReleaseBinding nm saName rn cn (resourceLabels rel rn)) hneB
            hwf.2.2.1 rbWith_key
          have hf := rbWith_fields (upsert_val_shape hval)
          exact ⟨v, by exact hfl, by exact hf.1, by exact hf.2.1, by exact hf.2.2⟩
        · obtain ⟨v, hfl, hval⟩ := upsert2_filter_second_p rbKey rbWith
            (x := crossReleaseBinding nm saName rn cn (resourceLabels rel rn))
            (y := crossCronjobBinding nm saName cn (resourceLabels rel rn)) hwf.2.2.1 rbWith_key
          have hf := rbWith_fields (upsert_val_shape hval)
          exact ⟨v, by exact hfl, by exact hf.1, by exact hf.2.1, by exact hf.2.2⟩
        · intro _
          constructor
          · obtain ⟨v, hfl, hval⟩ := upsert_filter_single_p crKey crWith
              (x := nsClusterRole nm (resourceLabels rel rn)) hwf.2.2.2.1 crWith_key
            have hf := crWith_fields (upsert_val_shape hval)
            exact ⟨v, by exact hfl, by exact hf.1, by exact hf.2⟩
          · obtain ⟨v, hfl, hval⟩ := upsert_filter_single_p crbKey crbWith
              (x := nsClusterBinding nm saName cn (resourceLabels rel rn)) hwf.2.2.2.2 crbWith_key
            have hf := crbWith_fields (upsert_val_shape hval)
            exact ⟨v, by exact hfl, by exact hf.1, by exact hf.2.1, by exact hf.2.2⟩

end HelmTTL

namespace HelmTTL

/-- Witness for the C4 theorem: the cross-namespace-with-delete topology at
concrete arguments on the empty cluster. -/
theorem createServiceAccountAndRBAC_idempotent_witness :
    ∃ st1,
      createServiceAccountAndRBAC emptyCluster "myapp" "staging" "ops" "myapp-staging-ttl" true =
        (st1, none) ∧
      createServiceAccountAndRBAC st1 "myapp" "staging" "ops" "myapp-staging-ttl" true =
        (st1, none) := by
  obtain ⟨st1, h1, h2, _⟩ :=
    createServiceAccountAndRBAC_idempotent emptyCluster "myapp" "staging" "ops"
      "myapp-staging-ttl" true "myapp-staging-ttl" rfl (by decide) rfl
      ⟨List.Pairwise.nil, List.Pairwise.nil, List.Pairwise.nil, List.Pairwise.nil,
        List.Pairwise.nil⟩
  exact ⟨st1, h1, h2⟩

end HelmTTL

namespace HelmTTL

/-- C10 confirmed: every error returned by the release store's lookup at
the start of SetTTL — including backend failures that are not a
missing-record condition — makes SetTTL return a ReleaseNotFoundError
naming the release, with the cluster state untouched (no mutation); no
distinct dependency-error kind is produced at this boundary. -/
theorem setTTL_any_store_error_releaseNotFound (store : HelmStore) (st : ClusterState)
    (opts : SetTTLOptions) (now : DateTime) (e : String)
    (h : releasesLast store opts.releaseName = .error e) :
    setTTL store st opts now = (st, some (.releaseNotFound opts.releaseName)) := by
  unfold setTTL
  rw [h]

/-- Witness: a backend failure (the release record exists, the store fails
for another reason) still surfaces as ReleaseNotFoundError. -/
theorem setTTL_any_store_error_releaseNotFound_witness :
    setTTL ⟨["myapp"], some "backend down"⟩ emptyCluster
      ⟨"myapp", "default", "default", "24h", "default", true, "", "", false⟩
      ⟨2025, 6, 15, 10, 0, 0⟩ = (emptyCluster, some (.releaseNotFound "myapp")) :=
  setTTL_any_store_error_releaseNotFound ⟨["myapp"], some "backend down"⟩ emptyCluster
    ⟨"myapp", "default", "default", "24h", "default", true, "", "", false⟩
    ⟨2025, 6, 15, 10, 0, 0⟩ "backend down" rfl

/-- Cross-namespace CronJob used to exercise BuildJobFromCronJob, as the
repository's TestBuildJobFromCronJob builds it. -/
def demoCronJob : CronJob :=
  (buildCronJob ⟨"myapp", "staging", "ops", "0 12 1 1 *", "ttl-sa",
    "alpine/helm:3.14", "alpine/k8s:1.29", false⟩).toOption.getD default

/-- The Job BuildJobFromCronJob derives from it. -/
def demoJob : Job := buildJobFromCronJob demoCronJob "myapp-staging-ttl-run"

/-- C2 code bug: BuildJobFromCronJob copies the job template verbatim — the
self-cleanup container keeps its kubectl-delete-cronjob command instead of
being replaced with the echo no-op that the claim, the repository's
TestBuildJobFromCronJob (which expects the command
echo "cleanup handled by helm-ttl run") and the run flow require; the
label copy with triggered-by=run does hold. -/
theorem buildJobFromCronJob_keeps_self_cleanup_command :
    (buildCronJob ⟨"myapp", "staging", "ops", "0 12 1 1 *", "ttl-sa",
      "alpine/helm:3.14", "alpine/k8s:1.29", false⟩).isOk = true ∧
    demoJob.spec.template.spec.containers.map (fun c => (c.name, c.command)) =
      [("self-cleanup", ["kubectl", "delete", "cronjob", "myapp-staging-ttl", "--namespace", "ops"])] ∧
    demoJob.spec.template.spec.containers.map (fun c => c.command) ≠
      [["echo", "cleanup handled by helm-ttl run"]] ∧
    getLabel demoJob.metadata.labels LabelTriggeredBy = "run" ∧
    demoJob.metadata.name = "myapp-staging-ttl-run" ∧
    demoJob.metadata.nspace = "ops" := by
  refine ⟨by decide, by decide, by decide, by decide, by decide, by decide⟩

/-- Role binding carrying only the managed-by label (its release bookkeeping
labels are missing). -/
def unresolvedBinding : RoleBinding :=
  { metadata := ⟨"mystery", "default", [(LabelManagedBy, LabelManagedByValue)], [], ""⟩
    subjects := []
    roleRef := ⟨"", "", ""⟩ }

/-- Cluster holding only that binding. -/
def unresolvedState : ClusterState := { emptyCluster with roleBindings := [unresolvedBinding] }

/-- C9 counterexample: with the bookkeeping labels missing the derived
resource name is "--ttl" — 5 characters, well inside the 52-character
bound, contrary to the claim's parenthetical — so the lookup proceeds,
finds no such CronJob, classifies the object as orphaned, and the sweep
deletes it rather than leaving it untouched. -/
theorem isOrphaned_missing_labels_deleted :
    resourceName (getLabel unresolvedBinding.metadata.labels LabelRelease)
      (getLabel unresolvedBinding.metadata.labels LabelReleaseNamespace) = .ok "--ttl" ∧
    isOrphaned unresolvedState unresolvedBinding.metadata.labels = true ∧
    (cleanupOrphaned unresolvedState ["default"] false false).2.1.roleBindings = [] ∧
    (cleanupOrphaned unresolvedState ["default"] false false).1 =
      [⟨"RoleBinding", "mystery", "default"⟩] := by
  refine ⟨rfl, by decide, by decide, by decide⟩

/-- C9 amended: isOrphaned never reports orphaned when the derived resource
name exceeds the length bound or when the CronJob lookup fails with
anything other than not-found; an object is orphaned exactly when the
lookup definitively reports not-found.  (Missing labels do not fall under
the length guard: they derive the 5-character name "--ttl", see
isOrphaned_missing_labels_deleted.) -/
theorem isOrphaned_spec (st : ClusterState) (labels : Labels) :
    ((resourceName (getLabel labels LabelRelease) (getLabel labels LabelReleaseNamespace)).isOk
        = false → isOrphaned st labels = false) ∧
    (∀ nm, resourceName (getLabel labels LabelRelease) (getLabel labels LabelReleaseNamespace)
        = .ok nm →
      (isOrphaned st labels = true ↔
        getCronJob st
          (if getLabel labels LabelCronjobNamespace = ""
            then getLabel labels LabelReleaseNamespace
            else getLabel labels LabelCronjobNamespace) nm = .error .notFound)) := by
  constructor
  · intro h
    unfold isOrphaned
    dsimp only
    cases hrn : resourceName (getLabel labels LabelRelease) (getLabel labels LabelReleaseNamespace) with
    | error e => rfl
    | ok nm => rw [hrn] at h; cases h
  · intro nm hrn
    unfold isOrphaned
    dsimp only
    rw [hrn]
    dsimp only
    cases hg : getCronJob st
        (if getLabel labels LabelCronjobNamespace = ""
          then getLabel labels LabelReleaseNamespace
          else getLabel labels LabelCronjobNamespace) nm with
    | error e =>
      cases e with
      | notFound => simp
      | alreadyExists => simp
      | other m => simp
    | ok cj => simp

/-- Witness for isOrphaned_spec: the length guard at an over-long label set
and the not-found equivalence on the empty cluster. -/
theorem isOrphaned_spec_witness :
    isOrphaned emptyCluster
      [(LabelRelease, "a-very-long-release-name-that-will-exceed"),
       (LabelReleaseNamespace, "a-long-namespace")] = false ∧
    (isOrphaned emptyCluster [(LabelRelease, "myapp"), (LabelReleaseNamespace, "default")] = true ↔
      getCronJob emptyCluster "default" "myapp-default-ttl" = .error .notFound) := by
  constructor
  · exact (isOrphaned_spec emptyCluster
      [(LabelRelease, "a-very-long-release-name-that-will-exceed"),
       (LabelReleaseNamespace, "a-long-namespace")]).1 (by decide)
  · exact (isOrphaned_spec emptyCluster
      [(LabelRelease, "myapp"), (LabelReleaseNamespace, "default")]).2 "myapp-default-ttl" rfl

end HelmTTL

namespace HelmTTL

/-! ## C1 scenario: a stored TTL with its access bundle and no pod -/

/-- Stored CronJob of the C1 scenario, built by BuildCronJob exactly as the
repository's TestRunTTL does. -/
def c1CronJob : CronJob :=
  (buildCronJob ⟨"myapp", "default", "default", "30 14 15 3 *", "default",
    "alpine/helm:3.14", "alpine/k8s:1.29", false⟩).toOption.getD default

/-- Cluster state holding the stored CronJob and its provisioned access
bundle, and no pods at all, so the pod wait can only time out. -/
def c1State : ClusterState :=
  (createCronJob
    (createServiceAccountAndRBAC emptyCluster "myapp" "default" "default"
      "myapp-default-ttl" false).1
    c1CronJob).toOption.getD emptyCluster

/-- Log fetcher of the scenario (never consulted: no pod appears). -/
def c1Fetch : LogFetcher := fun _ _ _ => .ok "ok"

/-- Outcome of RunTTL on the scenario. -/
def c1Out : RunOutcome := runTTL c1State c1Fetch "myapp" "default" "default"

/-- C1 code bug: when no pod owned by the one-shot Job ever appears, RunTTL
returns the timeout error and its cleanup deletes the Job and the access
bundle — but the stored CronJob is still present afterwards, contradicting
the claim, the repository's own TestRunTTL (whose pod-timeout case asserts
the CronJob is gone) and the README (run "performs the same operations that
the CronJob would: ... delete the CronJob").  RunTTL's cleanup phase never
deletes the CronJob. -/
theorem runTTL_pod_timeout_leaves_cronjob :
    c1Out.error = some (.message
      "timed out waiting for pod (job myapp-default-ttl-run): context deadline exceeded") ∧
    c1Out.result = some ⟨"myapp", "default", false, false, []⟩ ∧
    (getCronJob c1Out.state "default" "myapp-default-ttl").isOk = true ∧
    c1Out.state.jobs = [] ∧
    c1Out.state.serviceAccounts = [] ∧
    c1Out.state.roles = [] ∧
    c1Out.state.roleBindings = [] := by
  refine ⟨by decide, by decide, by decide, by decide, by decide, by decide, by decide⟩

end HelmTTL

namespace HelmTTL

lemma createCronJob_noreact (st : ClusterState) (o : CronJob) (hr : st.reactors = []) :
    createCronJob st o =
      match kfind cjKey (cjKey o) st.cronjobs with
      | some _ => .error .alreadyExists
      | none => .ok { st with cronjobs := st.cronjobs ++ [o] } := by
  unfold createCronJob
  rw [react_none st hr]

lemma getCronJob_noreact (st : ClusterState) (ns name : String) (hr : st.reactors = []) :
    getCronJob st ns name =
      match kfind cjKey (name, ns) st.cronjobs with
      | some o => .ok o
      | none => .error .notFound := by
  unfold getCronJob
  rw [react_none st hr]

lemma updateCronJob_noreact (st : ClusterState) (o : CronJob) (hr : st.reactors = []) :
    updateCronJob st o =
      match kfind cjKey (cjKey o) st.cronjobs with
      | some _ => .ok { st with cronjobs := kreplace cjKey (cjKey o) o st.cronjobs }
      | none => .error .notFound := by
  unfold updateCronJob
  rw [react_none st hr]

/-- C6 confirmed: when the TTL CronJob already exists, calling SetTTL again
for the same ResourceName succeeds rather than erroring, and the update
replaces only the stored object's spec and labels while preserving its
other fields (name, namespace, annotations, uid — the object's identity). -/
theorem setTTL_reschedule (store : HelmStore) (st : ClusterState) (opts : SetTTLOptions)
    (now t : DateTime) (nm : String) (cjB existing : CronJob)
    (hr : st.reactors = [])
    (hrel : releasesLast store opts.releaseName = .ok ())
    (hval : ¬(opts.deleteNamespace = true ∧ opts.releaseNamespace = opts.cronjobNamespace))
    (hdur : parseTimeInput opts.duration now = .ok t)
    (hnm : resourceName opts.releaseName opts.releaseNamespace = .ok nm)
    (hcsa : opts.createServiceAccount = false)
    (hsa : ∃ sa, getServiceAccount st opts.cronjobNamespace opts.serviceAccount = .ok sa)
    (hbuild : buildCronJob
      ⟨opts.releaseName, opts.releaseNamespace, opts.cronjobNamespace,
        timeToCronSchedule t, opts.serviceAccount, opts.helmImage, opts.kubectlImage,
        opts.deleteNamespace⟩ = .ok cjB)
    (hget : getCronJob st opts.cronjobNamespace nm = .ok existing) :
    ∃ st2, setTTL store st opts now = (st2, none) ∧
      ∃ cj2, kfind cjKey (nm, opts.cronjobNamespace) st2.cronjobs = some cj2 ∧
        cj2.spec = cjB.spec ∧
        cj2.metadata.labels = cjB.metadata.labels ∧
        cj2.metadata.name = existing.metadata.name ∧
        cj2.metadata.nspace = existing.metadata.nspace ∧
        cj2.metadata.annotations = existing.metadata.annotations ∧
        cj2.metadata.uid = existing.metadata.uid := by
  have hkf : kfind cjKey (nm, opts.cronjobNamespace) st.cronjobs = some existing := by
    rw [getCronJob_noreact st opts.cronjobNamespace nm hr] at hget
    cases hx : kfind cjKey (nm, opts.cronjobNamespace) st.cronjobs with
    | some o => rw [hx] at hget; cases hget; rfl
    | none => rw [hx] at hget; cases hget
  have hke : cjKey existing = (nm, opts.cronjobNamespace) := kfind_some_key hkf
  obtain ⟨sa, hsa⟩ := hsa
  unfold setTTL
  rw [hrel]
  dsimp only
  rw [if_neg (by
    intro hb
    rw [Bool.and_eq_true, decide_eq_true_eq] at hb
    exact hval hb)]
  rw [hdur]
  dsimp only
  rw [hnm]
  dsimp only
  rw [hcsa]
  simp only [Bool.false_and, Bool.false_eq_true, if_false]
  rw [hsa]
  dsimp only
  rw [hbuild]
  dsimp only
  rw [getCronJob_noreact st opts.cronjobNamespace nm hr, hkf]
  dsimp only
  rw [updateCronJob_noreact st _ hr]
  rw [show cjKey { existing with
      spec := cjB.spec
      metadata := { existing.metadata with labels := cjB.metadata.labels } } =
    (nm, opts.cronjobNamespace) from hke ▸ rfl]
  rw [hkf]
  refine ⟨_, rfl, ?_⟩
  refine ⟨{ existing with
      spec := cjB.spec
      metadata := { existing.metadata with labels := cjB.metadata.labels } }, ?_,
    rfl, rfl, rfl, rfl, rfl, rfl⟩
  exact kfind_kreplace_self (hke ▸ rfl) (by rw [hkf]; rfl)

/-- Pre-existing stored CronJob of the C6 witness, carrying a distinct uid
and annotations that the update must preserve. -/
def c6Existing : CronJob :=
  { metadata := ⟨"myapp-default-ttl", "default", [(LabelDeleteNamespace, "false")],
      [("note", "keep")], "uid-1"⟩
    spec :=
      { schedule := "0 0 1 1 *"
        concurrencyPolicy := "Forbid"
        failedJobsHistoryLimit := 0
        successfulJobsHistoryLimit := 1
        jobTemplate := default } }

/-- Witness for setTTL_reschedule: rescheduling the stored TTL of myapp
with a 24h duration on a cluster that already holds the CronJob (with a
distinct uid and annotations) and the service account. -/
theorem setTTL_reschedule_witness :
    ∃ st2,
      setTTL ⟨["myapp"], none⟩
        { emptyCluster with
          cronjobs := [c6Existing]
          serviceAccounts := [{ metadata := ⟨"my-sa", "default", [], [], ""⟩ }] }
        ⟨"myapp", "default", "default", "24h", "my-sa", false, "", "", false⟩
        ⟨2025, 6, 15, 10, 0, 0⟩ = (st2, none) ∧
      ∃ cj2, kfind cjKey ("myapp-default-ttl", "default") st2.cronjobs = some cj2 ∧
        cj2.metadata.annotations = [("note", "keep")] ∧
        cj2.metadata.uid = "uid-1" := by
  obtain ⟨st2, hrun, cj2, hfind, _, _, _, _, hann, huid⟩ :=
    setTTL_reschedule ⟨["myapp"], none⟩
      { emptyCluster with
        cronjobs := [c6Existing]
        serviceAccounts := [{ metadata := ⟨"my-sa", "default", [], [], ""⟩ }] }
      ⟨"myapp", "default", "default", "24h", "my-sa", false, "", "", false⟩
      ⟨2025, 6, 15, 10, 0, 0⟩ ⟨2025, 6, 16, 10, 0, 0⟩ "myapp-default-ttl" _ _
      rfl rfl (by decide) rfl rfl rfl ⟨_, rfl⟩ rfl rfl
  exact ⟨st2, hrun, cj2, hfind, hann, huid⟩

end HelmTTL

namespace HelmTTL

lemma createJob_noreact (st : ClusterState) (o : Job) (hr : st.reactors = []) :
    createJob st o =
      match kfind jobKey (jobKey o) st.jobs with
      | some _ => .error .alreadyExists
      | none => .ok { st with jobs := st.jobs ++ [o] } := by
  unfold createJob
  rw [react_none st hr]

lemma deleteJob_ok_frame {st st2 : ClusterState} {ns n : String}
    (h : deleteJob st ns n = .ok st2) : st2.reactors = st.reactors := by
  unfold deleteJob at h
  cases hre : react st "delete" "jobs" with
  | none =>
    rw [hre] at h
    cases hf : kfind jobKey (n, ns) st.jobs with
    | none => rw [hf] at h; exact Except.noConfusion h
    | some o => rw [hf] at h; injection h with h2; rw [← h2]
  | some e => rw [hre] at h; exact Except.noConfusion h

lemma deleteServiceAccount_ok_frame {st st2 : ClusterState} {ns n : String}
    (h : deleteServiceAccount st ns n = .ok st2) : st2.reactors = st.reactors := by
  unfold deleteServiceAccount at h
  cases hre : react st "delete" "serviceaccounts" with
  | none =>
    rw [hre] at h
    cases hf : kfind saKey (n, ns) st.serviceAccounts with
    | none => rw [hf] at h; exact Except.noConfusion h
    | some o => rw [hf] at h; injection h with h2; rw [← h2]
  | some e => rw [hre] at h; exact Except.noConfusion h

lemma deleteRole_ok_frame {st st2 : ClusterState} {ns n : String}
    (h : deleteRole st ns n = .ok st2) : st2.reactors = st.reactors := by
  unfold deleteRole at h
  cases hre : react st "delete" "roles" with
  | none =>
    rw [hre] at h
    cases hf : kfind roleKey (n, ns) st.roles with
    | none => rw [hf] at h; exact Except.noConfusion h
    | some o => rw [hf] at h; injection h with h2; rw [← h2]
  | some e => rw [hre] at h; exact Except.noConfusion h

lemma deleteRoleBinding_ok_frame {st st2 : ClusterState} {ns n : String}
    (h : deleteRoleBinding st ns n = .ok st2) : st2.reactors = st.reactors := by
  unfold deleteRoleBinding at h
  cases hre : react st "delete" "rolebindings" with
  | none =>
    rw [hre] at h
    cases hf : kfind rbKey (n, ns) st.roleBindings with
    | none => rw [hf] at h; exact Except.noConfusion h
    | some o => rw [hf] at h; injection h with h2; rw [← h2]
  | some e => rw [hre] at h; exact Except.noConfusion h

lemma deleteClusterRole_ok_frame {st st2 : ClusterState} {n : String}
    (h : deleteClusterRole st n = .ok st2) : st2.reactors = st.reactors := by
  unfold deleteClusterRole at h
  cases hre : react st "delete" "clusterroles" with
  | none =>
    rw [hre] at h
    cases hf : kfind crKey (n, "") st.clusterRoles with
    | none => rw [hf] at h; exact Except.noConfusion h
    | some o => rw [hf] at h; injection h with h2; rw [← h2]
  | some e => rw [hre] at h; exact Except.noConfusion h

lemma deleteClusterRoleBinding_ok_frame {st st2 : ClusterState} {n : String}
    (h : deleteClusterRoleBinding st n = .ok st2) : st2.reactors = st.reactors := by
  unfold deleteClusterRoleBinding at h
  cases hre : react st "delete" "clusterrolebindings" with
  | none =>
    rw [hre] at h
    cases hf : kfind crbKey (n, "") st.clusterRoleBindings with
    | none => rw [hf] at h; exact Except.noConfusion h
    | some o => rw [hf] at h; injection h with h2; rw [← h2]
  | some e => rw [hre] at h; exact Except.noConfusion h

/-- The reactor table survives a namespaced role-and-binding teardown. -/
lemma deleteNamespacedRBAC_frame (st : ClusterState) (n ns : String) :
    ((deleteNamespacedRBAC st n ns).1).reactors = st.reactors := by
  unfold deleteNamespacedRBAC
  cases h1 : deleteRoleBinding st ns n with
  | ok st1 =>
    dsimp only
    cases h2 : deleteRole st1 ns n with
    | ok st2 =>
      dsimp only
      rw [deleteRole_ok_frame h2, deleteRoleBinding_ok_frame h1]
    | error e =>
      dsimp only
      split
      · exact deleteRoleBinding_ok_frame h1
      · exact deleteRoleBinding_ok_frame h1
  | error e =>
    dsimp only
    split
    · cases h2 : deleteRole st ns n with
      | ok st2 => dsimp only; exact deleteRole_ok_frame h2
      | error e2 => dsimp only; split <;> rfl
    · rfl

/-- The reactor table survives the final service-account deletion step of
CleanupRBAC. -/
lemma cleanupRBAC_saStep_frame (st4 : ClusterState) (cn nm : String) :
    ((match deleteServiceAccount st4 cn nm with
      | .ok st5 => (st5, (none : Option String))
      | .error e =>
        if isNotFound e then (st4, none)
        else (st4, some ("failed to delete service account: " ++ renderErr e))).1).reactors
      = st4.reactors := by
  cases h5 : deleteServiceAccount st4 cn nm with
  | ok st5 => exact deleteServiceAccount_ok_frame h5
  | error e => dsimp only; split <;> rfl

/-- The reactor table survives the cronjob-namespace pass and
service-account deletion of CleanupRBAC. -/
lemma cleanupRBAC_tail_frame (st3 : ClusterState) (rn cn nm : String) :
    (((match
        (if decide (¬ cn = rn) then deleteNamespacedRBAC st3 nm cn
         else (st3, (none : Option String))) with
      | (st4, some e) => (st4, some e)
      | (st4, none) =>
        match deleteServiceAccount st4 cn nm with
        | .ok st5 => (st5, none)
        | .error e =>
          if isNotFound e then (st4, none)
          else (st4, some ("failed to delete service account: " ++ renderErr e)))).1).reactors
      = st3.reactors := by
  rcases hstep : (if decide (¬ cn = rn) then deleteNamespacedRBAC st3 nm cn
      else (st3, (none : Option String))) with ⟨st4, o4⟩
  have hf : st4.reactors = st3.reactors := by
    by_cases hc : (decide (¬ cn = rn)) = true
    · rw [if_pos hc] at hstep
      have hd := deleteNamespacedRBAC_frame st3 nm cn
      rw [hstep] at hd
      exact hd
    · rw [if_neg hc] at hstep
      injection hstep with ha hb
      rw [← ha]
  cases o4 with
  | none =>
    dsimp only
    exact (cleanupRBAC_saStep_frame st4 cn nm).trans hf
  | some e => exact hf

/-- The reactor table survives the namespaced teardown passes and the
service-account deletion of CleanupRBAC, starting from the release
namespace pass. -/
lemma cleanupRBAC_nsStep_frame (st2 : ClusterState) (rn cn nm : String) :
    ((match deleteNamespacedRBAC st2 nm rn with
      | (st3, some e) => (st3, some e)
      | (st3, none) =>
        match
          (if decide (¬ cn = rn) then deleteNamespacedRBAC st3 nm cn
           else (st3, (none : Option String))) with
        | (st4, some e) => (st4, some e)
        | (st4, none) =>
          match deleteServiceAccount st4 cn nm with
          | .ok st5 => (st5, none)
          | .error e =>
            if isNotFound e then (st4, none)
            else (st4, some ("failed to delete service account: " ++ renderErr e))).1).reactors
      = st2.reactors := by
  rcases h3 : deleteNamespacedRBAC st2 nm rn with ⟨st3, o3⟩
  have hf3 := deleteNamespacedRBAC_frame st2 nm rn
  rw [h3] at hf3
  cases o3 with
  | some e => exact hf3
  | none =>
    dsimp only
    exact (cleanupRBAC_tail_frame st3 rn cn nm).trans hf3

/-- The cluster-role deletion step of CleanupRBAC as a state/error pair. -/
def crStepResult (st1 : ClusterState) (nm : String) : ClusterState × Option String :=
  match deleteClusterRole st1 nm with
  | .ok st2 => (st2, none)
  | .error e =>
    if isNotFound e then (st1, none)
    else (st1, some ("failed to delete cluster role: " ++ renderErr e))

/-- The cluster-role-binding deletion step of CleanupRBAC as a state/error
pair. -/
def crbStepResult (st : ClusterState) (nm : String) : ClusterState × Option String :=
  match deleteClusterRoleBinding st nm with
  | .ok st1 => (st1, none)
  | .error e =>
    if isNotFound e then (st, none)
    else (st, some ("failed to delete cluster role binding: " ++ renderErr e))

lemma crStepResult_frame (st1 : ClusterState) (nm : String) :
    ((crStepResult st1 nm).1).reactors = st1.reactors := by
  unfold crStepResult
  cases h2 : deleteClusterRole st1 nm with
  | ok s => exact deleteClusterRole_ok_frame h2
  | error e =>
    dsimp only
    split <;> rfl

lemma crbStepResult_frame (st : ClusterState) (nm : String) :
    ((crbStepResult st nm).1).reactors = st.reactors := by
  unfold crbStepResult
  cases h1 : deleteClusterRoleBinding st nm with
  | ok s => exact deleteClusterRoleBinding_ok_frame h1
  | error e =>
    dsimp only
    split <;> rfl

/-- The reactor table survives CleanupRBAC from the cluster-role deletion
step on. -/
lemma cleanupRBAC_crStep_frame (st1 : ClusterState) (rn cn nm : String) :
    ((match crStepResult st1 nm with
      | (st2, some e) => (st2, some e)
      | (st2, none) =>
        match deleteNamespacedRBAC st2 nm rn with
        | (st3, some e) => (st3, some e)
        | (st3, none) =>
          match
            (if decide (¬ cn = rn) then deleteNamespacedRBAC st3 nm cn
             else (st3, (none : Option String))) with
          | (st4, some e) => (st4, some e)
          | (st4, none) =>
            match deleteServiceAccount st4 cn nm with
            | .ok st5 => (st5, none)
            | .error e =>
              if isNotFound e then (st4, none)
              else (st4, some ("failed to delete service account: " ++ renderErr e))).1).reactors
      = st1.reactors := by
  rcases hstep : crStepResult st1 nm with ⟨st2, o2⟩
  have hf : st2.reactors = st1.reactors := by
    have hq := crStepResult_frame st1 nm
    rw [hstep] at hq
    exact hq
  cases o2 with
  | some e => exact hf
  | none =>
    dsimp only
    exact (cleanupRBAC_nsStep_frame st2 rn cn nm).trans hf

/-- The reactor table survives CleanupRBAC from the cluster-role-binding
deletion step on. -/
lemma cleanupRBAC_crbStep_frame (st : ClusterState) (rn cn nm : String) :
    ((match crbStepResult st nm with
      | (st1, some e) => (st1, some e)
      | (st1, none) =>
        match crStepResult st1 nm with
        | (st2, some e) => (st2, some e)
        | (st2, none) =>
          match deleteNamespacedRBAC st2 nm rn with
          | (st3, some e) => (st3, some e)
          | (st3, none) =>
            match
              (if decide (¬ cn = rn) then deleteNamespacedRBAC st3 nm cn
               else (st3, (none : Option String))) with
            | (st4, some e) => (st4, some e)
            | (st4, none) =>
              match deleteServiceAccount st4 cn nm with
              | .ok st5 => (st5, none)
              | .error e =>
                if isNotFound e then (st4, none)
                else (st4, some ("failed to delete service account: " ++ renderErr e))).1).reactors
      = st.reactors := by
  rcases hstep : crbStepResult st nm with ⟨st1, o1⟩
  have hf : st1.reactors = st.reactors := by
    have hq := crbStepResult_frame st nm
    rw [hstep] at hq
    exact hq
  cases o1 with
  | some e => exact hf
  | none =>
    dsimp only
    exact (cleanupRBAC_crStep_frame st1 rn cn nm).trans hf

/-- The reactor table survives every step of CleanupRBAC. -/
lemma cleanupRBAC_frame (st : ClusterState) (rel rn cn : String) :
    ((cleanupRBAC st rel rn cn).1).reactors = st.reactors := by
  unfold cleanupRBAC
  cases hn : resourceName rel rn with
  | error e => rfl
  | ok nm => exact cleanupRBAC_crbStep_frame st rn cn nm

/-- The reactor table survives the best-effort Job deletion of RunTTL's
cleanup. -/
lemma deleteJob_match_frame (st : ClusterState) (ns n : String) :
    (match deleteJob st ns n with
      | .ok s => s
      | .error _ => st).reactors = st.reactors := by
  cases h : deleteJob st ns n with
  | ok s => exact deleteJob_ok_frame h
  | error e => rfl

/-- Reacting to an API call only consults the reactor table. -/
lemma react_eq_of_reactors {s t : ClusterState} (h : s.reactors = t.reactors)
    (verb resource : String) : react s verb resource = react t verb resource := by
  unfold react
  rw [h]

lemma createJob_ok_frame {st st2 : ClusterState} {o : Job}
    (h : createJob st o = .ok st2) : st2.reactors = st.reactors := by
  unfold createJob at h
  cases hre : react st "create" "jobs" with
  | none =>
    rw [hre] at h
    cases hf : kfind jobKey (jobKey o) st.jobs with
    | none => rw [hf] at h; injection h with h2; rw [← h2]
    | some x => rw [hf] at h; exact Except.noConfusion h
  | some e => rw [hre] at h; exact Except.noConfusion h

/-- Without an injected failure on namespace deletion specifically, deleting
a namespace either succeeds or reports not-found. -/
lemma deleteNamespaceObj_tolerated (s : ClusterState)
    (h : react s "delete" "namespaces" = none) (n : String) :
    deleteNamespaceObj s n =
      .ok { s with namespaces := s.namespaces.filter (fun x => decide (¬ x = n)) } ∨
    deleteNamespaceObj s n = .error .notFound := by
  unfold deleteNamespaceObj
  rw [h]
  by_cases hc : s.namespaces.contains n
  · left
    rw [if_pos hc]
  · right
    rw [if_neg hc]

end HelmTTL

namespace HelmTTL

lemma jobCleanupState_frame (st1 : ClusterState) (ns n : String) :
    (jobCleanupState st1 ns n).reactors = st1.reactors := by
  unfold jobCleanupState
  cases h : deleteJob st1 ns n with
  | ok s => exact deleteJob_ok_frame h
  | error e => rfl

/-- Once the one-shot Job exists, the cleanup phase of RunTTL always
returns a result, whatever the run phase produced and whatever failures are
injected on its own steps: Job deletion and access-bundle teardown ignore
every error, and namespace deletion — the only step whose non-not-found
errors are fatal — succeeds or reports not-found when no failure is
injected on it. -/
lemma runTTLCleanup_result_some (st1 : ClusterState)
    (rel rn cn jobName : String) (deleteNs : Bool)
    (run : List ContainerResult × Bool × List String × Option AppError)
    (hns : deleteNs = true → react st1 "delete" "namespaces" = none) :
    ((runTTLCleanup st1 rel rn cn jobName deleteNs run).result).isSome = true := by
  rcases run with ⟨results, failed, logs, runErr⟩
  unfold runTTLCleanup
  dsimp only
  cases deleteNs with
  | false =>
    cases runErr with
    | some e => rfl
    | none => cases failed <;> rfl
  | true =>
    have hfr : ((cleanupRBAC (jobCleanupState st1 cn jobName) rel rn cn).1).reactors
        = st1.reactors := by
      rw [cleanupRBAC_frame, jobCleanupState_frame]
    have hre : react ((cleanupRBAC (jobCleanupState st1 cn jobName) rel rn cn).1)
        "delete" "namespaces" = none := by
      rw [react_eq_of_reactors hfr "delete" "namespaces"]
      exact hns rfl
    rcases deleteNamespaceObj_tolerated _ hre rn with hok | hnf
    · rw [hok]
      cases runErr with
      | some e => rfl
      | none => cases failed <;> rfl
    · rw [hnf]
      cases runErr with
      | some e => rfl
      | none => cases failed <;> rfl

/-- Stored CronJob of the C7 scenarios: release myapp in namespace staging,
CronJob hosted in namespace ops, delete-namespace enabled. -/
def c7CronJob : CronJob :=
  (buildCronJob ⟨"myapp", "staging", "ops", "30 14 15 3 *", "runner",
    "alpine/helm:3.14", "alpine/k8s:1.29", true⟩).toOption.getD default

/-- Cluster holding the stored CronJob, the release namespace, and an
injected failure on namespace deletion. -/
def c7State : ClusterState :=
  { (createCronJob emptyCluster c7CronJob).toOption.getD emptyCluster with
    namespaces := ["staging"]
    reactors := [⟨"delete", "namespaces", "boom"⟩] }

/-- Same cluster, but with failures injected on the cleanup phase's own
best-effort steps — the one-shot Job deletion and the role-binding
teardown — and none on namespace deletion. -/
def c7wState : ClusterState :=
  { (createCronJob emptyCluster c7CronJob).toOption.getD emptyCluster with
    namespaces := ["staging"]
    reactors := [⟨"delete", "jobs", "boom"⟩, ⟨"delete", "rolebindings", "boom"⟩] }

/-- C7 counterexample: when the delete-namespace label is set and namespace
deletion fails with an error other than not-found, RunTTL does not ignore
the cleanup error: it fails the overall operation and returns a nil
result, dropping the run results gathered so far. -/
theorem runTTL_ns_delete_error_nil_result :
    (runTTL c7State (fun _ _ _ => .ok "") "myapp" "staging" "ops").result = none ∧
    (runTTL c7State (fun _ _ _ => .ok "") "myapp" "staging" "ops").error =
      some (.message "failed to delete namespace: boom") := by
  refine ⟨by decide, by decide⟩

/-- C7 (amended): during RunTTL's cleanup phase the one-shot Job deletion
and the access-bundle teardown ignore their errors — any failure may be
injected on them — and namespace deletion tolerates not-found, so once the
Job was created every return — including the polling-timeout and
non-zero-exit partial failures — carries the best-effort RunResult, as long
as no failure is injected on namespace deletion itself: that sole step's
non-not-found errors fail the overall operation with a nil result, unlike
the original claim. -/
theorem runTTL_cleanup_best_effort (st : ClusterState) (fetcher : LogFetcher)
    (rel rn cn nm : String) (cj : CronJob)
    (hnm : resourceName rel rn = .ok nm)
    (hget : getCronJob st cn nm = .ok cj)
    (hcreate : ∃ st1, createJob st (buildJobFromCronJob cj (nm ++ "-run")) = .ok st1)
    (hns : getLabel cj.metadata.labels LabelDeleteNamespace = "true" →
      react st "delete" "namespaces" = none) :
    ((runTTL st fetcher rel rn cn).result).isSome = true := by
  obtain ⟨st1, hst1⟩ := hcreate
  unfold runTTL
  rw [hnm]
  dsimp only
  rw [hget]
  dsimp only
  rw [hst1]
  dsimp only
  refine runTTLCleanup_result_some st1 rel rn cn (nm ++ "-run") _ _ ?_
  intro hd
  exact (react_eq_of_reactors (createJob_ok_frame hst1) "delete" "namespaces").trans
    (hns (of_decide_eq_true hd))

/-- Closed instance of the amended C7 theorem on the cluster with failures
injected on the Job deletion and the role-binding teardown. -/
theorem runTTL_cleanup_best_effort_witness :
    ((runTTL c7wState (fun _ _ _ => .ok "") "myapp" "staging" "ops").result).isSome = true :=
  runTTL_cleanup_best_effort c7wState (fun _ _ _ => .ok "") "myapp" "staging" "ops"
    "myapp-staging-ttl" c7CronJob rfl rfl ⟨_, rfl⟩ (fun _ => rfl)

end HelmTTL

namespace HelmTTL

section KeyedLists

variable {α : Type} {key : α → String × String}

lemma kremove_of_none {k : String × String} {l : List α} (h : kfind key k l = none) :
    kremove key k l = l := by
  unfold kremove
  refine List.filter_eq_self.mpr ?_
  intro a ha
  exact decide_eq_true (kfind_eq_none.mp h a ha)

lemma kdistinct_eq {l : List α} (hd : kdistinct key l) {a b : α}
    (ha : a ∈ l) (hb : b ∈ l) (hk : key a = key b) : a = b := by
  induction l with
  | nil => cases ha
  | cons x xs ih =>
    rcases List.pairwise_cons.mp hd with ⟨hx, hxs⟩
    rcases List.mem_cons.mp ha with ha1 | ha2
    · rcases List.mem_cons.mp hb with hb1 | hb2
      · rw [ha1, hb1]
      · subst ha1
        exact absurd hk (hx b hb2)
    · rcases List.mem_cons.mp hb with hb1 | hb2
      · subst hb1
        exact absurd hk.symm (hx a ha2)
      · exact ih hxs ha2 hb2

lemma kdistinct_filter {l : List α} (p : α → Bool) (hd : kdistinct key l) :
    kdistinct key (l.filter p) :=
  List.Pairwise.sublist (List.filter_sublist l) hd

lemma foldl_kremove_eq_filter (ks : List (String × String)) (l : List α) :
    ks.foldl (fun acc k => kremove key k acc) l
      = l.filter (fun o => !(ks.any (fun k => decide (key o = k)))) := by
  induction ks generalizing l with
  | nil => simp
  | cons k0 ks ih =>
    rw [List.foldl_cons, ih]
    unfold kremove
    rw [List.filter_filter]
    refine List.filter_congr ?_
    intro o ho
    cases h0 : decide (key o = k0) <;> simp [h0]

end KeyedLists

lemma isOrphaned_eq_of_fields {s t : ClusterState} (hc : s.cronjobs = t.cronjobs)
    (hre : s.reactors = t.reactors) : isOrphaned s = isOrphaned t := by
  funext labels
  unfold isOrphaned getCronJob react
  rw [hc, hre]

lemma listRoleBindingsManaged_noreact (st : ClusterState) (ns : String)
    (hr : st.reactors = []) :
    listRoleBindingsManaged st ns = .ok (st.roleBindings.filter (fun o =>
      decide (o.metadata.nspace = ns) && managedLabel o.metadata)) := by
  unfold listRoleBindingsManaged
  rw [react_none st hr]

lemma listRolesManaged_noreact (st : ClusterState) (ns : String)
    (hr : st.reactors = []) :
    listRolesManaged st ns = .ok (st.roles.filter (fun o =>
      decide (o.metadata.nspace = ns) && managedLabel o.metadata)) := by
  unfold listRolesManaged
  rw [react_none st hr]

lemma listServiceAccountsManaged_noreact (st : ClusterState) (ns : String)
    (hr : st.reactors = []) :
    listServiceAccountsManaged st ns = .ok (st.serviceAccounts.filter (fun o =>
      decide (o.metadata.nspace = ns) && managedLabel o.metadata)) := by
  unfold listServiceAccountsManaged
  rw [react_none st hr]

lemma listClusterRolesManaged_noreact (st : ClusterState) (hr : st.reactors = []) :
    listClusterRolesManaged st
      = .ok (st.clusterRoles.filter (fun o => managedLabel o.metadata)) := by
  unfold listClusterRolesManaged
  rw [react_none st hr]

lemma listClusterRoleBindingsManaged_noreact (st : ClusterState) (hr : st.reactors = []) :
    listClusterRoleBindingsManaged st
      = .ok (st.clusterRoleBindings.filter (fun o => managedLabel o.metadata)) := by
  unfold listClusterRoleBindingsManaged
  rw [react_none st hr]

lemma deleteClusterRoleBinding_noreact (st : ClusterState) (n : String)
    (hr : st.reactors = []) :
    deleteClusterRoleBinding st n =
      match kfind crbKey (n, "") st.clusterRoleBindings with
      | some _ => .ok { st with clusterRoleBindings := kremove crbKey (n, "") st.clusterRoleBindings }
      | none => .error .notFound := by
  unfold deleteClusterRoleBinding
  rw [react_none st hr]

lemma deleteClusterRole_noreact (st : ClusterState) (n : String)
    (hr : st.reactors = []) :
    deleteClusterRole st n =
      match kfind crKey (n, "") st.clusterRoles with
      | some _ => .ok { st with clusterRoles := kremove crKey (n, "") st.clusterRoles }
      | none => .error .notFound := by
  unfold deleteClusterRole
  rw [react_none st hr]

lemma deleteRoleBinding_noreact (st : ClusterState) (ns n : String)
    (hr : st.reactors = []) :
    deleteRoleBinding st ns n =
      match kfind rbKey (n, ns) st.roleBindings with
      | some _ => .ok { st with roleBindings := kremove rbKey (n, ns) st.roleBindings }
      | none => .error .notFound := by
  unfold deleteRoleBinding
  rw [react_none st hr]

lemma deleteRole_noreact (st : ClusterState) (ns n : String)
    (hr : st.reactors = []) :
    deleteRole st ns n =
      match kfind roleKey (n, ns) st.roles with
      | some _ => .ok { st with roles := kremove roleKey (n, ns) st.roles }
      | none => .error .notFound := by
  unfold deleteRole
  rw [react_none st hr]

lemma deleteServiceAccount_noreact (st : ClusterState) (ns n : String)
    (hr : st.reactors = []) :
    deleteServiceAccount st ns n =
      match kfind saKey (n, ns) st.serviceAccounts with
      | some _ => .ok { st with serviceAccounts := kremove saKey (n, ns) st.serviceAccounts }
      | none => .error .notFound := by
  unfold deleteServiceAccount
  rw [react_none st hr]

end HelmTTL

namespace HelmTTL

/-- Dry-run sweep over cluster role bindings: records the orphans and
leaves the state untouched. -/
lemma sweepClusterRoleBindings_dry (items : List ClusterRoleBinding) (st : ClusterState) :
    sweepClusterRoleBindings true items st =
      ((items.filter (fun i => isOrphaned st i.metadata.labels)).map
        (fun i => (⟨"ClusterRoleBinding", i.metadata.name, ""⟩ : OrphanedResource)),
       st, none) := by
  induction items with
  | nil => rfl
  | cons crb rest ih =>
    cases ho : isOrphaned st crb.metadata.labels with
    | false => simp [sweepClusterRoleBindings, ho, ih]
    | true => simp [sweepClusterRoleBindings, ho, ih]

/-- Real sweep over cluster role bindings: records the orphans and removes
their keys one by one, tolerating not-found. -/
lemma sweepClusterRoleBindings_run (items : List ClusterRoleBinding) (st : ClusterState)
    (hr : st.reactors = []) :
    sweepClusterRoleBindings false items st =
      ((items.filter (fun i => isOrphaned st i.metadata.labels)).map
        (fun i => (⟨"ClusterRoleBinding", i.metadata.name, ""⟩ : OrphanedResource)),
       { st with clusterRoleBindings :=
          (((items.filter (fun i => isOrphaned st i.metadata.labels)).map
              (fun i => (i.metadata.name, ""))).foldl
            (fun l k => kremove crbKey k l) st.clusterRoleBindings) },
       none) := by
  induction items generalizing st with
  | nil => rfl
  | cons crb rest ih =>
    cases ho : isOrphaned st crb.metadata.labels with
    | false => simp [sweepClusterRoleBindings, ho, ih st hr]
    | true =>
      rw [show sweepClusterRoleBindings false (crb :: rest) st =
        (if isOrphaned st crb.metadata.labels then
          match deleteClusterRoleBinding st crb.metadata.name with
          | .ok st1 =>
            let r := sweepClusterRoleBindings false rest st1
            ((⟨"ClusterRoleBinding", crb.metadata.name, ""⟩ : OrphanedResource) :: r.1, r.2)
          | .error e =>
            if isNotFound e then
              let r := sweepClusterRoleBindings false rest st
              ((⟨"ClusterRoleBinding", crb.metadata.name, ""⟩ : OrphanedResource) :: r.1, r.2)
            else ([⟨"ClusterRoleBinding", crb.metadata.name, ""⟩], st,
              some ("failed to delete cluster role binding " ++ crb.metadata.name ++ ": " ++ renderErr e))
        else sweepClusterRoleBindings false rest st) from rfl]
      rw [if_pos ho, deleteClusterRoleBinding_noreact st _ hr]
      cases hf : kfind crbKey (crb.metadata.name, "") st.clusterRoleBindings with
      | some o =>
        dsimp only
        rw [ih { st with clusterRoleBindings := kremove crbKey (crb.metadata.name, "") st.clusterRoleBindings } hr]
        have hio : isOrphaned
            { st with clusterRoleBindings := kremove crbKey (crb.metadata.name, "") st.clusterRoleBindings }
            = isOrphaned st := isOrphaned_eq_of_fields rfl rfl
        rw [hio]
        simp [List.filter_cons, ho]
      | none =>
        dsimp only
        rw [ih st hr]
        have hrm : kremove crbKey (crb.metadata.name, "") st.clusterRoleBindings
            = st.clusterRoleBindings := kremove_of_none hf
        simp [List.filter_cons, ho, hrm, isNotFound]

end HelmTTL

namespace HelmTTL

/-- Dry-run sweep over clusterRoles: records the orphans and leaves the
state untouched. -/
lemma sweepClusterRoles_dry (items : List ClusterRole) (st : ClusterState) :
    sweepClusterRoles true items st =
      ((items.filter (fun i => isOrphaned st i.metadata.labels)).map
        (fun i => (⟨"ClusterRole", i.metadata.name, ""⟩ : OrphanedResource)),
       st, none) := by
  induction items with
  | nil => rfl
  | cons cr0 rest ih =>
    cases ho : isOrphaned st cr0.metadata.labels with
    | false => simp [sweepClusterRoles, ho, ih]
    | true => simp [sweepClusterRoles, ho, ih]

/-- Real sweep over clusterRoles: records the orphans and removes their
keys one by one, tolerating not-found. -/
lemma sweepClusterRoles_run (items : List ClusterRole) (st : ClusterState)
    (hr : st.reactors = []) :
    sweepClusterRoles false items st =
      ((items.filter (fun i => isOrphaned st i.metadata.labels)).map
        (fun i => (⟨"ClusterRole", i.metadata.name, ""⟩ : OrphanedResource)),
       { st with clusterRoles :=
          (((items.filter (fun i => isOrphaned st i.metadata.labels)).map
              (fun i => (i.metadata.name, ""))).foldl
            (fun l k => kremove crKey k l) st.clusterRoles) },
       none) := by
  induction items generalizing st with
  | nil => rfl
  | cons cr0 rest ih =>
    cases ho : isOrphaned st cr0.metadata.labels with
    | false => simp [sweepClusterRoles, ho, ih st hr]
    | true =>
      rw [show sweepClusterRoles false (cr0 :: rest) st =
        (if isOrphaned st cr0.metadata.labels then
          match deleteClusterRole st cr0.metadata.name with
          | .ok st1 =>
            let r := sweepClusterRoles false rest st1
            ((⟨"ClusterRole", cr0.metadata.name, ""⟩ : OrphanedResource) :: r.1, r.2)
          | .error e =>
            if isNotFound e then
              let r := sweepClusterRoles false rest st
              ((⟨"ClusterRole", cr0.metadata.name, ""⟩ : OrphanedResource) :: r.1, r.2)
            else ([⟨"ClusterRole", cr0.metadata.name, ""⟩], st,
              some ("failed to delete cluster role " ++ cr0.metadata.name ++ ": " ++ renderErr e))
        else sweepClusterRoles false rest st) from rfl]
      rw [if_pos ho, deleteClusterRole_noreact st cr0.metadata.name hr]
      cases hf : kfind crKey (cr0.metadata.name, "") st.clusterRoles with
      | some o =>
        dsimp only
        rw [ih { st with clusterRoles := kremove crKey (cr0.metadata.name, "") st.clusterRoles } hr]
        have hio : isOrphaned
            { st with clusterRoles := kremove crKey (cr0.metadata.name, "") st.clusterRoles }
            = isOrphaned st := isOrphaned_eq_of_fields rfl rfl
        rw [hio]
        simp [List.filter_cons, ho]
      | none =>
        dsimp only
        rw [ih st hr]
        have hrm : kremove crKey (cr0.metadata.name, "") st.clusterRoles
            = st.clusterRoles := kremove_of_none hf
        simp [List.filter_cons, ho, hrm, isNotFound]

/-- Dry-run sweep over roleBindings: records the orphans and leaves the
state untouched. -/
lemma sweepRoleBindings_dry (ns : String) (items : List RoleBinding) (st : ClusterState) :
    sweepRoleBindings true ns items st =
      ((items.filter (fun i => isOrphaned st i.metadata.labels)).map
        (fun i => (⟨"RoleBinding", i.metadata.name, ns⟩ : OrphanedResource)),
       st, none) := by
  induction items with
  | nil => rfl
  | cons rb0 rest ih =>
    cases ho : isOrphaned st rb0.metadata.labels with
    | false => simp [sweepRoleBindings, ho, ih]
    | true => simp [sweepRoleBindings, ho, ih]

/-- Real sweep over roleBindings: records the orphans and removes their
keys one by one, tolerating not-found. -/
lemma sweepRoleBindings_run (ns : String) (items : List RoleBinding) (st : ClusterState)
    (hr : st.reactors = []) :
    sweepRoleBindings false ns items st =
      ((items.filter (fun i => isOrphaned st i.metadata.labels)).map
        (fun i => (⟨"RoleBinding", i.metadata.name, ns⟩ : OrphanedResource)),
       { st with roleBindings :=
          (((items.filter (fun i => isOrphaned st i.metadata.labels)).map
              (fun i => (i.metadata.name, ns))).foldl
            (fun l k => kremove rbKey k l) st.roleBindings) },
       none) := by
  induction items generalizing st with
  | nil => rfl
  | cons rb0 rest ih =>
    cases ho : isOrphaned st rb0.metadata.labels with
    | false => simp [sweepRoleBindings, ho, ih st hr]
    | true =>
      rw [show sweepRoleBindings false ns (rb0 :: rest) st =
        (if isOrphaned st rb0.metadata.labels then
          match deleteRoleBinding st ns rb0.metadata.name with
          | .ok st1 =>
            let r := sweepRoleBindings false ns rest st1
            ((⟨"RoleBinding", rb0.metadata.name, ns⟩ : OrphanedResource) :: r.1, r.2)
          | .error e =>
            if isNotFound e then
              let r := sweepRoleBindings false ns rest st
              ((⟨"RoleBinding", rb0.metadata.name, ns⟩ : OrphanedResource) :: r.1, r.2)
            else ([⟨"RoleBinding", rb0.metadata.name, ns⟩], st,
              some ("failed to delete role binding " ++ rb0.metadata.name ++ " in " ++ ns ++ ": " ++ renderErr e))
        else sweepRoleBindings false ns rest st) from rfl]
      rw [if_pos ho, deleteRoleBinding_noreact st ns rb0.metadata.name hr]
      cases hf : kfind rbKey (rb0.metadata.name, ns) st.roleBindings with
      | some o =>
        dsimp only
        rw [ih { st with roleBindings := kremove rbKey (rb0.metadata.name, ns) st.roleBindings } hr]
        have hio : isOrphaned
            { st with roleBindings := kremove rbKey (rb0.metadata.name, ns) st.roleBindings }
            = isOrphaned st := isOrphaned_eq_of_fields rfl rfl
        rw [hio]
        simp [List.filter_cons, ho]
      | none =>
        dsimp only
        rw [ih st hr]
        have hrm : kremove rbKey (rb0.metadata.name, ns) st.roleBindings
            = st.roleBindings := kremove_of_none hf
        simp [List.filter_cons, ho, hrm, isNotFound]

/-- Dry-run sweep over roles: records the orphans and leaves the
state untouched. -/
lemma sweepRoles_dry (ns : String) (items : List Role) (st : ClusterState) :
    sweepRoles true ns items st =
      ((items.filter (fun i => isOrphaned st i.metadata.labels)).map
        (fun i => (⟨"Role", i.metadata.name, ns⟩ : OrphanedResource)),
       st, none) := by
  induction items with
  | nil => rfl
  | cons role0 rest ih =>
    cases ho : isOrphaned st role0.metadata.labels with
    | false => simp [sweepRoles, ho, ih]
    | true => simp [sweepRoles, ho, ih]

/-- Real sweep over roles: records the orphans and removes their
keys one by one, tolerating not-found. -/
lemma sweepRoles_run (ns : String) (items : List Role) (st : ClusterState)
    (hr : st.reactors = []) :
    sweepRoles false ns items st =
      ((items.filter (fun i => isOrphaned st i.metadata.labels)).map
        (fun i => (⟨"Role", i.metadata.name, ns⟩ : OrphanedResource)),
       { st with roles :=
          (((items.filter (fun i => isOrphaned st i.metadata.labels)).map
              (fun i => (i.metadata.name, ns))).foldl
            (fun l k => kremove roleKey k l) st.roles) },
       none) := by
  induction items generalizing st with
  | nil => rfl
  | cons role0 rest ih =>
    cases ho : isOrphaned st role0.metadata.labels with
    | false => simp [sweepRoles, ho, ih st hr]
    | true =>
      rw [show sweepRoles false ns (role0 :: rest) st =
        (if isOrphaned st role0.metadata.labels then
          match deleteRole st ns role0.metadata.name with
          | .ok st1 =>
            let r := sweepRoles false ns rest st1
            ((⟨"Role", role0.metadata.name, ns⟩ : OrphanedResource) :: r.1, r.2)
          | .error e =>
            if isNotFound e then
              let r := sweepRoles false ns rest st
              ((⟨"Role", role0.metadata.name, ns⟩ : OrphanedResource) :: r.1, r.2)
            else ([⟨"Role", role0.metadata.name, ns⟩], st,
              some ("failed to delete role " ++ role0.metadata.name ++ " in " ++ ns ++ ": " ++ renderErr e))
        else sweepRoles false ns rest st) from rfl]
      rw [if_pos ho, deleteRole_noreact st ns role0.metadata.name hr]
      cases hf : kfind roleKey (role0.metadata.name, ns) st.roles with
      | some o =>
        dsimp only
        rw [ih { st with roles := kremove roleKey (role0.metadata.name, ns) st.roles } hr]
        have hio : isOrphaned
            { st with roles := kremove roleKey (role0.metadata.name, ns) st.roles }
            = isOrphaned st := isOrphaned_eq_of_fields rfl rfl
        rw [hio]
        simp [List.filter_cons, ho]
      | none =>
        dsimp only
        rw [ih st hr]
        have hrm : kremove roleKey (role0.metadata.name, ns) st.roles
            = st.roles := kremove_of_none hf
        simp [List.filter_cons, ho, hrm, isNotFound]

/-- Dry-run sweep over serviceAccounts: records the orphans and leaves the
state untouched. -/
lemma sweepServiceAccounts_dry (ns : String) (items : List ServiceAccount) (st : ClusterState) :
    sweepServiceAccounts true ns items st =
      ((items.filter (fun i => isOrphaned st i.metadata.labels)).map
        (fun i => (⟨"ServiceAccount", i.metadata.name, ns⟩ : OrphanedResource)),
       st, none) := by
  induction items with
  | nil => rfl
  | cons sa0 rest ih =>
    cases ho : isOrphaned st sa0.metadata.labels with
    | false => simp [sweepServiceAccounts, ho, ih]
    | true => simp [sweepServiceAccounts, ho, ih]

/-- Real sweep over serviceAccounts: records the orphans and removes their
keys one by one, tolerating not-found. -/
lemma sweepServiceAccounts_run (ns : String) (items : List ServiceAccount) (st : ClusterState)
    (hr : st.reactors = []) :
    sweepServiceAccounts false ns items st =
      ((items.filter (fun i => isOrphaned st i.metadata.labels)).map
        (fun i => (⟨"ServiceAccount", i.metadata.name, ns⟩ : OrphanedResource)),
       { st with serviceAccounts :=
          (((items.filter (fun i => isOrphaned st i.metadata.labels)).map
              (fun i => (i.metadata.name, ns))).foldl
            (fun l k => kremove saKey k l) st.serviceAccounts) },
       none) := by
  induction items generalizing st with
  | nil => rfl
  | cons sa0 rest ih =>
    cases ho : isOrphaned st sa0.metadata.labels with
    | false => simp [sweepServiceAccounts, ho, ih st hr]
    | true =>
      rw [show sweepServiceAccounts false ns (sa0 :: rest) st =
        (if isOrphaned st sa0.metadata.labels then
          match deleteServiceAccount st ns sa0.metadata.name with
          | .ok st1 =>
            let r := sweepServiceAccounts false ns rest st1
            ((⟨"ServiceAccount", sa0.metadata.name, ns⟩ : OrphanedResource) :: r.1, r.2)
          | .error e =>
            if isNotFound e then
              let r := sweepServiceAccounts false ns rest st
              ((⟨"ServiceAccount", sa0.metadata.name, ns⟩ : OrphanedResource) :: r.1, r.2)
            else ([⟨"ServiceAccount", sa0.metadata.name, ns⟩], st,
              some ("failed to delete service account " ++ sa0.metadata.name ++ " in " ++ ns ++ ": " ++ renderErr e))
        else sweepServiceAccounts false ns rest st) from rfl]
      rw [if_pos ho, deleteServiceAccount_noreact st ns sa0.metadata.name hr]
      cases hf : kfind saKey (sa0.metadata.name, ns) st.serviceAccounts with
      | some o =>
        dsimp only
        rw [ih { st with serviceAccounts := kremove saKey (sa0.metadata.name, ns) st.serviceAccounts } hr]
        have hio : isOrphaned
            { st with serviceAccounts := kremove saKey (sa0.metadata.name, ns) st.serviceAccounts }
            = isOrphaned st := isOrphaned_eq_of_fields rfl rfl
        rw [hio]
        simp [List.filter_cons, ho]
      | none =>
        dsimp only
        rw [ih st hr]
        have hrm : kremove saKey (sa0.metadata.name, ns) st.serviceAccounts
            = st.serviceAccounts := kremove_of_none hf
        simp [List.filter_cons, ho, hrm, isNotFound]

end HelmTTL

namespace HelmTTL

/-- An object the real sweep of one namespace deletes: in the namespace,
carrying the managed-by label, and orphaned. -/
def scopedOrphan (st : ClusterState) (ns : String) (m : ObjectMeta) : Bool :=
  decide (m.nspace = ns) && (managedLabel m && isOrphaned st m.labels)

/-- A cluster-scoped object the real sweep deletes: carrying the managed-by
label and orphaned. -/
def clusterOrphan (st : ClusterState) (m : ObjectMeta) : Bool :=
  managedLabel m && isOrphaned st m.labels

lemma crbSweepState_filter (st : ClusterState) (l : List ClusterRoleBinding)
    (hdis : kdistinct crbKey l)
    (hns : ∀ o ∈ l, o.metadata.nspace = "") :
    ((((l.filter (fun o => managedLabel o.metadata)).filter
        (fun i => isOrphaned st i.metadata.labels)).map
       (fun i => (i.metadata.name, ""))).foldl (fun acc k => kremove crbKey k acc) l)
      = l.filter (fun o => !(clusterOrphan st o.metadata)) := by
  rw [foldl_kremove_eq_filter]
  refine List.filter_congr ?_
  intro o ho
  congr 1
  cases hsc : clusterOrphan st o.metadata with
  | true =>
    rcases Bool.and_eq_true_iff.mp hsc with ⟨hml, hio⟩
    refine List.any_eq_true.mpr ⟨(o.metadata.name, ""), List.mem_map.mpr ⟨o,
      List.mem_filter.mpr ⟨List.mem_filter.mpr ⟨ho, hml⟩, hio⟩, rfl⟩, ?_⟩
    exact decide_eq_true (by
      rw [show crbKey o = (o.metadata.name, o.metadata.nspace) from rfl, hns o ho])
  | false =>
    refine List.any_eq_false.mpr ?_
    intro k0 hk0
    intro hko
    rcases List.mem_map.mp hk0 with ⟨i, himem, hik⟩
    rcases List.mem_filter.mp himem with ⟨hifil, hio⟩
    rcases List.mem_filter.mp hifil with ⟨hil, hml⟩
    have hko2 : crbKey o = (i.metadata.name, "") := (of_decide_eq_true hko).trans hik.symm
    have hki : crbKey i = (i.metadata.name, "") := by
      rw [show crbKey i = (i.metadata.name, i.metadata.nspace) from rfl, hns i hil]
    have hoi : o = i := kdistinct_eq hdis ho hil (hko2.trans hki.symm)
    have hsc2 : clusterOrphan st o.metadata = true := by
      rw [hoi]
      show (managedLabel i.metadata && isOrphaned st i.metadata.labels) = true
      rw [hml, hio]
      rfl
    rw [hsc2] at hsc
    exact Bool.noConfusion hsc

lemma crSweepState_filter (st : ClusterState) (l : List ClusterRole)
    (hdis : kdistinct crKey l)
    (hns : ∀ o ∈ l, o.metadata.nspace = "") :
    ((((l.filter (fun o => managedLabel o.metadata)).filter
        (fun i => isOrphaned st i.metadata.labels)).map
       (fun i => (i.metadata.name, ""))).foldl (fun acc k => kremove crKey k acc) l)
      = l.filter (fun o => !(clusterOrphan st o.metadata)) := by
  rw [foldl_kremove_eq_filter]
  refine List.filter_congr ?_
  intro o ho
  congr 1
  cases hsc : clusterOrphan st o.metadata with
  | true =>
    rcases Bool.and_eq_true_iff.mp hsc with ⟨hml, hio⟩
    refine List.any_eq_true.mpr ⟨(o.metadata.name, ""), List.mem_map.mpr ⟨o,
      List.mem_filter.mpr ⟨List.mem_filter.mpr ⟨ho, hml⟩, hio⟩, rfl⟩, ?_⟩
    exact decide_eq_true (by
      rw [show crKey o = (o.metadata.name, o.metadata.nspace) from rfl, hns o ho])
  | false =>
    refine List.any_eq_false.mpr ?_
    intro k0 hk0
    intro hko
    rcases List.mem_map.mp hk0 with ⟨i, himem, hik⟩
    rcases List.mem_filter.mp himem with ⟨hifil, hio⟩
    rcases List.mem_filter.mp hifil with ⟨hil, hml⟩
    have hko2 : crKey o = (i.metadata.name, "") := (of_decide_eq_true hko).trans hik.symm
    have hki : crKey i = (i.metadata.name, "") := by
      rw [show crKey i = (i.metadata.name, i.metadata.nspace) from rfl, hns i hil]
    have hoi : o = i := kdistinct_eq hdis ho hil (hko2.trans hki.symm)
    have hsc2 : clusterOrphan st o.metadata = true := by
      rw [hoi]
      show (managedLabel i.metadata && isOrphaned st i.metadata.labels) = true
      rw [hml, hio]
      rfl
    rw [hsc2] at hsc
    exact Bool.noConfusion hsc

lemma rbSweepState_filter (st : ClusterState) (ns : String) (l : List RoleBinding)
    (hdis : kdistinct rbKey l) :
    ((((l.filter (fun o => decide (o.metadata.nspace = ns) && managedLabel o.metadata)).filter
        (fun i => isOrphaned st i.metadata.labels)).map
       (fun i => (i.metadata.name, ns))).foldl (fun acc k => kremove rbKey k acc) l)
      = l.filter (fun o => !(scopedOrphan st ns o.metadata)) := by
  rw [foldl_kremove_eq_filter]
  refine List.filter_congr ?_
  intro o ho
  congr 1
  cases hsc : scopedOrphan st ns o.metadata with
  | true =>
    rcases Bool.and_eq_true_iff.mp hsc with ⟨hnsd, hrest⟩
    rcases Bool.and_eq_true_iff.mp hrest with ⟨hml, hio⟩
    refine List.any_eq_true.mpr ⟨(o.metadata.name, ns), List.mem_map.mpr ⟨o,
      List.mem_filter.mpr ⟨List.mem_filter.mpr ⟨ho, ?_⟩, hio⟩, rfl⟩, ?_⟩
    · rw [hnsd, hml]
      rfl
    · exact decide_eq_true (by
        rw [show rbKey o = (o.metadata.name, o.metadata.nspace) from rfl, of_decide_eq_true hnsd])
  | false =>
    refine List.any_eq_false.mpr ?_
    intro k0 hk0
    intro hko
    rcases List.mem_map.mp hk0 with ⟨i, himem, hik⟩
    rcases List.mem_filter.mp himem with ⟨hifil, hio⟩
    rcases List.mem_filter.mp hifil with ⟨hil, hcond⟩
    rcases Bool.and_eq_true_iff.mp hcond with ⟨hnsd, hml⟩
    have hko2 : rbKey o = (i.metadata.name, ns) := (of_decide_eq_true hko).trans hik.symm
    have hki : rbKey i = (i.metadata.name, ns) := by
      rw [show rbKey i = (i.metadata.name, i.metadata.nspace) from rfl, of_decide_eq_true hnsd]
    have hoi : o = i := kdistinct_eq hdis ho hil (hko2.trans hki.symm)
    have hsc2 : scopedOrphan st ns o.metadata = true := by
      rw [hoi]
      show (decide (i.metadata.nspace = ns) && (managedLabel i.metadata && isOrphaned st i.metadata.labels)) = true
      rw [hnsd, hml, hio]
      rfl
    rw [hsc2] at hsc
    exact Bool.noConfusion hsc

lemma roleSweepState_filter (st : ClusterState) (ns : String) (l : List Role)
    (hdis : kdistinct roleKey l) :
    ((((l.filter (fun o => decide (o.metadata.nspace = ns) && managedLabel o.metadata)).filter
        (fun i => isOrphaned st i.metadata.labels)).map
       (fun i => (i.metadata.name, ns))).foldl (fun acc k => kremove roleKey k acc) l)
      = l.filter (fun o => !(scopedOrphan st ns o.metadata)) := by
  rw [foldl_kremove_eq_filter]
  refine List.filter_congr ?_
  intro o ho
  congr 1
  cases hsc : scopedOrphan st ns o.metadata with
  | true =>
    rcases Bool.and_eq_true_iff.mp hsc with ⟨hnsd, hrest⟩
    rcases Bool.and_eq_true_iff.mp hrest with ⟨hml, hio⟩
    refine List.any_eq_true.mpr ⟨(o.metadata.name, ns), List.mem_map.mpr ⟨o,
      List.mem_filter.mpr ⟨List.mem_filter.mpr ⟨ho, ?_⟩, hio⟩, rfl⟩, ?_⟩
    · rw [hnsd, hml]
      rfl
    · exact decide_eq_true (by
        rw [show roleKey o = (o.metadata.name, o.metadata.nspace) from rfl, of_decide_eq_true hnsd])
  | false =>
    refine List.any_eq_false.mpr ?_
    intro k0 hk0
    intro hko
    rcases List.mem_map.mp hk0 with ⟨i, himem, hik⟩
    rcases List.mem_filter.mp himem with ⟨hifil, hio⟩
    rcases List.mem_filter.mp hifil with ⟨hil, hcond⟩
    rcases Bool.and_eq_true_iff.mp hcond with ⟨hnsd, hml⟩
    have hko2 : roleKey o = (i.metadata.name, ns) := (of_decide_eq_true hko).trans hik.symm
    have hki : roleKey i = (i.metadata.name, ns) := by
      rw [show roleKey i = (i.metadata.name, i.metadata.nspace) from rfl, of_decide_eq_true hnsd]
    have hoi : o = i := kdistinct_eq hdis ho hil (hko2.trans hki.symm)
    have hsc2 : scopedOrphan st ns o.metadata = true := by
      rw [hoi]
      show (decide (i.metadata.nspace = ns) && (managedLabel i.metadata && isOrphaned st i.metadata.labels)) = true
      rw [hnsd, hml, hio]
      rfl
    rw [hsc2] at hsc
    exact Bool.noConfusion hsc

lemma saSweepState_filter (st : ClusterState) (ns : String) (l : List ServiceAccount)
    (hdis : kdistinct saKey l) :
    ((((l.filter (fun o => decide (o.metadata.nspace = ns) && managedLabel o.metadata)).filter
        (fun i => isOrphaned st i.metadata.labels)).map
       (fun i => (i.metadata.name, ns))).foldl (fun acc k => kremove saKey k acc) l)
      = l.filter (fun o => !(scopedOrphan st ns o.metadata)) := by
  rw [foldl_kremove_eq_filter]
  refine List.filter_congr ?_
  intro o ho
  congr 1
  cases hsc : scopedOrphan st ns o.metadata with
  | true =>
    rcases Bool.and_eq_true_iff.mp hsc with ⟨hnsd, hrest⟩
    rcases Bool.and_eq_true_iff.mp hrest with ⟨hml, hio⟩
    refine List.any_eq_true.mpr ⟨(o.metadata.name, ns), List.mem_map.mpr ⟨o,
      List.mem_filter.mpr ⟨List.mem_filter.mpr ⟨ho, ?_⟩, hio⟩, rfl⟩, ?_⟩
    · rw [hnsd, hml]
      rfl
    · exact decide_eq_true (by
        rw [show saKey o = (o.metadata.name, o.metadata.nspace) from rfl, of_decide_eq_true hnsd])
  | false =>
    refine List.any_eq_false.mpr ?_
    intro k0 hk0
    intro hko
    rcases List.mem_map.mp hk0 with ⟨i, himem, hik⟩
    rcases List.mem_filter.mp himem with ⟨hifil, hio⟩
    rcases List.mem_filter.mp hifil with ⟨hil, hcond⟩
    rcases Bool.and_eq_true_iff.mp hcond with ⟨hnsd, hml⟩
    have hko2 : saKey o = (i.metadata.name, ns) := (of_decide_eq_true hko).trans hik.symm
    have hki : saKey i = (i.metadata.name, ns) := by
      rw [show saKey i = (i.metadata.name, i.metadata.nspace) from rfl, of_decide_eq_true hnsd]
    have hoi : o = i := kdistinct_eq hdis ho hil (hko2.trans hki.symm)
    have hsc2 : scopedOrphan st ns o.metadata = true := by
      rw [hoi]
      show (decide (i.metadata.nspace = ns) && (managedLabel i.metadata && isOrphaned st i.metadata.labels)) = true
      rw [hnsd, hml, hio]
      rfl
    rw [hsc2] at hsc
    exact Bool.noConfusion hsc

end HelmTTL

namespace HelmTTL

/-- Orphaned managed role bindings of one namespace, as reported by the
sweep. -/
def nsOrphansRB (st : ClusterState) (ns : String) : List OrphanedResource :=
  ((st.roleBindings.filter (fun o => decide (o.metadata.nspace = ns) && managedLabel o.metadata)).filter
      (fun i => isOrphaned st i.metadata.labels)).map
    (fun i => (⟨"RoleBinding", i.metadata.name, ns⟩ : OrphanedResource))

/-- Orphaned managed roles of one namespace. -/
def nsOrphansRole (st : ClusterState) (ns : String) : List OrphanedResource :=
  ((st.roles.filter (fun o => decide (o.metadata.nspace = ns) && managedLabel o.metadata)).filter
      (fun i => isOrphaned st i.metadata.labels)).map
    (fun i => (⟨"Role", i.metadata.name, ns⟩ : OrphanedResource))

/-- Orphaned managed service accounts of one namespace. -/
def nsOrphansSA (st : ClusterState) (ns : String) : List OrphanedResource :=
  ((st.serviceAccounts.filter (fun o => decide (o.metadata.nspace = ns) && managedLabel o.metadata)).filter
      (fun i => isOrphaned st i.metadata.labels)).map
    (fun i => (⟨"ServiceAccount", i.metadata.name, ns⟩ : OrphanedResource))

/-- Orphaned managed cluster role bindings. -/
def clusterOrphansCRB (st : ClusterState) : List OrphanedResource :=
  ((st.clusterRoleBindings.filter (fun o => managedLabel o.metadata)).filter
      (fun i => isOrphaned st i.metadata.labels)).map
    (fun i => (⟨"ClusterRoleBinding", i.metadata.name, ""⟩ : OrphanedResource))

/-- Orphaned managed cluster roles. -/
def clusterOrphansCR (st : ClusterState) : List OrphanedResource :=
  ((st.clusterRoles.filter (fun o => managedLabel o.metadata)).filter
      (fun i => isOrphaned st i.metadata.labels)).map
    (fun i => (⟨"ClusterRole", i.metadata.name, ""⟩ : OrphanedResource))

/-- All orphans the sweep reports for one namespace. -/
def nsOrphans (st : ClusterState) (ns : String) : List OrphanedResource :=
  nsOrphansRB st ns ++ nsOrphansRole st ns ++ nsOrphansSA st ns


/-- Real sweep over the managed clusterRoleBindings of the base state, run from a
current state that still carries them: reports the base orphans and
filters exactly them out. -/
lemma sweepClusterRoleBindings_filtered (base cur : ClusterState) 
    (hfield : cur.clusterRoleBindings = base.clusterRoleBindings)
    (hcron : cur.cronjobs = base.cronjobs)
    (hre : cur.reactors = []) (hreB : base.reactors = [])
    (hdis : kdistinct crbKey base.clusterRoleBindings)
    (hnsf : ∀ o ∈ base.clusterRoleBindings, o.metadata.nspace = "") :
    sweepClusterRoleBindings false (base.clusterRoleBindings.filter (fun o => managedLabel o.metadata)) cur
      = (clusterOrphansCRB base,
         { cur with clusterRoleBindings := base.clusterRoleBindings.filter (fun o => !(clusterOrphan base o.metadata)) },
         none) := by
  rw [sweepClusterRoleBindings_run (base.clusterRoleBindings.filter (fun o => managedLabel o.metadata)) cur hre]
  have hio : isOrphaned cur = isOrphaned base :=
    isOrphaned_eq_of_fields hcron (hre.trans hreB.symm)
  rw [hio, hfield, crbSweepState_filter base base.clusterRoleBindings hdis hnsf]
  rfl

/-- Real sweep over the managed clusterRoles of the base state, run from a
current state that still carries them: reports the base orphans and
filters exactly them out. -/
lemma sweepClusterRoles_filtered (base cur : ClusterState) 
    (hfield : cur.clusterRoles = base.clusterRoles)
    (hcron : cur.cronjobs = base.cronjobs)
    (hre : cur.reactors = []) (hreB : base.reactors = [])
    (hdis : kdistinct crKey base.clusterRoles)
    (hnsf : ∀ o ∈ base.clusterRoles, o.metadata.nspace = "") :
    sweepClusterRoles false (base.clusterRoles.filter (fun o => managedLabel o.metadata)) cur
      = (clusterOrphansCR base,
         { cur with clusterRoles := base.clusterRoles.filter (fun o => !(clusterOrphan base o.metadata)) },
         none) := by
  rw [sweepClusterRoles_run (base.clusterRoles.filter (fun o => managedLabel o.metadata)) cur hre]
  have hio : isOrphaned cur = isOrphaned base :=
    isOrphaned_eq_of_fields hcron (hre.trans hreB.symm)
  rw [hio, hfield, crSweepState_filter base base.clusterRoles hdis hnsf]
  rfl

/-- Real sweep over the managed roleBindings of the base state, run from a
current state that still carries them: reports the base orphans and
filters exactly them out. -/
lemma sweepRoleBindings_filtered (base cur : ClusterState) (ns : String) 
    (hfield : cur.roleBindings = base.roleBindings)
    (hcron : cur.cronjobs = base.cronjobs)
    (hre : cur.reactors = []) (hreB : base.reactors = [])
    (hdis : kdistinct rbKey base.roleBindings) :
    sweepRoleBindings false ns (base.roleBindings.filter (fun o => decide (o.metadata.nspace = ns) && managedLabel o.metadata)) cur
      = (nsOrphansRB base ns,
         { cur with roleBindings := base.roleBindings.filter (fun o => !(scopedOrphan base ns o.metadata)) },
         none) := by
  rw [sweepRoleBindings_run ns (base.roleBindings.filter (fun o => decide (o.metadata.nspace = ns) && managedLabel o.metadata)) cur hre]
  have hio : isOrphaned cur = isOrphaned base :=
    isOrphaned_eq_of_fields hcron (hre.trans hreB.symm)
  rw [hio, hfield, rbSweepState_filter base ns base.roleBindings hdis]
  rfl

/-- Real sweep over the managed roles of the base state, run from a
current state that still carries them: reports the base orphans and
filters exactly them out. -/
lemma sweepRoles_filtered (base cur : ClusterState) (ns : String) 
    (hfield : cur.roles = base.roles)
    (hcron : cur.cronjobs = base.cronjobs)
    (hre : cur.reactors = []) (hreB : base.reactors = [])
    (hdis : kdistinct roleKey base.roles) :
    sweepRoles false ns (base.roles.filter (fun o => decide (o.metadata.nspace = ns) && managedLabel o.metadata)) cur
      = (nsOrphansRole base ns,
         { cur with roles := base.roles.filter (fun o => !(scopedOrphan base ns o.metadata)) },
         none) := by
  rw [sweepRoles_run ns (base.roles.filter (fun o => decide (o.metadata.nspace = ns) && managedLabel o.metadata)) cur hre]
  have hio : isOrphaned cur = isOrphaned base :=
    isOrphaned_eq_of_fields hcron (hre.trans hreB.symm)
  rw [hio, hfield, roleSweepState_filter base ns base.roles hdis]
  rfl

/-- Real sweep over the managed serviceAccounts of the base state, run from a
current state that still carries them: reports the base orphans and
filters exactly them out. -/
lemma sweepServiceAccounts_filtered (base cur : ClusterState) (ns : String) 
    (hfield : cur.serviceAccounts = base.serviceAccounts)
    (hcron : cur.cronjobs = base.cronjobs)
    (hre : cur.reactors = []) (hreB : base.reactors = [])
    (hdis : kdistinct saKey base.serviceAccounts) :
    sweepServiceAccounts false ns (base.serviceAccounts.filter (fun o => decide (o.metadata.nspace = ns) && managedLabel o.metadata)) cur
      = (nsOrphansSA base ns,
         { cur with serviceAccounts := base.serviceAccounts.filter (fun o => !(scopedOrphan base ns o.metadata)) },
         none) := by
  rw [sweepServiceAccounts_run ns (base.serviceAccounts.filter (fun o => decide (o.metadata.nspace = ns) && managedLabel o.metadata)) cur hre]
  have hio : isOrphaned cur = isOrphaned base :=
    isOrphaned_eq_of_fields hcron (hre.trans hreB.symm)
  rw [hio, hfield, saSweepState_filter base ns base.serviceAccounts hdis]
  rfl

end HelmTTL

namespace HelmTTL

/-- The state after the real sweep of one namespace: the scoped managed
orphans of the three namespaced kinds are filtered out. -/
def nsSweepState (st : ClusterState) (ns : String) : ClusterState :=
  { st with
    roleBindings := st.roleBindings.filter (fun o => !(scopedOrphan st ns o.metadata))
    roles := st.roles.filter (fun o => !(scopedOrphan st ns o.metadata))
    serviceAccounts := st.serviceAccounts.filter (fun o => !(scopedOrphan st ns o.metadata)) }

/-- Dry-run sweep of one namespace: reports the orphans of the three kinds
and leaves the state untouched. -/
lemma sweepNamespace_dry (st : ClusterState) (ns : String) (hr : st.reactors = []) :
    sweepNamespace true ns st = (nsOrphans st ns, st, none) := by
  unfold sweepNamespace
  rw [listRoleBindingsManaged_noreact st ns hr]
  dsimp only
  rw [sweepRoleBindings_dry ns (st.roleBindings.filter
    (fun o => decide (o.metadata.nspace = ns) && managedLabel o.metadata)) st]
  dsimp only
  rw [listRolesManaged_noreact st ns hr]
  dsimp only
  rw [sweepRoles_dry ns (st.roles.filter
    (fun o => decide (o.metadata.nspace = ns) && managedLabel o.metadata)) st]
  dsimp only
  rw [listServiceAccountsManaged_noreact st ns hr]
  dsimp only
  rw [sweepServiceAccounts_dry ns (st.serviceAccounts.filter
    (fun o => decide (o.metadata.nspace = ns) && managedLabel o.metadata)) st]
  rfl

/-- Real sweep of one namespace: reports the same orphans and deletes
exactly the scoped managed orphans of the three kinds. -/
lemma sweepNamespace_run (st : ClusterState) (ns : String) (hr : st.reactors = [])
    (hdisRB : kdistinct rbKey st.roleBindings) (hdisRo : kdistinct roleKey st.roles)
    (hdisSA : kdistinct saKey st.serviceAccounts) :
    sweepNamespace false ns st = (nsOrphans st ns, nsSweepState st ns, none) := by
  unfold sweepNamespace
  rw [listRoleBindingsManaged_noreact st ns hr]
  dsimp only
  rw [sweepRoleBindings_filtered st st ns rfl rfl hr hr hdisRB]
  dsimp only
  rw [listRolesManaged_noreact
    { st with roleBindings := st.roleBindings.filter (fun o => !(scopedOrphan st ns o.metadata)) }
    ns hr]
  dsimp only
  rw [sweepRoles_filtered st
    { st with roleBindings := st.roleBindings.filter (fun o => !(scopedOrphan st ns o.metadata)) }
    ns rfl rfl hr hr hdisRo]
  dsimp only
  rw [listServiceAccountsManaged_noreact
    { st with roleBindings := st.roleBindings.filter (fun o => !(scopedOrphan st ns o.metadata)), roles := st.roles.filter (fun o => !(scopedOrphan st ns o.metadata)) }
    ns hr]
  dsimp only
  rw [sweepServiceAccounts_filtered st
    { st with roleBindings := st.roleBindings.filter (fun o => !(scopedOrphan st ns o.metadata)), roles := st.roles.filter (fun o => !(scopedOrphan st ns o.metadata)) }
    ns rfl rfl hr hr hdisSA]
  rfl

end HelmTTL

namespace HelmTTL

lemma filter_filter_eq {α : Type} (p q r : α → Bool) (l : List α)
    (h : ∀ a ∈ l, (p a && q a) = r a) :
    (l.filter p).filter q = l.filter r := by
  induction l with
  | nil => rfl
  | cons a t ih =>
    have ih2 := ih (fun a ha => h a (List.mem_cons_of_mem _ ha))
    have ha := h a (List.mem_cons_self a t)
    cases hp : p a with
    | true =>
      cases hq : q a with
      | true =>
        have hr : r a = true := by rw [← ha, hp, hq]; rfl
        simp [List.filter_cons, hp, hq, hr, ih2]
      | false =>
        have hr : r a = false := by rw [← ha, hp, hq]; rfl
        simp [List.filter_cons, hp, hq, hr, ih2]
    | false =>
      have hr : r a = false := by rw [← ha, hp]; rfl
      simp [List.filter_cons, hp, hr, ih2]

lemma not_and_distrib_orphan (d1 d2 m o : Bool) :
    ((!(d1 && (m && o))) && (!(d2 && (m && o)))) = (!((d1 || d2) && (m && o))) := by
  cases d1 <;> cases d2 <;> cases m <;> cases o <;> rfl

lemma decide_mem_cons (x a : String) (l : List String) :
    decide (x ∈ a :: l) = (decide (x = a) || decide (x ∈ l)) := by
  by_cases hx : x ∈ a :: l
  · rw [decide_eq_true hx]
    rcases List.mem_cons.mp hx with h1 | h2
    · rw [decide_eq_true h1, Bool.true_or]
    · rw [decide_eq_true h2, Bool.or_true]
  · rw [decide_eq_false hx, decide_eq_false (fun h1 => hx (List.mem_cons.mpr (Or.inl h1))),
      decide_eq_false (fun h2 => hx (List.mem_cons.mpr (Or.inr h2)))]
    rfl

/-- All orphans the sweep reports over a namespace list. -/
def nssOrphans (st : ClusterState) : List String → List OrphanedResource
  | [] => []
  | ns :: rest => nsOrphans st ns ++ nssOrphans st rest

/-- An object the full sweep deletes: in one of the requested namespaces,
managed, and orphaned. -/
def nssOrphanPred (st : ClusterState) (nss : List String) (m : ObjectMeta) : Bool :=
  decide (m.nspace ∈ nss) && (managedLabel m && isOrphaned st m.labels)

/-- The state after the real sweep of all requested namespaces. -/
def nssSweepState (st : ClusterState) (nss : List String) : ClusterState :=
  { st with
    roleBindings := st.roleBindings.filter (fun o => !(nssOrphanPred st nss o.metadata))
    roles := st.roles.filter (fun o => !(nssOrphanPred st nss o.metadata))
    serviceAccounts := st.serviceAccounts.filter (fun o => !(nssOrphanPred st nss o.metadata)) }

/-- Sweeping another namespace does not change the orphans one namespace
reports, as deletions only remove objects of the swept namespace. -/
lemma nsOrphans_nsSweepState (st : ClusterState) (ns ns2 : String) (hne : ¬ ns2 = ns) :
    nsOrphans (nsSweepState st ns) ns2 = nsOrphans st ns2 := by
  unfold nsOrphans nsOrphansRB nsOrphansRole nsOrphansSA
  rw [show (nsSweepState st ns).roleBindings
      = st.roleBindings.filter (fun o => !(scopedOrphan st ns o.metadata)) from rfl]
  rw [show (nsSweepState st ns).roles
      = st.roles.filter (fun o => !(scopedOrphan st ns o.metadata)) from rfl]
  rw [show (nsSweepState st ns).serviceAccounts
      = st.serviceAccounts.filter (fun o => !(scopedOrphan st ns o.metadata)) from rfl]
  rw [isOrphaned_eq_of_fields
    (show (nsSweepState st ns).cronjobs = st.cronjobs from rfl)
    (show (nsSweepState st ns).reactors = st.reactors from rfl)]
  rw [filter_filter_eq (fun o : RoleBinding => !(scopedOrphan st ns o.metadata))
    (fun o => decide (o.metadata.nspace = ns2) && managedLabel o.metadata)
    (fun o => decide (o.metadata.nspace = ns2) && managedLabel o.metadata)
    st.roleBindings ?_]
  rw [filter_filter_eq (fun o : Role => !(scopedOrphan st ns o.metadata))
    (fun o => decide (o.metadata.nspace = ns2) && managedLabel o.metadata)
    (fun o => decide (o.metadata.nspace = ns2) && managedLabel o.metadata)
    st.roles ?_]
  rw [filter_filter_eq (fun o : ServiceAccount => !(scopedOrphan st ns o.metadata))
    (fun o => decide (o.metadata.nspace = ns2) && managedLabel o.metadata)
    (fun o => decide (o.metadata.nspace = ns2) && managedLabel o.metadata)
    st.serviceAccounts ?_]
  all_goals {
    intro a ha
    dsimp only
    cases hq : (decide (a.metadata.nspace = ns2) && managedLabel a.metadata) with
    | false => rw [Bool.and_false]
    | true =>
      rw [Bool.and_true]
      rcases Bool.and_eq_true_iff.mp hq with ⟨hns2, hml⟩
      show (!(decide (a.metadata.nspace = ns)
        && (managedLabel a.metadata && isOrphaned st a.metadata.labels))) = true
      rw [decide_eq_false (fun he => hne ((of_decide_eq_true hns2).symm.trans he))]
      rfl
  }

/-- Sweeping one namespace leaves the orphan reports of the remaining
namespaces unchanged. -/
lemma nssOrphans_nsSweepState (st : ClusterState) (ns : String) (rest : List String)
    (hnm : ns ∉ rest) :
    nssOrphans (nsSweepState st ns) rest = nssOrphans st rest := by
  induction rest with
  | nil => rfl
  | cons ns2 rest2 ih2 =>
    have hne : ¬ ns2 = ns := fun he => hnm (List.mem_cons.mpr (Or.inl he.symm))
    have hnm2 : ns ∉ rest2 := fun hm => hnm (List.mem_cons.mpr (Or.inr hm))
    show nsOrphans (nsSweepState st ns) ns2 ++ nssOrphans (nsSweepState st ns) rest2
      = nsOrphans st ns2 ++ nssOrphans st rest2
    rw [ih2 hnm2, nsOrphans_nsSweepState st ns ns2 hne]

/-- Sweeping one namespace and then a namespace list equals sweeping the
extended list. -/
lemma nssSweepState_comp (st : ClusterState) (ns : String) (rest : List String) :
    nssSweepState (nsSweepState st ns) rest = nssSweepState st (ns :: rest) := by
  have hp : nssOrphanPred (nsSweepState st ns) rest = nssOrphanPred st rest := by
    funext m
    unfold nssOrphanPred
    rw [isOrphaned_eq_of_fields
      (show (nsSweepState st ns).cronjobs = st.cronjobs from rfl)
      (show (nsSweepState st ns).reactors = st.reactors from rfl)]
  unfold nssSweepState
  rw [hp]
  rw [show (nsSweepState st ns).roleBindings
      = st.roleBindings.filter (fun o => !(scopedOrphan st ns o.metadata)) from rfl]
  rw [show (nsSweepState st ns).roles
      = st.roles.filter (fun o => !(scopedOrphan st ns o.metadata)) from rfl]
  rw [show (nsSweepState st ns).serviceAccounts
      = st.serviceAccounts.filter (fun o => !(scopedOrphan st ns o.metadata)) from rfl]
  rw [filter_filter_eq (fun o : RoleBinding => !(scopedOrphan st ns o.metadata))
    (fun o => !(nssOrphanPred st rest o.metadata))
    (fun o => !(nssOrphanPred st (ns :: rest) o.metadata)) st.roleBindings ?_]
  rw [filter_filter_eq (fun o : Role => !(scopedOrphan st ns o.metadata))
    (fun o => !(nssOrphanPred st rest o.metadata))
    (fun o => !(nssOrphanPred st (ns :: rest) o.metadata)) st.roles ?_]
  rw [filter_filter_eq (fun o : ServiceAccount => !(scopedOrphan st ns o.metadata))
    (fun o => !(nssOrphanPred st rest o.metadata))
    (fun o => !(nssOrphanPred st (ns :: rest) o.metadata)) st.serviceAccounts ?_]
  rfl
  all_goals {
    intro a ha
    show ((!(decide (a.metadata.nspace = ns)
        && (managedLabel a.metadata && isOrphaned st a.metadata.labels)))
      && (!(decide (a.metadata.nspace ∈ rest)
        && (managedLabel a.metadata && isOrphaned st a.metadata.labels))))
      = (!(decide (a.metadata.nspace ∈ ns :: rest)
        && (managedLabel a.metadata && isOrphaned st a.metadata.labels)))
    rw [decide_mem_cons]
    exact not_and_distrib_orphan _ _ _ _
  }

/-- Dry-run sweep over a namespace list: reports every orphan and leaves
the state untouched. -/
lemma sweepNamespaces_dry (nss : List String) (st : ClusterState) (hr : st.reactors = []) :
    sweepNamespaces true nss st = (nssOrphans st nss, st, none) := by
  induction nss with
  | nil => rfl
  | cons ns rest ih =>
    rw [show sweepNamespaces true (ns :: rest) st =
      (match sweepNamespace true ns st with
       | (os, st1, some f) => (os, st1, some f)
       | (os, st1, none) =>
         match sweepNamespaces true rest st1 with
         | (os2, st2, f) => (os ++ os2, st2, f)) from rfl]
    rw [sweepNamespace_dry st ns hr]
    dsimp only
    rw [ih]
    rfl

/-- Real sweep over a duplicate-free namespace list: reports every orphan
and deletes exactly the scoped managed orphans. -/
lemma sweepNamespaces_run (nss : List String) (st : ClusterState) (hr : st.reactors = [])
    (hno : nss.Nodup)
    (hdisRB : kdistinct rbKey st.roleBindings) (hdisRo : kdistinct roleKey st.roles)
    (hdisSA : kdistinct saKey st.serviceAccounts) :
    sweepNamespaces false nss st = (nssOrphans st nss, nssSweepState st nss, none) := by
  induction nss generalizing st with
  | nil =>
    have hpred : ∀ m : ObjectMeta, (!(nssOrphanPred st [] m)) = true := by
      intro m
      unfold nssOrphanPred
      simp
    show ([], st, none) = (nssOrphans st [], nssSweepState st [], none)
    unfold nssSweepState
    rw [show st.roleBindings.filter (fun o => !(nssOrphanPred st [] o.metadata)) = st.roleBindings
      from List.filter_eq_self.mpr (fun a _ => hpred a.metadata)]
    rw [show st.roles.filter (fun o => !(nssOrphanPred st [] o.metadata)) = st.roles
      from List.filter_eq_self.mpr (fun a _ => hpred a.metadata)]
    rw [show st.serviceAccounts.filter (fun o => !(nssOrphanPred st [] o.metadata)) = st.serviceAccounts
      from List.filter_eq_self.mpr (fun a _ => hpred a.metadata)]
    rfl
  | cons ns rest ih =>
    have hnm : ns ∉ rest := (List.nodup_cons.mp hno).1
    have hno2 : rest.Nodup := (List.nodup_cons.mp hno).2
    rw [show sweepNamespaces false (ns :: rest) st =
      (match sweepNamespace false ns st with
       | (os, st1, some f) => (os, st1, some f)
       | (os, st1, none) =>
         match sweepNamespaces false rest st1 with
         | (os2, st2, f) => (os ++ os2, st2, f)) from rfl]
    rw [sweepNamespace_run st ns hr hdisRB hdisRo hdisSA]
    dsimp only
    rw [ih (nsSweepState st ns) hr hno2
      (kdistinct_filter (fun o : RoleBinding => !(scopedOrphan st ns o.metadata)) hdisRB)
      (kdistinct_filter (fun o : Role => !(scopedOrphan st ns o.metadata)) hdisRo)
      (kdistinct_filter (fun o : ServiceAccount => !(scopedOrphan st ns o.metadata)) hdisSA)]
    rw [nssOrphans_nsSweepState st ns rest hnm, nssSweepState_comp st ns rest]
    rfl

end HelmTTL

namespace HelmTTL

/-- Full orphan list CleanupOrphaned reports: cluster role bindings, then
cluster roles, then the per-namespace kinds. -/
def coreOrphans (st : ClusterState) (nss : List String) : List OrphanedResource :=
  clusterOrphansCRB st ++ clusterOrphansCR st ++ nssOrphans st nss

/-- Final state of a real CleanupOrphaned run: exactly the managed orphaned
objects (scoped to the requested namespaces for the namespaced kinds) are
removed. -/
def coreFinalState (st : ClusterState) (nss : List String) : ClusterState :=
  { st with
    clusterRoleBindings := st.clusterRoleBindings.filter (fun o => !(clusterOrphan st o.metadata))
    clusterRoles := st.clusterRoles.filter (fun o => !(clusterOrphan st o.metadata))
    roleBindings := st.roleBindings.filter (fun o => !(nssOrphanPred st nss o.metadata))
    roles := st.roles.filter (fun o => !(nssOrphanPred st nss o.metadata))
    serviceAccounts := st.serviceAccounts.filter (fun o => !(nssOrphanPred st nss o.metadata)) }

lemma nsOrphans_congr (s t : ClusterState) (hrb : s.roleBindings = t.roleBindings)
    (hro : s.roles = t.roles) (hsa : s.serviceAccounts = t.serviceAccounts)
    (hc : s.cronjobs = t.cronjobs) (hre : s.reactors = t.reactors) :
    nsOrphans s = nsOrphans t := by
  funext ns
  unfold nsOrphans nsOrphansRB nsOrphansRole nsOrphansSA
  rw [hrb, hro, hsa, isOrphaned_eq_of_fields hc hre]

lemma nssOrphans_congr (s t : ClusterState) (hrb : s.roleBindings = t.roleBindings)
    (hro : s.roles = t.roles) (hsa : s.serviceAccounts = t.serviceAccounts)
    (hc : s.cronjobs = t.cronjobs) (hre : s.reactors = t.reactors) :
    nssOrphans s = nssOrphans t := by
  funext nss
  induction nss with
  | nil => rfl
  | cons ns rest ih =>
    show nsOrphans s ns ++ nssOrphans s rest = nsOrphans t ns ++ nssOrphans t rest
    rw [nsOrphans_congr s t hrb hro hsa hc hre, ih]

/-- Dry-run CleanupOrphaned body: reports every orphan and leaves the state
untouched. -/
lemma cleanupOrphanedCore_dry (st : ClusterState) (nss : List String)
    (hr : st.reactors = []) :
    cleanupOrphanedCore st nss true = (coreOrphans st nss, st, none) := by
  unfold cleanupOrphanedCore
  rw [listClusterRoleBindingsManaged_noreact st hr]
  dsimp only
  rw [sweepClusterRoleBindings_dry
    (st.clusterRoleBindings.filter (fun o => managedLabel o.metadata)) st]
  dsimp only
  rw [listClusterRolesManaged_noreact st hr]
  dsimp only
  rw [sweepClusterRoles_dry (st.clusterRoles.filter (fun o => managedLabel o.metadata)) st]
  dsimp only
  rw [sweepNamespaces_dry nss st hr]
  rfl

/-- Real CleanupOrphaned body: reports the same orphans, deletes exactly
them, and returns no error. -/
lemma cleanupOrphanedCore_run (st : ClusterState) (nss : List String)
    (hr : st.reactors = []) (hno : nss.Nodup) (hw : wellFormedRBAC st)
    (hcs1 : ∀ o ∈ st.clusterRoleBindings, o.metadata.nspace = "")
    (hcs2 : ∀ o ∈ st.clusterRoles, o.metadata.nspace = "") :
    cleanupOrphanedCore st nss false = (coreOrphans st nss, coreFinalState st nss, none) := by
  obtain ⟨hdisSA, hdisRo, hdisRB, hdisCR, hdisCRB⟩ := hw
  unfold cleanupOrphanedCore
  rw [listClusterRoleBindingsManaged_noreact st hr]
  dsimp only
  rw [sweepClusterRoleBindings_filtered st st rfl rfl hr hr hdisCRB hcs1]
  dsimp only
  rw [listClusterRolesManaged_noreact
    { st with clusterRoleBindings := st.clusterRoleBindings.filter (fun o => !(clusterOrphan st o.metadata)) } hr]
  dsimp only
  rw [sweepClusterRoles_filtered st
    { st with clusterRoleBindings := st.clusterRoleBindings.filter (fun o => !(clusterOrphan st o.metadata)) }
    rfl rfl hr hr hdisCR hcs2]
  dsimp only
  rw [sweepNamespaces_run nss
    { st with clusterRoleBindings := st.clusterRoleBindings.filter (fun o => !(clusterOrphan st o.metadata)), clusterRoles := st.clusterRoles.filter (fun o => !(clusterOrphan st o.metadata)) }
    hr hno hdisRB hdisRo hdisSA]
  dsimp only
  have horph : nssOrphans
      { st with clusterRoleBindings := st.clusterRoleBindings.filter (fun o => !(clusterOrphan st o.metadata)), clusterRoles := st.clusterRoles.filter (fun o => !(clusterOrphan st o.metadata)) }
      = nssOrphans st :=
    nssOrphans_congr _ st rfl rfl rfl rfl rfl
  have hpred : nssOrphanPred
      { st with clusterRoleBindings := st.clusterRoleBindings.filter (fun o => !(clusterOrphan st o.metadata)), clusterRoles := st.clusterRoles.filter (fun o => !(clusterOrphan st o.metadata)) }
      = nssOrphanPred st := by
    funext nss2 m
    unfold nssOrphanPred
    rw [isOrphaned_eq_of_fields
      (show ({ st with clusterRoleBindings := st.clusterRoleBindings.filter (fun o => !(clusterOrphan st o.metadata)), clusterRoles := st.clusterRoles.filter (fun o => !(clusterOrphan st o.metadata)) } : ClusterState).cronjobs = st.cronjobs from rfl)
      (show ({ st with clusterRoleBindings := st.clusterRoleBindings.filter (fun o => !(clusterOrphan st o.metadata)), clusterRoles := st.clusterRoles.filter (fun o => !(clusterOrphan st o.metadata)) } : ClusterState).reactors = st.reactors from rfl)]
  rw [horph]
  rw [show nssSweepState
      { st with clusterRoleBindings := st.clusterRoleBindings.filter (fun o => !(clusterOrphan st o.metadata)), clusterRoles := st.clusterRoles.filter (fun o => !(clusterOrphan st o.metadata)) }
      nss = coreFinalState st nss from by
    unfold nssSweepState coreFinalState
    rw [hpred]]
  rfl

end HelmTTL

namespace HelmTTL

/-- C5 confirmed: CleanupOrphaned with dryRun=true deletes nothing — the
cluster state comes back unchanged — while dryRun=false deletes exactly the
managed-labelled objects whose referenced CronJob is absent (isOrphaned;
the namespaced kinds scoped to the requested namespaces), deleting orphans
as they are found with not-found tolerated, and leaves every other object
untouched, as the per-field filters of coreFinalState state; both modes
return the identical full orphan list coreOrphans and no error.  Proved for
every duplicate-free namespace list on any well-formed cluster without
injected API failures. -/
theorem cleanupOrphaned_spec (st : ClusterState) (nss : List String)
    (hr : st.reactors = []) (hno : nss.Nodup) (hw : wellFormedRBAC st)
    (hcs1 : ∀ o ∈ st.clusterRoleBindings, o.metadata.nspace = "")
    (hcs2 : ∀ o ∈ st.clusterRoles, o.metadata.nspace = "") :
    cleanupOrphaned st nss false true = (coreOrphans st nss, st, none) ∧
    cleanupOrphaned st nss false false = (coreOrphans st nss, coreFinalState st nss, none) :=
  ⟨cleanupOrphanedCore_dry st nss hr,
   cleanupOrphanedCore_run st nss hr hno hw hcs1 hcs2⟩

/-- Stored CronJob of the C5 witness scenario, referenced by the kept
service account. -/
def c5CronJob : CronJob :=
  { metadata := ⟨"keep-default-ttl", "default", [], [], ""⟩
    spec := default }

/-- Managed service account whose CronJob exists: not orphaned. -/
def c5Keep : ServiceAccount :=
  ⟨⟨"keep-default-ttl", "default",
    [(LabelManagedBy, LabelManagedByValue), (LabelRelease, "keep"),
     (LabelReleaseNamespace, "default")], [], ""⟩⟩

/-- Managed cluster role binding whose CronJob is gone: orphaned. -/
def c5Orphan : ClusterRoleBinding :=
  { metadata := ⟨"gone-default-ttl", "",
      [(LabelManagedBy, LabelManagedByValue), (LabelRelease, "gone"),
       (LabelReleaseNamespace, "default")], [], ""⟩
    subjects := []
    roleRef := default }

/-- C5 witness cluster: one kept object, one orphan, no injected failures. -/
def c5State : ClusterState :=
  ⟨[c5CronJob], [], [], [c5Keep], [], [], [], [c5Orphan], ["default"], []⟩

/-- Closed instance of the C5 theorem on the witness cluster. -/
theorem cleanupOrphaned_spec_witness :
    cleanupOrphaned c5State ["default"] false true
      = (coreOrphans c5State ["default"], c5State, none) ∧
    cleanupOrphaned c5State ["default"] false false
      = (coreOrphans c5State ["default"], coreFinalState c5State ["default"], none) :=
  cleanupOrphaned_spec c5State ["default"] rfl (by decide)
    ⟨List.Pairwise.cons (fun b hb => absurd hb (List.not_mem_nil b)) List.Pairwise.nil,
     List.Pairwise.nil, List.Pairwise.nil, List.Pairwise.nil,
     List.Pairwise.cons (fun b hb => absurd hb (List.not_mem_nil b)) List.Pairwise.nil⟩
    (by decide) (by decide)

end HelmTTL
